import Mathlib

/-!
# GFS2 metadata buffer cache and AIL draining (dio.c)

A shallow embedding of `gfs2-kernel/src/gfs2/dio.c`: the buffer heads with their
state bits, the per-buffer `gfs2_bufdata`, the AIL entries (`gfs2_ail`) with their
two lists, the glocks with their AIL membership list and counter, and the functions
that pin, unpin, write, drain and invalidate buffers.

Conventions of the embedding.

* An object is named by a natural number.  A buffer head and the `gfs2_bufdata`
  hanging off it share one number (`bd->bd_bh == bh`); `get_v2bd(bh)` is the
  optional entry `bd b`.
* A kernel list is a Lean list whose first element is `head->next` and whose last
  element is `head->prev`.  `list_add` conses, `list_del` unlinks the node from the
  list it is linked in.
* The bits of `b_state` are Boolean fields; the bits of a `flags` word are the
  Boolean fields of `dio_flags`.
* The log lock (`gfs2_log_lock`/`gfs2_log_unlock`) and the page lock have no effect
  in a sequential run and are left out.
* A transfer handed to the block layer is answered by a `Storage` oracle, so that
  every storage outcome is covered.
-/

namespace Gfs2

/-! ## Data model -/

/-- Ways in which a call stops without returning. -/
inductive Fault where
  /-- A failed `gfs2_assert`: the kernel stops. -/
  | panic
  /-- A NULL pointer is dereferenced. -/
  | null_deref
  /-- The iteration budget given to a loop of the model is used up. -/
  | no_fuel
  deriving DecidableEq, Repr

/-- The bits of a `flags` argument that dio.c tests (`flags & DIO_X`). -/
structure dio_flags where
  DIO_FORCE : Bool := false
  DIO_CLEAN : Bool := false
  DIO_DIRTY : Bool := false
  DIO_START : Bool := false
  DIO_WAIT : Bool := false
  DIO_ALL : Bool := false
  deriving DecidableEq, Repr

/-- The errno value `EIO`. -/
def EIO : Int := 5

/-- Modelled from the spec: the magic constant of the fixed header stamped on a new
buffer (`GFS2_MAGIC`, declared in the on-disk format header). -/
def GFS2_MAGIC : Nat := 0x01161970

/-- A `struct buffer_head`: block number, the state bits dio.c looks at, the
reference count, and the two header words of `b_data` that dio.c writes.  The lock
bit seen between two calls is that of a transfer in flight: the block layer locks
the buffer and takes a reference when it is handed the buffer, and unlocks it and
drops the reference when the transfer ends. -/
structure buffer_head where
  b_blocknr : Nat
  BH_Uptodate : Bool
  BH_Dirty : Bool
  BH_Lock : Bool
  BH_Pinned : Bool
  b_count : Int
  mh_magic : Nat
  mh_blkno : Nat
  BH_Mapped : Bool
  deriving DecidableEq, Repr

/-- A `struct gfs2_bufdata`: the owning glock and the AIL entry (NULL = `none`).
The links `bd_ail_st_list` and `bd_ail_gl_list` are the positions of the object in
the lists of `gfs2_ail` and `gfs2_glock`. -/
structure gfs2_bufdata where
  bd_gl : Nat
  bd_ail : Option Nat
  deriving DecidableEq, Repr

/-- A `struct gfs2_ail`: the pending list and the awaiting-release list. -/
structure gfs2_ail where
  ai_ail1_list : List Nat
  ai_ail2_list : List Nat
  deriving DecidableEq, Repr

/-- A `struct gfs2_glock` with its address space `gl_aspace`: AIL membership list
and counter, the write count of the address space, and the pages its mapping holds,
each page being the ring of its buffer heads from `page_buffers(page)` on. -/
structure gfs2_glock where
  gl_ail_list : List Nat
  gl_ail_count : Int
  i_writecount : Int
  pages : List (List Nat)
  deriving DecidableEq, Repr

/-- The field `mapping->nrpages` of the address space: the number of pages held. -/
def gfs2_glock.nrpages (gl : gfs2_glock) : Nat := gl.pages.length

/-- A request handed to the block layer by `ll_rw_block`. -/
inductive io_request where
  | read (b : Nat)
  | write (b : Nat)
  deriving DecidableEq, Repr

/-- A call into the log subsystem. -/
inductive log_event where
  | trans_begin (meta_blocks : Nat) (blocks : Nat)
  | trans_add_revoke (blkno : Nat)
  | trans_end
  | log_flush
  deriving DecidableEq, Repr

/-- The filesystem instance `sdp` together with the objects reachable from it:
the two `sd_flags` bits dio.c tests, the buffer heads, their bufdata, the glocks,
the AIL entries, whether the running task has a transaction (`get_transaction`),
and the record of what was reported or handed to other subsystems.  Further:
the counters `sd_log_num_buf` and `sd_bufdata_count`, the counter `tr_num_buf_rm`
of the running transaction, the bufdata linked through `bd_le.le_list` (`le_list`)
and through `bd_list_tr` (`list_tr`), and the blocks reported by
`stuck_releasepage`. -/
structure gfs2_sbd where
  SDF_SHUTDOWN : Bool
  SDF_ROFS : Bool
  bh : Nat → buffer_head
  bd : Nat → Option gfs2_bufdata
  gl : Nat → gfs2_glock
  ai : Nat → gfs2_ail
  get_transaction : Bool
  withdraws : Nat
  warnings : Nat
  io_errors : List Nat
  io_log : List io_request
  trans_log : List log_event
  sd_log_num_buf : Nat
  sd_bufdata_count : Int
  tr_num_buf_rm : Nat
  le_list : List Nat
  list_tr : List Nat
  stuck_reports : List Nat

/-- How a transfer stands when `ll_rw_block` returns. -/
inductive io_result where
  /-- Still in flight: the buffer stays locked. -/
  | inflight
  /-- Finished, successfully or not. -/
  | done (ok : Bool)
  deriving DecidableEq, Repr

/-- The storage: for the transfer issued after `n` earlier ones on buffer `b`,
`submit n b` says how it stands when `ll_rw_block` returns, and `finish n b` says
whether a transfer found in flight on `b` ends well. -/
structure Storage where
  submit : Nat → Nat → io_result
  finish : Nat → Nat → Bool

/-! ## Kernel primitives used by dio.c -/

/-- Replace buffer head `b`. -/
def set_bh (sdp : gfs2_sbd) (b : Nat) (h : buffer_head) : gfs2_sbd :=
  { sdp with bh := fun i => if i = b then h else sdp.bh i }

/-- Replace the bufdata of buffer `b`. -/
def set_bd (sdp : gfs2_sbd) (b : Nat) (d : gfs2_bufdata) : gfs2_sbd :=
  { sdp with bd := fun i => if i = b then some d else sdp.bd i }

/-- Replace glock `g`. -/
def set_gl (sdp : gfs2_sbd) (g : Nat) (x : gfs2_glock) : gfs2_sbd :=
  { sdp with gl := fun i => if i = g then x else sdp.gl i }

/-- Replace AIL entry `a`. -/
def set_ai (sdp : gfs2_sbd) (a : Nat) (x : gfs2_ail) : gfs2_sbd :=
  { sdp with ai := fun i => if i = a then x else sdp.ai i }

/-- The macro `buffer_busy`: dirty, locked or pinned. -/
def buffer_busy (h : buffer_head) : Bool :=
  h.BH_Dirty || h.BH_Lock || h.BH_Pinned

/-- The macro `buffer_in_io`: dirty or locked. -/
def buffer_in_io (h : buffer_head) : Bool :=
  h.BH_Dirty || h.BH_Lock

/-- The kernel's `get_bh`: take a reference. -/
def get_bh (sdp : gfs2_sbd) (b : Nat) : gfs2_sbd :=
  set_bh sdp b { sdp.bh b with b_count := (sdp.bh b).b_count + 1 }

/-- The kernel's `put_bh`: `atomic_dec(&bh->b_count)`. -/
def put_bh (sdp : gfs2_sbd) (b : Nat) : gfs2_sbd :=
  set_bh sdp b { sdp.bh b with b_count := (sdp.bh b).b_count - 1 }

/-- The kernel's `brelse`: drop a reference if there is one.  On a count of zero
the kernel only complains (`VFS: brelse: Trying to free free buffer`) and leaves the
count at zero. -/
def brelse (sdp : gfs2_sbd) (b : Nat) : gfs2_sbd :=
  if (sdp.bh b).b_count ≠ 0 then put_bh sdp b else sdp

/-- The end of a transfer, the kernel's `end_buffer_read_sync` and
`end_buffer_write_sync`: success sets uptodate, failure clears it; the buffer is
unlocked and the reference the block layer held is dropped with `put_bh`. -/
def end_buffer_io (sdp : gfs2_sbd) (b : Nat) (ok : Bool) : gfs2_sbd :=
  set_bh sdp b { sdp.bh b with
    BH_Lock := false, BH_Uptodate := ok, b_count := (sdp.bh b).b_count - 1 }

/-- The kernel's `wait_on_buffer`: returns once the buffer is unlocked.  A buffer
found locked has a transfer in flight, which ends as the storage decides. -/
def wait_on_buffer (sto : Storage) (sdp : gfs2_sbd) (b : Nat) : gfs2_sbd :=
  if (sdp.bh b).BH_Lock then end_buffer_io sdp b (sto.finish sdp.io_log.length b)
  else sdp

/-- The kernel's `lock_buffer`: wait for the lock, then hold it. -/
def lock_buffer (sto : Storage) (sdp : gfs2_sbd) (b : Nat) : gfs2_sbd :=
  let s := wait_on_buffer sto sdp b
  set_bh s b { s.bh b with BH_Lock := true }

/-- The kernel's `unlock_buffer`. -/
def unlock_buffer (sdp : gfs2_sbd) (b : Nat) : gfs2_sbd :=
  set_bh sdp b { sdp.bh b with BH_Lock := false }

/-- The kernel's `clear_buffer_dirty`. -/
def clear_buffer_dirty (sdp : gfs2_sbd) (b : Nat) : gfs2_sbd :=
  set_bh sdp b { sdp.bh b with BH_Dirty := false }

/-- The kernel's `mark_buffer_dirty`. -/
def mark_buffer_dirty (sdp : gfs2_sbd) (b : Nat) : gfs2_sbd :=
  set_bh sdp b { sdp.bh b with BH_Dirty := true }

/-- The kernel's `set_buffer_uptodate`. -/
def set_buffer_uptodate (sdp : gfs2_sbd) (b : Nat) : gfs2_sbd :=
  set_bh sdp b { sdp.bh b with BH_Uptodate := true }

/-- The kernel's `clear_buffer_uptodate`. -/
def clear_buffer_uptodate (sdp : gfs2_sbd) (b : Nat) : gfs2_sbd :=
  set_bh sdp b { sdp.bh b with BH_Uptodate := false }

/-- The kernel's `clear_buffer_pinned`. -/
def clear_buffer_pinned (sdp : gfs2_sbd) (b : Nat) : gfs2_sbd :=
  set_bh sdp b { sdp.bh b with BH_Pinned := false }

/-- The kernel's `set_buffer_pinned` half of `test_set_buffer_pinned`. -/
def set_buffer_pinned (sdp : gfs2_sbd) (b : Nat) : gfs2_sbd :=
  set_bh sdp b { sdp.bh b with BH_Pinned := true }

/-- The kernel's `submit_bh` as called by `ll_rw_block`, which has locked the buffer
and taken a reference on it, up to the return of `ll_rw_block`: the request goes to
the block layer; a transfer still in flight keeps the lock and the reference, one
that has ended has run `end_buffer_io`. -/
def submit_bh (sto : Storage) (sdp : gfs2_sbd) (b : Nat) (rq : io_request) : gfs2_sbd :=
  let s := { sdp with io_log := sdp.io_log ++ [rq] }
  match sto.submit sdp.io_log.length b with
  | .inflight => s
  | .done ok => end_buffer_io s b ok

/-- The kernel's `ll_rw_block(WRITE, 1, &bh)`: a locked buffer is skipped
(`test_set_buffer_locked`); otherwise the buffer is locked and a reference taken
(`get_bh`); a dirty buffer has its dirty bit cleared and is submitted; a clean one
is unlocked and the reference dropped (`put_bh`) at once. -/
def ll_rw_block_write (sto : Storage) (sdp : gfs2_sbd) (b : Nat) : gfs2_sbd :=
  if (sdp.bh b).BH_Lock then sdp
  else
    let s := get_bh (set_bh sdp b { sdp.bh b with BH_Lock := true }) b
    if (sdp.bh b).BH_Dirty then
      submit_bh sto (clear_buffer_dirty s b) b (.write b)
    else put_bh (unlock_buffer s b) b

/-- The kernel's `ll_rw_block(READ, 1, &bh)`: a locked buffer is skipped; otherwise
the buffer is locked and a reference taken; one that is not uptodate is submitted;
an uptodate one is unlocked and the reference dropped at once. -/
def ll_rw_block_read (sto : Storage) (sdp : gfs2_sbd) (b : Nat) : gfs2_sbd :=
  if (sdp.bh b).BH_Lock then sdp
  else
    let s := get_bh (set_bh sdp b { sdp.bh b with BH_Lock := true }) b
    if !(sdp.bh b).BH_Uptodate then submit_bh sto s b (.read b)
    else put_bh (unlock_buffer s b) b

/-! ## Parts of the repository that dio.c calls -/

/-- Modelled from the spec: the failure branch of the macro `gfs2_assert_withdraw`
(declared outside dio.c).  An invariant violation is fatal for the filesystem: it
is withdrawn, which raises the shutdown flag.  The macro then hands a nonzero value
back to its caller, as the use `if (gfs2_assert_withdraw(sdp, !error)) RET(...)` in
`gfs2_ail_empty_gl` shows. -/
def gfs2_lm_withdraw (sdp : gfs2_sbd) : gfs2_sbd :=
  { sdp with SDF_SHUTDOWN := true, withdraws := sdp.withdraws + 1 }

/-- Modelled from the spec: the macro `gfs2_assert_withdraw(sdp, assertion)`; the
state after it.  Its value is nonzero exactly when `assertion` is false. -/
def gfs2_assert_withdraw (sdp : gfs2_sbd) (assertion : Bool) : gfs2_sbd :=
  if assertion then sdp else gfs2_lm_withdraw sdp

/-- Modelled from the spec: the macro `gfs2_assert_warn(sdp, assertion)`; the state
after it: a failed assertion is reported and nothing else happens.  Its value is
nonzero exactly when `assertion` is false. -/
def gfs2_assert_warn (sdp : gfs2_sbd) (assertion : Bool) : gfs2_sbd :=
  if assertion then sdp else { sdp with warnings := sdp.warnings + 1 }

/-- Modelled from the spec: the macro `gfs2_io_error_bh(sdp, bh)`: an I/O fault on
the block of `bh` is signalled and escalates to the filesystem-wide fault flag. -/
def gfs2_io_error_bh (sdp : gfs2_sbd) (b : Nat) : gfs2_sbd :=
  { sdp with SDF_SHUTDOWN := true, io_errors := sdp.io_errors ++ [(sdp.bh b).b_blocknr] }

/-- Modelled from the spec: the log subsystem records the call. -/
def log_call (sdp : gfs2_sbd) (e : log_event) : gfs2_sbd :=
  { sdp with trans_log := sdp.trans_log ++ [e] }

/-! ## List links -/

/-- The kernel's `list_del(&bd->bd_ail_st_list)`: the bufdata leaves the AIL entry
list it is linked in. -/
def list_del_st (sdp : gfs2_sbd) (b : Nat) : gfs2_sbd :=
  { sdp with ai := fun a =>
      { ai_ail1_list := (sdp.ai a).ai_ail1_list.filter (fun x => x ≠ b),
        ai_ail2_list := (sdp.ai a).ai_ail2_list.filter (fun x => x ≠ b) } }

/-- The kernel's `list_del(&bd->bd_ail_gl_list)`: the bufdata leaves the glock list
it is linked in. -/
def list_del_gl (sdp : gfs2_sbd) (b : Nat) : gfs2_sbd :=
  { sdp with gl := fun g =>
      { sdp.gl g with gl_ail_list := (sdp.gl g).gl_ail_list.filter (fun x => x ≠ b) } }

/-- The kernel's `list_add(&bd->bd_ail_st_list, &ai->ai_ail1_list)`. -/
def list_add_ail1 (sdp : gfs2_sbd) (b a : Nat) : gfs2_sbd :=
  set_ai sdp a { sdp.ai a with ai_ail1_list := b :: (sdp.ai a).ai_ail1_list }

/-- The kernel's `list_add(&bd->bd_ail_st_list, &ai->ai_ail2_list)`. -/
def list_add_ail2 (sdp : gfs2_sbd) (b a : Nat) : gfs2_sbd :=
  set_ai sdp a { sdp.ai a with ai_ail2_list := b :: (sdp.ai a).ai_ail2_list }

/-- The kernel's `list_add(&bd->bd_ail_gl_list, &gl->gl_ail_list)`. -/
def list_add_gl (sdp : gfs2_sbd) (b g : Nat) : gfs2_sbd :=
  set_gl sdp g { sdp.gl g with gl_ail_list := b :: (sdp.gl g).gl_ail_list }

/-- The kernel's `list_move(&bd->bd_ail_st_list, &ai->ai_ail1_list)`. -/
def list_move_ail1 (sdp : gfs2_sbd) (b a : Nat) : gfs2_sbd :=
  list_add_ail1 (list_del_st sdp b) b a

/-- The kernel's `list_move(&bd->bd_ail_st_list, &ai->ai_ail2_list)`. -/
def list_move_ail2 (sdp : gfs2_sbd) (b a : Nat) : gfs2_sbd :=
  list_add_ail2 (list_del_st sdp b) b a

/-- The statement `atomic_inc(&gl->gl_ail_count)`. -/
def ail_count_inc (sdp : gfs2_sbd) (g : Nat) : gfs2_sbd :=
  set_gl sdp g { sdp.gl g with gl_ail_count := (sdp.gl g).gl_ail_count + 1 }

/-- The statement `atomic_dec(&gl->gl_ail_count)`. -/
def ail_count_dec (sdp : gfs2_sbd) (g : Nat) : gfs2_sbd :=
  set_gl sdp g { sdp.gl g with gl_ail_count := (sdp.gl g).gl_ail_count - 1 }

/-! ## AIL draining -/

/-- The body of the `for` loop of `gfs2_ail1_start_one`, run over the pending list
from `head->prev` on.  The result says whether `retry` was set. -/
def ail1_start_scan (sto : Storage) (a : Nat) :
    List Nat → gfs2_sbd → Except Fault (Bool × gfs2_sbd)
  | [], sdp => .ok (false, sdp)
  | b :: rest, sdp =>
    match sdp.bd b with
    | none => .error .null_deref
    | some bd =>
      if bd.bd_ail ≠ some a then .error .panic
      else if !buffer_busy (sdp.bh b) then
        let s := if !(sdp.bh b).BH_Uptodate then gfs2_io_error_bh sdp b else sdp
        ail1_start_scan sto a rest (list_move_ail2 s b a)
      else if !(sdp.bh b).BH_Dirty then
        ail1_start_scan sto a rest sdp
      else
        let s := list_move_ail1 sdp b a
        let s := wait_on_buffer sto s b
        let s := ll_rw_block_write sto s b
        .ok (true, s)

/-- The function `gfs2_ail1_start_one`: the `do ... while (retry)` loop, with
`fuel` passes allowed. -/
def gfs2_ail1_start_one (sto : Storage) : Nat → gfs2_sbd → Nat → Except Fault gfs2_sbd
  | 0, _, _ => .error .no_fuel
  | fuel + 1, sdp, a =>
    match ail1_start_scan sto a (sdp.ai a).ai_ail1_list.reverse sdp with
    | .error e => .error e
    | .ok (true, s) => gfs2_ail1_start_one sto fuel s a
    | .ok (false, s) => .ok s

/-- The `for` loop of `gfs2_ail1_empty_one`, run over the pending list from
`head->prev` on. -/
def ail1_empty_scan (a : Nat) (flags : dio_flags) :
    List Nat → gfs2_sbd → Except Fault gfs2_sbd
  | [], sdp => .ok sdp
  | b :: rest, sdp =>
    match sdp.bd b with
    | none => .error .null_deref
    | some bd =>
      if bd.bd_ail ≠ some a then .error .panic
      else if buffer_busy (sdp.bh b) then
        if flags.DIO_ALL then ail1_empty_scan a flags rest sdp
        else .ok sdp
      else
        let s := if !(sdp.bh b).BH_Uptodate then gfs2_io_error_bh sdp b else sdp
        ail1_empty_scan a flags rest (list_move_ail2 s b a)

/-- The function `gfs2_ail1_empty_one`: the scan, then `list_empty(head)`. -/
def gfs2_ail1_empty_one (sdp : gfs2_sbd) (a : Nat) (flags : dio_flags) :
    Except Fault (Bool × gfs2_sbd) :=
  match ail1_empty_scan a flags (sdp.ai a).ai_ail1_list.reverse sdp with
  | .error e => .error e
  | .ok s => .ok ((s.ai a).ai_ail1_list.isEmpty, s)

/-- The function `gfs2_ail2_empty_one`: the `while (!list_empty(head))` loop, with
`fuel` iterations allowed. -/
def gfs2_ail2_empty_one : Nat → gfs2_sbd → Nat → Except Fault gfs2_sbd
  | fuel, sdp, a =>
    match (sdp.ai a).ai_ail2_list.getLast? with
    | none => .ok sdp
    | some b =>
      match fuel with
      | 0 => .error .no_fuel
      | fuel + 1 =>
        match sdp.bd b with
        | none => .error .null_deref
        | some bd =>
          if bd.bd_ail ≠ some a then .error .panic
          else
            let s := set_bd sdp b { bd with bd_ail := none }
            let s := list_del_st s b
            let s := list_del_gl s b
            let s := ail_count_dec s bd.bd_gl
            let s := brelse s b
            gfs2_ail2_empty_one fuel s a

/-- Modelled from the spec: `gfs2_trans_begin(sdp, 0, blocks)` of the log subsystem,
whose return value `error` is decided there; a transaction is opened when it is 0. -/
def gfs2_trans_begin (sdp : gfs2_sbd) (error : Int) (blocks : Nat) : gfs2_sbd :=
  if error = 0 then log_call sdp (.trans_begin 0 blocks) else sdp

/-- The `while (!list_empty(head))` loop of `gfs2_ail_empty_gl`, with `fuel`
iterations allowed. -/
def ail_empty_gl_loop : Nat → gfs2_sbd → Nat → Except Fault gfs2_sbd
  | fuel, sdp, g =>
    match (sdp.gl g).gl_ail_list.head? with
    | none => .ok sdp
    | some b =>
      match fuel with
      | 0 => .error .no_fuel
      | fuel + 1 =>
        match sdp.bd b with
        | none => .error .null_deref
        | some bd =>
          let blkno := (sdp.bh b).b_blocknr
          let s := gfs2_assert_withdraw sdp (!buffer_busy (sdp.bh b))
          let s := set_bd s b { bd with bd_ail := none }
          let s := list_del_st s b
          let s := list_del_gl s b
          let s := ail_count_dec s g
          let s := brelse s b
          let s := log_call s (.trans_add_revoke blkno)
          ail_empty_gl_loop fuel s g

/-- The function `gfs2_ail_empty_gl`.  `error` is what `gfs2_trans_begin` returns;
`blocks` is the counter read into an `unsigned int`. -/
def gfs2_ail_empty_gl (fuel : Nat) (error : Int) (sdp : gfs2_sbd) (g : Nat) :
    Except Fault gfs2_sbd :=
  let blocks : Nat := ((sdp.gl g).gl_ail_count % 4294967296).toNat
  if blocks = 0 then .ok sdp
  else
    let s := gfs2_trans_begin sdp error blocks
    let s := gfs2_assert_withdraw s (error = 0)
    if error ≠ 0 then .ok s
    else
      match ail_empty_gl_loop fuel s g with
      | .error e => .error e
      | .ok s =>
        let s := gfs2_assert_withdraw s ((s.gl g).gl_ail_count = 0)
        let s := log_call s .trans_end
        .ok (log_call s .log_flush)

/-! ## Reading, writing, pinning -/

/-- The function `gfs2_prep_new_buffer`. -/
def gfs2_prep_new_buffer (sto : Storage) (sdp : gfs2_sbd) (b : Nat) : gfs2_sbd :=
  let s := lock_buffer sto sdp b
  let s := clear_buffer_dirty s b
  let s := set_buffer_uptodate s b
  let s := unlock_buffer s b
  set_bh s b { s.bh b with mh_magic := GFS2_MAGIC, mh_blkno := (s.bh b).b_blocknr }

/-- The function `gfs2_dreread`: the errno returned and the state left. -/
def gfs2_dreread (sto : Storage) (sdp : gfs2_sbd) (b : Nat) (flags : dio_flags) :
    Int × gfs2_sbd :=
  if sdp.SDF_SHUTDOWN then (- EIO, sdp)
  else
    let s := if flags.DIO_FORCE then clear_buffer_uptodate sdp b else sdp
    let s := if flags.DIO_START && !(s.bh b).BH_Uptodate then ll_rw_block_read sto s b else s
    if flags.DIO_WAIT then
      let s := wait_on_buffer sto s b
      if !(s.bh b).BH_Uptodate then
        (- EIO, if s.get_transaction then gfs2_io_error_bh s b else s)
      else if s.SDF_SHUTDOWN then (- EIO, s)
      else (0, s)
    else (0, s)

/-- The function `gfs2_dwrite`: the errno returned and the state left. -/
def gfs2_dwrite (sto : Storage) (sdp : gfs2_sbd) (b : Nat) (flags : dio_flags) :
    Int × gfs2_sbd :=
  if sdp.SDF_ROFS then (- EIO, gfs2_assert_warn sdp (!sdp.SDF_ROFS))
  else if sdp.SDF_SHUTDOWN then (- EIO, sdp)
  else
    let s := if flags.DIO_CLEAN then
        unlock_buffer (clear_buffer_dirty (lock_buffer sto sdp b) b) b
      else sdp
    if flags.DIO_DIRTY && !(s.bh b).BH_Uptodate then
      (- EIO, gfs2_assert_warn s (s.bh b).BH_Uptodate)
    else
      let s := if flags.DIO_DIRTY then mark_buffer_dirty s b else s
      let s := if flags.DIO_START && (s.bh b).BH_Dirty then
          ll_rw_block_write sto (wait_on_buffer sto s b) b
        else s
      if flags.DIO_WAIT then
        let s := wait_on_buffer sto s b
        if !(s.bh b).BH_Uptodate || (s.bh b).BH_Dirty then (- EIO, gfs2_io_error_bh s b)
        else if s.SDF_SHUTDOWN then (- EIO, s)
        else (0, s)
      else (0, s)

/-- The function `gfs2_dpin`. -/
def gfs2_dpin (sto : Storage) (sdp : gfs2_sbd) (b : Nat) : Except Fault gfs2_sbd :=
  let s := gfs2_assert_withdraw sdp (!sdp.SDF_ROFS)
  let was_pinned := (s.bh b).BH_Pinned
  let s := set_buffer_pinned s b
  let s := if was_pinned then gfs2_assert_withdraw s false else s
  let s := wait_on_buffer sto s b
  match s.bd b with
  | none => .error .null_deref
  | some bd =>
    let s := match bd.bd_ail with
      | some a => if !buffer_in_io (s.bh b) then list_move_ail2 s b a else s
      | none => s
    let s := clear_buffer_dirty s b
    let s := wait_on_buffer sto s b
    let s := if !(s.bh b).BH_Uptodate then gfs2_io_error_bh s b else s
    .ok (get_bh s b)

/-- The function `gfs2_dunpin`; `ai` is the AIL entry passed in, `none` for NULL. -/
def gfs2_dunpin (sdp : gfs2_sbd) (b : Nat) (ai : Option Nat) : Except Fault gfs2_sbd :=
  let s := gfs2_assert_withdraw sdp (sdp.bh b).BH_Uptodate
  let s := if !(s.bh b).BH_Pinned then gfs2_assert_withdraw s false else s
  let s := mark_buffer_dirty s b
  let s := clear_buffer_pinned s b
  match s.bd b with
  | none => .error .null_deref
  | some bd =>
    let s := match bd.bd_ail with
      | some _ => brelse (list_del_st s b) b
      | none => ail_count_inc (list_add_gl s b bd.bd_gl) bd.bd_gl
    let s := set_bd s b { bd with bd_ail := ai }
    match ai with
    | none => .error .null_deref
    | some a => .ok (list_add_ail1 s b a)


/-! ## Wiping de-allocated blocks -/

/-- The kernel's `map_bh(bh, sb, blkno)`: the buffer is mapped to the block.  (One
block device is assumed, so `b_bdev` always is the device of the filesystem.) -/
def map_bh (sdp : gfs2_sbd) (b blkno : Nat) : gfs2_sbd :=
  set_bh sdp b { sdp.bh b with BH_Mapped := true, b_blocknr := blkno }

/-- The function `getbuf` called with NO_CREATE.  `cache blkno` is the buffer head
the page cache of the address space holds at the position of the block, `none`
when the page is not present.  The buffer found is handed back with a reference
taken and mapped to `blkno`. -/
def getbuf (cache : Nat → Option Nat) (sdp : gfs2_sbd) (blkno : Nat) :
    Option Nat × gfs2_sbd :=
  match cache blkno with
  | none => (none, sdp)
  | some b =>
    let s := get_bh sdp b
    if !(s.bh b).BH_Mapped then (some b, map_bh s b blkno)
    else
      let s1 := gfs2_assert_warn s ((s.bh b).b_blocknr = blkno)
      if (s.bh b).b_blocknr ≠ blkno then (some b, map_bh s1 b blkno)
      else (some b, s1)

/-- The kernel's `list_del_init(&bd->bd_le.le_list)`. -/
def list_del_init_le (sdp : gfs2_sbd) (b : Nat) : gfs2_sbd :=
  { sdp with le_list := sdp.le_list.filter (fun x => x ≠ b) }

/-- The block `if (test_clear_buffer_pinned(bh)) { ... }` of `gfs2_buf_wipe`. -/
def buf_wipe_unpin (sdp : gfs2_sbd) (b : Nat) : Except Fault gfs2_sbd :=
  if (sdp.bh b).BH_Pinned then
    let s := clear_buffer_pinned sdp b
    match sdp.bd b with
    | none => .error .null_deref
    | some _ =>
      let s := list_del_init_le s b
      let s := gfs2_assert_warn s (s.sd_log_num_buf ≠ 0)
      let s := { s with sd_log_num_buf := (s.sd_log_num_buf + 4294967295) % 4294967296 }
      if !s.get_transaction then .error .null_deref
      else .ok (brelse { s with tr_num_buf_rm := s.tr_num_buf_rm + 1 } b)
  else .ok sdp

/-- The block `if (bd) { ... }` of `gfs2_buf_wipe`. -/
def buf_wipe_ail (sdp : gfs2_sbd) (b : Nat) : gfs2_sbd :=
  match sdp.bd b with
  | none => sdp
  | some bd =>
    if bd.bd_ail.isSome then
      let blkno := (sdp.bh b).b_blocknr
      let s := set_bd sdp b { bd with bd_ail := none }
      let s := list_del_st s b
      let s := list_del_gl s b
      let s := ail_count_dec s bd.bd_gl
      let s := brelse s b
      log_call s (.trans_add_revoke blkno)
    else sdp

/-- The body of the loop of `gfs2_buf_wipe` for a buffer that `getbuf` found. -/
def buf_wipe_bh (sto : Storage) (sdp : gfs2_sbd) (b : Nat) : Except Fault gfs2_sbd :=
  match buf_wipe_unpin sdp b with
  | .error e => .error e
  | .ok s =>
    let s := buf_wipe_ail s b
    let s := lock_buffer sto s b
    let s := clear_buffer_dirty s b
    let s := clear_buffer_uptodate s b
    let s := unlock_buffer s b
    .ok (brelse s b)

/-- The function `gfs2_buf_wipe` on the run of `blen` blocks from `bstart`, in the
address space whose page cache is `cache`. -/
def gfs2_buf_wipe (sto : Storage) (cache : Nat → Option Nat) :
    gfs2_sbd → Nat → Nat → Except Fault gfs2_sbd
  | sdp, _, 0 => .ok sdp
  | sdp, bstart, blen + 1 =>
    match getbuf cache sdp bstart with
    | (none, s) => gfs2_buf_wipe sto cache s (bstart + 1) blen
    | (some b, s) =>
      match buf_wipe_bh sto s b with
      | .error e => .error e
      | .ok s1 => gfs2_buf_wipe sto cache s1 (bstart + 1) blen

/-! ## Releasing a page of the address space -/

/-- The other tasks and the clock, as seen by a task that yields: `jiffies k` is
the clock read in round `k` of a wait loop, `yield k` is what the other tasks do
to the filesystem during the `yield()` of that round.  (The clock is not taken to
wrap around.) -/
structure Sched where
  jiffies : Nat → Nat
  yield : Nat → gfs2_sbd → gfs2_sbd

/-- The function `stuck_releasepage`: it only prints; the block is recorded. -/
def stuck_releasepage (sdp : gfs2_sbd) (b : Nat) : gfs2_sbd :=
  { sdp with stuck_reports := sdp.stuck_reports ++ [(sdp.bh b).b_blocknr] }

/-- The loop `while (atomic_read(&bh->b_count)) { ... }` of
`gfs2_aspace_releasepage` for buffer `b` of the address space of glock `g`.
`stall` is `gt_stall_secs * HZ`, `k` counts the rounds so far, `t` is the local
`t`, `fuel` is the number of rounds allowed.  The result says whether the function
returns 0 from inside the loop, and gives the rounds left, the round counter and
the state. -/
def releasepage_wait (sch : Sched) (g b stall : Nat) :
    Nat → Nat → Nat → gfs2_sbd → Except Fault (Bool × Nat × Nat × gfs2_sbd)
  | fuel, k, t, sdp =>
    if (sdp.bh b).b_count ≠ 0 then
      if (sdp.gl g).i_writecount ≠ 0 then
        match fuel with
        | 0 => .error .no_fuel
        | fuel + 1 =>
          let late := decide (t + stall ≤ sch.jiffies k)
          let s := if late then stuck_releasepage sdp b else sdp
          let t1 := if late then sch.jiffies k else t
          releasepage_wait sch g b stall fuel (k + 1) t1 (sch.yield k s)
      else .ok (true, fuel, k, sdp)
    else .ok (false, fuel, k, sdp)

/-- What `gfs2_aspace_releasepage` does to a buffer once it is unreferenced: the
warnings, then the bufdata is freed and taken off the buffer.  (`bd->bd_bh == bh`
holds by the way bufdata are named.) -/
def releasepage_free_bd (sdp : gfs2_sbd) (b : Nat) : gfs2_sbd :=
  let s := gfs2_assert_warn sdp (!(sdp.bh b).BH_Pinned)
  match s.bd b with
  | none => s
  | some bd =>
    let s := gfs2_assert_warn s (decide (b ∉ s.list_tr))
    let s := gfs2_assert_warn s (decide (b ∉ s.le_list))
    let s := gfs2_assert_warn s bd.bd_ail.isNone
    { s with sd_bufdata_count := s.sd_bufdata_count - 1,
             bd := fun i => if i = b then none else s.bd i }

/-- The kernel's `try_to_free_buffers(page)`, its value: 1 when no buffer of the
page is referenced, dirty or locked, else 0.  (That the buffers are then gone from
the page is not represented.) -/
def try_to_free_buffers (sdp : gfs2_sbd) (page : List Nat) : Int :=
  if page.all (fun b => decide ((sdp.bh b).b_count = 0) && !(sdp.bh b).BH_Dirty
      && !(sdp.bh b).BH_Lock) then 1 else 0

/-- The `do ... while (bh != head)` loop of `gfs2_aspace_releasepage` over the
buffers still to visit, followed by the return at `out`. -/
def releasepage_loop (sch : Sched) (g stall : Nat) (page : List Nat) :
    List Nat → Nat → Nat → gfs2_sbd → Except Fault (Int × gfs2_sbd)
  | [], _, _, sdp => .ok (try_to_free_buffers sdp page, sdp)
  | b :: rest, fuel, k, sdp =>
    match releasepage_wait sch g b stall fuel k (sch.jiffies k) sdp with
    | .error e => .error e
    | .ok (true, _, _, s) => .ok (0, s)
    | .ok (false, fuel1, k1, s) =>
      releasepage_loop sch g stall page rest fuel1 k1 (releasepage_free_bd s b)

/-- The function `gfs2_aspace_releasepage` for a page of the address space of glock
`g` whose buffers are `page` (empty when the page has no buffers): the value
returned and the state left. -/
def gfs2_aspace_releasepage (sch : Sched) (stall fuel : Nat) (sdp : gfs2_sbd) (g : Nat)
    (page : List Nat) : Except Fault (Int × gfs2_sbd) :=
  releasepage_loop sch g stall page page fuel 0 sdp

/-! ## Invalidating the address space of a glock -/

/-- The kernel's `discard_buffer`: under the buffer lock the dirty bit and the
mapping of the buffer to its block are cleared. -/
def discard_buffer (sto : Storage) (sdp : gfs2_sbd) (b : Nat) : gfs2_sbd :=
  let s := lock_buffer sto sdp b
  let s := clear_buffer_dirty s b
  let s := set_bh s b { s.bh b with BH_Mapped := false }
  unlock_buffer s b

/-- The kernel's `truncate_complete_page` for a page of the address space of glock
`g`.  If the page has buffers, `block_invalidatepage` discards each of them and
then calls the release callback of the address space, which `aspace_aops` sets to
`gfs2_aspace_releasepage`; its value is ignored.  The page is then removed from the
mapping. -/
def truncate_complete_page (sch : Sched) (sto : Storage) (stall fuel : Nat)
    (sdp : gfs2_sbd) (g : Nat) (page : List Nat) : Except Fault gfs2_sbd :=
  if page.isEmpty then
    .ok (set_gl sdp g { sdp.gl g with pages := (sdp.gl g).pages.erase page })
  else
    match gfs2_aspace_releasepage sch stall fuel (page.foldl (discard_buffer sto) sdp) g
        page with
    | .error e => .error e
    | .ok (_, s) => .ok (set_gl s g { s.gl g with pages := (s.gl g).pages.erase page })

/-- The loop of `truncate_inode_pages` over the pages found in the mapping; a page
that has left the mapping meanwhile is passed over. -/
def truncate_pages (sch : Sched) (sto : Storage) (stall fuel g : Nat) :
    List (List Nat) → gfs2_sbd → Except Fault gfs2_sbd
  | [], sdp => .ok sdp
  | page :: rest, sdp =>
    if page ∈ (sdp.gl g).pages then
      match truncate_complete_page sch sto stall fuel sdp g page with
      | .error e => .error e
      | .ok s => truncate_pages sch sto stall fuel g rest s
    else truncate_pages sch sto stall fuel g rest sdp

/-- The kernel's `truncate_inode_pages(mapping, 0)` on the address space of glock
`g`: every page of the mapping is truncated and removed.  `fuel` is the number of
rounds each call of the release callback may wait.  (Pages that other tasks add to
the mapping during the call are not represented.) -/
def truncate_inode_pages (sch : Sched) (sto : Storage) (stall fuel : Nat)
    (sdp : gfs2_sbd) (g : Nat) : Except Fault gfs2_sbd :=
  truncate_pages sch sto stall fuel g (sdp.gl g).pages sdp

/-- The function `gfs2_inval_buf`. -/
def gfs2_inval_buf (sch : Sched) (sto : Storage) (stall fuel : Nat)
    (sdp : gfs2_sbd) (g : Nat) : Except Fault gfs2_sbd :=
  let s := gfs2_assert_withdraw sdp ((sdp.gl g).gl_ail_count = 0)
  let s := set_gl s g { s.gl g with i_writecount := (s.gl g).i_writecount + 1 }
  match truncate_inode_pages sch sto stall fuel s g with
  | .error e => .error e
  | .ok s =>
    let s := set_gl s g { s.gl g with i_writecount := (s.gl g).i_writecount - 1 }
    .ok (gfs2_assert_withdraw s ((s.gl g).nrpages = 0))

/-! ## Views of the state -/

/-- The AIL entry a buffer's bufdata points to; `none` when there is no bufdata or
the pointer is NULL. -/
def ail_of (sdp : gfs2_sbd) (b : Nat) : Option Nat :=
  (sdp.bd b).bind gfs2_bufdata.bd_ail

/-- The glock a buffer's bufdata belongs to; `none` when there is no bufdata. -/
def gl_of (sdp : gfs2_sbd) (b : Nat) : Option Nat :=
  (sdp.bd b).map gfs2_bufdata.bd_gl


/-! ## What the loops do to one buffer, and to a run of buffers -/

/-- What a scan does to a buffer that is not busy: signal a fault if it is not
uptodate, then move it to the awaiting-release list. -/
def promote_one (a : Nat) (s : gfs2_sbd) (x : Nat) : gfs2_sbd :=
  list_move_ail2 (if !(s.bh x).BH_Uptodate then gfs2_io_error_bh s x else s) x a

/-- The buffers `xs` promoted in turn. -/
def promote (a : Nat) : List Nat → gfs2_sbd → gfs2_sbd
  | [], s => s
  | x :: xs, s => promote a xs (promote_one a s x)

/-- What the scan of `gfs2_ail1_start_one` does to a dirty buffer: move it to the
head of the pending list, wait for it, hand it to the block layer. -/
def write_back (sto : Storage) (a : Nat) (s : gfs2_sbd) (b : Nat) : gfs2_sbd :=
  ll_rw_block_write sto (wait_on_buffer sto (list_move_ail1 s b a) b) b

/-- The body of the loop of `gfs2_ail2_empty_one` for buffer `b`: the bufdata leaves
its AIL entry and its glock, the glock's counter drops, one reference is released. -/
def release_one (s : gfs2_sbd) (b : Nat) : gfs2_sbd :=
  match s.bd b with
  | none => s
  | some bd =>
    brelse (ail_count_dec (list_del_gl (list_del_st
      (set_bd s b { bd with bd_ail := none }) b) b) bd.bd_gl) b

/-- The buffers `xs` released in turn. -/
def release : List Nat → gfs2_sbd → gfs2_sbd
  | [], s => s
  | x :: xs, s => release xs (release_one s x)

/-- The body of the loop of `gfs2_ail_empty_gl` for buffer `b` of glock `g`. -/
def revoke_one (g : Nat) (s : gfs2_sbd) (b : Nat) : gfs2_sbd :=
  match s.bd b with
  | none => s
  | some bd =>
    log_call (brelse (ail_count_dec (list_del_gl (list_del_st
      (set_bd (gfs2_assert_withdraw s (!buffer_busy (s.bh b))) b { bd with bd_ail := none })
      b) b) g) b) (.trans_add_revoke (s.bh b).b_blocknr)

/-- The buffers `xs` of glock `g` revoked in turn. -/
def revoke (g : Nat) : List Nat → gfs2_sbd → gfs2_sbd
  | [], s => s
  | x :: xs, s => revoke g xs (revoke_one g s x)

/-- Several calls into the log subsystem recorded at once. -/
def log_calls (s : gfs2_sbd) (es : List log_event) : gfs2_sbd :=
  { s with trans_log := s.trans_log ++ es }

/-- The head `ll_rw_block` leaves of an unlocked head `h` whose transfer it has
submitted: one still in flight leaves it locked with the reference of the block
layer on it; one that has ended leaves it unlocked, uptodate as the transfer
went. -/
def submitted (r : io_result) (h : buffer_head) : buffer_head :=
  match r with
  | .inflight => { h with BH_Lock := true, b_count := h.b_count + 1 }
  | .done ok => { h with BH_Uptodate := ok }


/-! ## The blocks of `gfs2_dwrite` -/

/-- The state of `gfs2_dwrite` after its DIO_CLEAN block. -/
def dwrite_cleaned (sto : Storage) (s : gfs2_sbd) (b : Nat) (flags : dio_flags) : gfs2_sbd :=
  if flags.DIO_CLEAN then unlock_buffer (clear_buffer_dirty (lock_buffer sto s b) b) b else s

/-- The state of `gfs2_dwrite` after its DIO_DIRTY and DIO_START blocks, on the path
on which the DIO_DIRTY assertion holds. -/
def dwrite_started (sto : Storage) (s : gfs2_sbd) (b : Nat) (flags : dio_flags) : gfs2_sbd :=
  let s1 := dwrite_cleaned sto s b flags
  let s2 := if flags.DIO_DIRTY then mark_buffer_dirty s1 b else s1
  if flags.DIO_START && (s2.bh b).BH_Dirty then
    ll_rw_block_write sto (wait_on_buffer sto s2 b) b
  else s2

/-- The DIO_WAIT block of `gfs2_dwrite` and the return that follows it. -/
def dwrite_waited (sto : Storage) (s : gfs2_sbd) (b : Nat) : Int × gfs2_sbd :=
  let s := wait_on_buffer sto s b
  if !(s.bh b).BH_Uptodate || (s.bh b).BH_Dirty then (- EIO, gfs2_io_error_bh s b)
  else if s.SDF_SHUTDOWN then (- EIO, s)
  else (0, s)


/-! ## A new block taken through a transaction -/

/-- One buffer of a new block taken through a transaction: prepared as new, pinned,
and unpinned into AIL entry `a`. -/
def pin_unpin_one (sto : Storage) (a : Nat) (s : gfs2_sbd) (b : Nat) : Except Fault gfs2_sbd :=
  match gfs2_dpin sto (gfs2_prep_new_buffer sto s b) b with
  | .error e => .error e
  | .ok s1 => gfs2_dunpin s1 b (some a)

/-- The buffers `bs` taken through `pin_unpin_one` in turn. -/
def pin_unpin_all (sto : Storage) (a : Nat) : List Nat → gfs2_sbd → Except Fault gfs2_sbd
  | [], s => .ok s
  | b :: bs, s =>
    match pin_unpin_one sto a s b with
    | .error e => .error e
    | .ok s1 => pin_unpin_all sto a bs s1


/-- The transfers in flight on the buffers `bs` come to their end, each as a
`wait_on_buffer` on the buffer finds it; how a transfer ends the storage decides. -/
def transfers_end (sto : Storage) (bs : List Nat) (s : gfs2_sbd) : gfs2_sbd :=
  bs.foldl (wait_on_buffer sto) s

/-- Nothing went wrong between `s` and `s'`: no withdraw was raised and no I/O fault
signalled, and the shutdown and read-only flags are as they were. -/
def quiet (s s' : gfs2_sbd) : Prop :=
  s'.withdraws = s.withdraws ∧ s'.io_errors = s.io_errors ∧
  s'.SDF_SHUTDOWN = s.SDF_SHUTDOWN ∧ s'.SDF_ROFS = s.SDF_ROFS

/-! ## Storages and states used as examples -/

/-- A storage on which every transfer has finished well when `ll_rw_block` returns. -/
def storage_sync_ok : Storage :=
  { submit := fun _ _ => .done true, finish := fun _ _ => true }

/-- A storage on which every transfer is still in flight when `ll_rw_block` returns
and ends well when waited for. -/
def storage_async_ok : Storage :=
  { submit := fun _ _ => .inflight, finish := fun _ _ => true }

/-- A storage on which every transfer has failed when `ll_rw_block` returns. -/
def storage_sync_fail : Storage :=
  { submit := fun _ _ => .done false, finish := fun _ _ => false }

/-- A mapped buffer head with the given block number, state bits (uptodate, dirty,
locked, pinned) and reference count. -/
def mk_bh (blk : Nat) (u d l p : Bool) (c : Int) : buffer_head :=
  { b_blocknr := blk, BH_Uptodate := u, BH_Dirty := d, BH_Lock := l, BH_Pinned := p,
    b_count := c, mh_magic := 0, mh_blkno := 0, BH_Mapped := true }

/-- A buffer head as `mk_bh`, stamped with the header of a new block. -/
def mk_bh_stamped (blk : Nat) (u d l p : Bool) (c : Int) : buffer_head :=
  { mk_bh blk u d l p c with mh_magic := GFS2_MAGIC, mh_blkno := blk }

/-- A filesystem with nothing in the AIL: no bufdata, empty lists, zero counters. -/
def empty_sbd : gfs2_sbd :=
  { SDF_SHUTDOWN := false, SDF_ROFS := false,
    bh := fun i => mk_bh i false false false false 0,
    bd := fun _ => none,
    gl := fun _ => { gl_ail_list := [], gl_ail_count := 0, i_writecount := 0, pages := [] },
    ai := fun _ => { ai_ail1_list := [], ai_ail2_list := [] },
    get_transaction := false, withdraws := 0, warnings := 0,
    io_errors := [], io_log := [], trans_log := [],
    sd_log_num_buf := 0, sd_bufdata_count := 0, tr_num_buf_rm := 0,
    le_list := [], list_tr := [], stuck_reports := [] }

/-- Example: glock 0 owns buffers 10, 11, 12, cached in one page, all in AIL entry 1
and enqueued in that order; 10 and 12 are clean, 11 is locked by a write in
flight.  The AIL holds a reference on each, the block layer another on 11. -/
def sample_busy_middle : gfs2_sbd :=
  { empty_sbd with
    bh := fun i => mk_bh i true false (decide (i = 11)) false (if i = 11 then 2 else 1),
    bd := fun i => if i = 10 ∨ i = 11 ∨ i = 12 then some { bd_gl := 0, bd_ail := some 1 } else none,
    gl := fun g => if g = 0 then
        { gl_ail_list := [12, 11, 10], gl_ail_count := 3, i_writecount := 0,
          pages := [[10, 11, 12]] }
      else empty_sbd.gl g,
    ai := fun a => if a = 1 then { ai_ail1_list := [12, 11, 10], ai_ail2_list := [] }
      else empty_sbd.ai a }

/-- Example: glock 0 has three buffers in the AIL (counter 3) and one cached page. -/
def sample_ail_count_3 : gfs2_sbd := sample_busy_middle

/-- Example: the buffers 10 and 11 of glock 0, cached in one page, are written back
and clean and wait on the awaiting-release list of AIL entry 1 (counter 2); the only
reference on each is that of the AIL. -/
def sample_inval_ail : gfs2_sbd :=
  { empty_sbd with
    bh := fun i => mk_bh i true false false false (if i = 10 ∨ i = 11 then 1 else 0),
    bd := fun i => if i = 10 ∨ i = 11 then some { bd_gl := 0, bd_ail := some 1 } else none,
    gl := fun g => if g = 0 then
        { gl_ail_list := [11, 10], gl_ail_count := 2, i_writecount := 0,
          pages := [[10, 11]] }
      else empty_sbd.gl g,
    ai := fun a => if a = 1 then { ai_ail1_list := [], ai_ail2_list := [11, 10] }
      else empty_sbd.ai a,
    sd_bufdata_count := 2 }

/-- Example: nothing of glock 0 is in the AIL (counter 0); its buffers 10 and 11 are
cached in one page and 12 in another, with bufdata; 12 is dirty, 11 is locked by a
transfer in flight, whose reference is the only one held on any of them. -/
def sample_inval_clean : gfs2_sbd :=
  { empty_sbd with
    bh := fun i => mk_bh i true (decide (i = 12)) (decide (i = 11)) false
      (if i = 11 then 1 else 0),
    bd := fun i => if i = 10 ∨ i = 11 ∨ i = 12 then some { bd_gl := 0, bd_ail := none }
      else none,
    gl := fun g => if g = 0 then
        { gl_ail_list := [], gl_ail_count := 0, i_writecount := 0,
          pages := [[10, 11], [12]] }
      else empty_sbd.gl g,
    sd_bufdata_count := 3 }

/-- Example: buffer 10 of glock 0 is pinned and uptodate, holds two references and
is not in the AIL. -/
def sample_pinned : gfs2_sbd :=
  { empty_sbd with
    bh := fun i => mk_bh i true false false (decide (i = 10)) 2,
    bd := fun i => if i = 10 then some { bd_gl := 0, bd_ail := none } else none }

/-- Example: buffer 10 of glock 0 is pinned and uptodate and on the pending list of
AIL entry 1 from an earlier commit. -/
def sample_pinned_in_ail : gfs2_sbd :=
  { empty_sbd with
    bh := fun i => mk_bh i true false false (decide (i = 10)) 2,
    bd := fun i => if i = 10 then some { bd_gl := 0, bd_ail := some 1 } else none,
    gl := fun g => if g = 0 then
        { gl_ail_list := [10], gl_ail_count := 1, i_writecount := 0, pages := [[10]] }
      else empty_sbd.gl g,
    ai := fun a => if a = 1 then { ai_ail1_list := [10], ai_ail2_list := [] }
      else empty_sbd.ai a }

/-- Example: buffer 10 of glock 0 is uptodate, not pinned, holds one reference and
is not in the AIL. -/
def sample_unpinned : gfs2_sbd :=
  { empty_sbd with
    bh := fun i => mk_bh i true false false false 1,
    bd := fun i => if i = 10 then some { bd_gl := 0, bd_ail := none } else none }

/-- Example: buffer 10 is uptodate and dirty on a writable, running filesystem. -/
def sample_dirty : gfs2_sbd :=
  { empty_sbd with bh := fun i => mk_bh i true true false false 1 }

/-- Example: a shut-down filesystem that is also read-only; buffer 10 is dirty. -/
def sample_shutdown : gfs2_sbd :=
  { empty_sbd with
    SDF_SHUTDOWN := true, SDF_ROFS := true,
    bh := fun i => mk_bh i true true false false 1 }

/-- Example: AIL entry 1 has buffers 10, 11, 12 awaiting release and buffer 13
pending; 10, 12 and 13 belong to glock 0, 11 belongs to glock 5. -/
def sample_awaiting : gfs2_sbd :=
  { empty_sbd with
    bh := fun i => mk_bh i true (decide (i = 13)) false false 1,
    bd := fun i => if i = 11 then some { bd_gl := 5, bd_ail := some 1 }
      else if i = 10 ∨ i = 12 ∨ i = 13 then some { bd_gl := 0, bd_ail := some 1 } else none,
    gl := fun g => if g = 0 then
        { gl_ail_list := [13, 12, 10], gl_ail_count := 3, i_writecount := 0,
          pages := [[10, 12, 13]] }
      else if g = 5 then
        { gl_ail_list := [11], gl_ail_count := 1, i_writecount := 0, pages := [[11]] }
      else empty_sbd.gl g,
    ai := fun a => if a = 1 then { ai_ail1_list := [13], ai_ail2_list := [12, 11, 10] }
      else empty_sbd.ai a }

/-- Example: glock 0 has AIL count 3; its buffers 10, 11, 12 are written back and
clean and wait on the awaiting-release list of AIL entry 1. -/
def sample_synced : gfs2_sbd :=
  { empty_sbd with
    bh := fun i => mk_bh i true false false false 2,
    bd := fun i => if i = 10 ∨ i = 11 ∨ i = 12 then some { bd_gl := 0, bd_ail := some 1 } else none,
    gl := fun g => if g = 0 then
        { gl_ail_list := [12, 11, 10], gl_ail_count := 3, i_writecount := 0,
          pages := [[10, 11, 12]] }
      else empty_sbd.gl g,
    ai := fun a => if a = 1 then { ai_ail1_list := [], ai_ail2_list := [12, 11, 10] }
      else empty_sbd.ai a }

/-- Example: the buffers of the newly allocated blocks 10, 11, 12 of glock 0, just
obtained from the cache (one reference each, not uptodate) with bufdata attached;
nothing is in the AIL. -/
def sample_new_blocks : gfs2_sbd :=
  { empty_sbd with
    bh := fun i => mk_bh i false false false false 1,
    bd := fun i => if i = 10 ∨ i = 11 ∨ i = 12 then some { bd_gl := 0, bd_ail := none } else none }

/-- Example of a state that breaks the list discipline: buffer 10 sits on the
pending list of AIL entry 1 while its `bd_ail` names entry 2. -/
def sample_foreign_entry : gfs2_sbd :=
  { empty_sbd with
    bh := fun i => mk_bh i true false false false 1,
    bd := fun i => if i = 10 then some { bd_gl := 0, bd_ail := some 2 }
      else if i = 11 then some { bd_gl := 0, bd_ail := some 1 } else none,
    ai := fun a => if a = 1 then { ai_ail1_list := [11, 10], ai_ail2_list := [] }
      else empty_sbd.ai a }

/-- Example: buffer 10 of glock 0 is uptodate, clean and unpinned, sits on the
pending list of AIL entry 1 and is locked by a write in flight; it holds three
references, that of its user, that of the AIL and that of the block layer. -/
def sample_locked_pending : gfs2_sbd :=
  { empty_sbd with
    bh := fun i => mk_bh i true false (decide (i = 10)) false (if i = 10 then 3 else 1),
    bd := fun i => if i = 10 then some { bd_gl := 0, bd_ail := some 1 } else none,
    gl := fun g => if g = 0 then
        { gl_ail_list := [10], gl_ail_count := 1, i_writecount := 0, pages := [[10]] }
      else empty_sbd.gl g,
    ai := fun a => if a = 1 then { ai_ail1_list := [10], ai_ail2_list := [] }
      else empty_sbd.ai a }

/-- One round of the wait loop of `gfs2_aspace_releasepage` in round `k` with local
time `t`: the new `t` and the state after the `yield()`. -/
def wait_round (sch : Sched) (b stall k t : Nat) (s : gfs2_sbd) : Nat × gfs2_sbd :=
  (if t + stall ≤ sch.jiffies k then sch.jiffies k else t,
   sch.yield k (if t + stall ≤ sch.jiffies k then stuck_releasepage s b else s))

/-- The local time and the state after `m` rounds of the wait loop from round `k`. -/
def wait_rounds (sch : Sched) (b stall : Nat) : Nat → Nat → Nat → gfs2_sbd → Nat × gfs2_sbd
  | 0, _, t, s => (t, s)
  | m + 1, k, t, s =>
    wait_rounds sch b stall m (k + 1) (wait_round sch b stall k t s).1
      (wait_round sch b stall k t s).2

/-- The wait loop goes round: the buffer is referenced and the address space is
marked as written to. -/
def keeps_waiting (g b : Nat) (s : gfs2_sbd) : Prop :=
  (s.bh b).b_count ≠ 0 ∧ (s.gl g).i_writecount ≠ 0

instance (g b : Nat) (s : gfs2_sbd) : Decidable (keeps_waiting g b s) := by
  unfold keeps_waiting
  infer_instance

/-- A scheduler under which nothing else runs: the clock ticks once per round. -/
def sched_idle : Sched :=
  { jiffies := fun k => k, yield := fun _ s => s }

/-- A scheduler under which another task drops the last reference to buffer 10
during the third `yield()`. -/
def sched_drop_third : Sched :=
  { jiffies := fun k => k,
    yield := fun k s => if k = 2 then brelse s 10 else s }

/-- Example: buffer 10 of glock 0 is clean and unpinned with bufdata outside the
AIL, and one reference is held on it; the address space is not being written to. -/
def sample_referenced : gfs2_sbd :=
  { empty_sbd with
    bh := fun i => mk_bh i true false false false (if i = 10 then 1 else 0),
    bd := fun i => if i = 10 then some { bd_gl := 0, bd_ail := none } else none,
    sd_bufdata_count := 1 }

/-- Example: as `sample_referenced`, inside `gfs2_inval_buf` (`i_writecount` of the
address space of glock 0 raised to 1). -/
def sample_referenced_writing : gfs2_sbd :=
  { sample_referenced with
    gl := fun g => if g = 0 then
        { gl_ail_list := [], gl_ail_count := 0, i_writecount := 1, pages := [[10]] }
      else empty_sbd.gl g }

/-! ## The list discipline of the AIL -/

/-- The list discipline of the AIL.  No bufdata is linked twice into the lists of an
AIL entry; a bufdata is linked into a list of entry `a` exactly when its `bd_ail`
is `a`; no bufdata is linked twice into a glock's AIL list; a bufdata is on the
list of glock `g` exactly when `g` is its glock and its `bd_ail` is not NULL; and
`gl_ail_count` is the length of that list. -/
structure ail_inv (s : gfs2_sbd) : Prop where
  st_nodup : ∀ a, ((s.ai a).ai_ail1_list ++ (s.ai a).ai_ail2_list).Nodup
  st_mem : ∀ a b, (b ∈ (s.ai a).ai_ail1_list ∨ b ∈ (s.ai a).ai_ail2_list) ↔
    ail_of s b = some a
  gl_nodup : ∀ g, (s.gl g).gl_ail_list.Nodup
  gl_mem : ∀ g b, b ∈ (s.gl g).gl_ail_list ↔ (gl_of s b = some g ∧ ail_of s b ≠ none)
  gl_count : ∀ g, (s.gl g).gl_ail_count = ((s.gl g).gl_ail_list.length : Nat)

/-- An empty AIL: no AIL entry and no glock has anything on its lists, the counters
are 0, and every `bd_ail` is NULL. -/
def ail_empty (s : gfs2_sbd) : Prop :=
  (∀ a, (s.ai a).ai_ail1_list = [] ∧ (s.ai a).ai_ail2_list = []) ∧
  (∀ g, (s.gl g).gl_ail_list = [] ∧ (s.gl g).gl_ail_count = 0) ∧
  (∀ b, ail_of s b = none)

/-- One call, returning normally, of one of the functions that work on the AIL, with
any arguments and any behaviour of the storage, the log and the page cache. -/
inductive ail_step : gfs2_sbd → gfs2_sbd → Prop where
  | dpin (sto : Storage) (b : Nat) {s s' : gfs2_sbd} :
      gfs2_dpin sto s b = .ok s' → ail_step s s'
  | dunpin (b a : Nat) {s s' : gfs2_sbd} :
      gfs2_dunpin s b (some a) = .ok s' → ail_step s s'
  | ail1_start_one (sto : Storage) (fuel a : Nat) {s s' : gfs2_sbd} :
      gfs2_ail1_start_one sto fuel s a = .ok s' → ail_step s s'
  | ail1_empty_one (a : Nat) (flags : dio_flags) (r : Bool) {s s' : gfs2_sbd} :
      gfs2_ail1_empty_one s a flags = .ok (r, s') → ail_step s s'
  | ail2_empty_one (fuel a : Nat) {s s' : gfs2_sbd} :
      gfs2_ail2_empty_one fuel s a = .ok s' → ail_step s s'
  | ail_empty_gl (fuel : Nat) (error : Int) (g : Nat) {s s' : gfs2_sbd} :
      gfs2_ail_empty_gl fuel error s g = .ok s' → ail_step s s'
  | buf_wipe (sto : Storage) (cache : Nat → Option Nat) (bstart blen : Nat)
      {s s' : gfs2_sbd} :
      gfs2_buf_wipe sto cache s bstart blen = .ok s' → ail_step s s'

/-- The states reached from `s0` by any sequence of such calls, and of transfers in
flight coming to their end in between. -/
inductive reachable (s0 : gfs2_sbd) : gfs2_sbd → Prop where
  | start : reachable s0 s0
  | step {s s' : gfs2_sbd} : reachable s0 s → ail_step s s' → reachable s0 s'
  | io_end {s : gfs2_sbd} (b : Nat) (ok : Bool) : reachable s0 s →
      (s.bh b).BH_Lock = true → reachable s0 (end_buffer_io s b ok)

/-- The states reached from `s0` by any sequence of such calls of which none raises
a withdraw, and of transfers in flight coming to their end in between. -/
inductive reachable_ok (s0 : gfs2_sbd) : gfs2_sbd → Prop where
  | start : reachable_ok s0 s0
  | step {s s' : gfs2_sbd} : reachable_ok s0 s → ail_step s s' →
      s'.withdraws = s.withdraws → reachable_ok s0 s'
  | io_end {s : gfs2_sbd} (b : Nat) (ok : Bool) : reachable_ok s0 s →
      (s.bh b).BH_Lock = true → reachable_ok s0 (end_buffer_io s b ok)

/-- The references held on buffer `b` in state `s`, counted from state `s0`: those
taken since then less those dropped since then. -/
def refs_held (s0 s : gfs2_sbd) (b : Nat) : Int :=
  (s.bh b).b_count - (s0.bh b).b_count

/-- The references on a buffer head that are neither the pin's nor the block
layer's: the count less one if the buffer is pinned and less one if it is locked
for a transfer in flight. -/
def ref_base (h : buffer_head) : Int :=
  h.b_count - (if h.BH_Pinned then 1 else 0) - (if h.BH_Lock then 1 else 0)

/-- The reference count of buffer `x` stands at `c` plus one reference if the buffer
is pinned, plus one if its bufdata has AIL membership, plus one if a transfer of the
buffer is in flight. -/
def ref_ok (s : gfs2_sbd) (x : Nat) (c : Int) : Prop :=
  (s.bh x).b_count = c + (if (s.bh x).BH_Pinned then 1 else 0) +
    (if (ail_of s x).isSome then 1 else 0) + (if (s.bh x).BH_Lock then 1 else 0)

/-- From `s` to `s'` the list discipline is in force at the end and no buffer's
reference count has left its standing, as long as that standing is not negative. -/
def keeps (s s' : gfs2_sbd) : Prop :=
  ail_inv s' ∧ ∀ x c, 0 ≤ c → ref_ok s x c → ref_ok s' x c

/-! ## A buffer's way through the AIL, step by step -/

/-- The state a call returned, `s` when it did not return. -/
def state_of (r : Except Fault gfs2_sbd) (s : gfs2_sbd) : gfs2_sbd :=
  match r with
  | .ok s' => s'
  | .error _ => s

/-- A scheduler under which the log daemon releases the written-back buffers of AIL
entry 1 (`gfs2_ail2_empty_one`) during the third `yield()`. -/
def sched_ail_drain : Sched :=
  { jiffies := fun k => k,
    yield := fun k s => if k = 2 then state_of (gfs2_ail2_empty_one 8 s 1) s else s }

/-- Example: an empty AIL; buffer 10 of glock 0 is uptodate, clean, unpinned, has a
bufdata and one reference held by its user. -/
def sample_fresh : gfs2_sbd :=
  { empty_sbd with
    get_transaction := true,
    bh := fun i => mk_bh i true false false false 1,
    bd := fun i => if i = 10 then some { bd_gl := 0, bd_ail := none } else none }

/-- Example: `sample_fresh` after `gfs2_dpin` of buffer 10. -/
def sample_fresh_pinned : gfs2_sbd :=
  state_of (gfs2_dpin storage_sync_ok sample_fresh 10) sample_fresh

/-- Example: then `gfs2_dunpin` of buffer 10 into AIL entry 1. -/
def sample_fresh_logged : gfs2_sbd :=
  state_of (gfs2_dunpin sample_fresh_pinned 10 (some 1)) sample_fresh_pinned

/-- Example: then `gfs2_ail1_start_one` on entry 1, the write ending at once. -/
def sample_fresh_written : gfs2_sbd :=
  state_of (gfs2_ail1_start_one storage_sync_ok 2 sample_fresh_logged 1) sample_fresh_logged

/-- Example: `sample_fresh_logged` after `gfs2_ail1_start_one` on entry 1, the write
still in flight when it returns. -/
def sample_fresh_inflight : gfs2_sbd :=
  state_of (gfs2_ail1_start_one storage_async_ok 2 sample_fresh_logged 1) sample_fresh_logged

/-- Example: then `gfs2_ail2_empty_one` on entry 1. -/
def sample_fresh_released : gfs2_sbd :=
  state_of (gfs2_ail2_empty_one 1 sample_fresh_written 1) sample_fresh_written

/-- Example: `sample_fresh_logged` after `gfs2_buf_wipe` of the block of buffer 10,
found in the page cache. -/
def sample_fresh_wiped : gfs2_sbd :=
  state_of (gfs2_buf_wipe storage_sync_ok (fun blk => if blk = 10 then some 10 else none)
    sample_fresh_logged 10 1) sample_fresh_logged

/-! ## What a scan of the pending list leaves behind -/

/-- The dirty buffers on the pending list of entry `a`. -/
def pending_dirty (s : gfs2_sbd) (a : Nat) : List Nat :=
  (s.ai a).ai_ail1_list.filter (fun x => (s.bh x).BH_Dirty)

/-- What holds between the state `s` in which `gfs2_ail1_start_one` looks at the
buffers `xs` of entry `a` and the state `s1` it leaves: the list discipline, no
bufdata changed, nothing added to the pending list, buffers outside `xs` neither
moved nor changed, block numbers and pins untouched, the faults signalled only
added to, and a fault signalled for each buffer of `xs` that was moved to the
awaiting-release list while not uptodate. -/
structure scan_post (a : Nat) (xs : List Nat) (s s1 : gfs2_sbd) : Prop where
  inv : ail_inv s1
  bd_eq : s1.bd = s.bd
  ail1_sub : ∀ x, x ∈ (s1.ai a).ai_ail1_list → x ∈ (s.ai a).ai_ail1_list
  ail1_keep : ∀ x, x ∉ xs → x ∈ (s.ai a).ai_ail1_list → x ∈ (s1.ai a).ai_ail1_list
  bh_frame : ∀ x, x ∉ xs → s1.bh x = s.bh x
  bh_static : ∀ x, (s1.bh x).b_blocknr = (s.bh x).b_blocknr ∧
    (s1.bh x).BH_Pinned = (s.bh x).BH_Pinned
  errs : ∃ es, s1.io_errors = s.io_errors ++ es
  fault : ∀ x ∈ xs, x ∈ (s1.ai a).ai_ail2_list → (s1.bh x).BH_Uptodate = false →
    (s1.bh x).b_blocknr ∈ s1.io_errors

/-- Example: an empty AIL; buffers 10, 11 and 12 of glock 0 are uptodate, clean and
unpinned and have a bufdata each. -/
def sample_three : gfs2_sbd :=
  { empty_sbd with
    bh := fun i => mk_bh i true false false false 1,
    bd := fun i => if i = 10 ∨ i = 11 ∨ i = 12 then some { bd_gl := 0, bd_ail := none }
      else none }

/-- Example: `sample_three` after `gfs2_dpin` of buffer 10. -/
def sample_three_p10 : gfs2_sbd :=
  state_of (gfs2_dpin storage_sync_ok sample_three 10) sample_three

/-- Example: then `gfs2_dunpin` of buffer 10 into entry 1. -/
def sample_three_u10 : gfs2_sbd :=
  state_of (gfs2_dunpin sample_three_p10 10 (some 1)) sample_three_p10

/-- Example: then `gfs2_dpin` of buffer 11. -/
def sample_three_p11 : gfs2_sbd :=
  state_of (gfs2_dpin storage_sync_ok sample_three_u10 11) sample_three_u10

/-- Example: then `gfs2_dunpin` of buffer 11 into entry 1. -/
def sample_three_u11 : gfs2_sbd :=
  state_of (gfs2_dunpin sample_three_p11 11 (some 1)) sample_three_p11

/-- Example: then `gfs2_dpin` of buffer 12. -/
def sample_three_p12 : gfs2_sbd :=
  state_of (gfs2_dpin storage_sync_ok sample_three_u11 12) sample_three_u11

/-- Example: then `gfs2_dunpin` of buffer 12 into entry 1. -/
def sample_three_u12 : gfs2_sbd :=
  state_of (gfs2_dunpin sample_three_p12 12 (some 1)) sample_three_p12

/-- Example: then `gfs2_dpin` of buffer 11 once more.  Entry 1 now has the pending
list 12, 11, 10 (newest first), 10 and 12 dirty, 11 pinned and not dirty. -/
def sample_three_repinned : gfs2_sbd :=
  state_of (gfs2_dpin storage_sync_ok sample_three_u12 11) sample_three_u12

/-- Example: `sample_three_repinned` after `gfs2_ail1_start_one` on entry 1, the
writes still in flight when it returns. -/
def sample_three_started : gfs2_sbd :=
  state_of (gfs2_ail1_start_one storage_async_ok 3 sample_three_repinned 1)
    sample_three_repinned

/-- Example: the same with every write ended well at once. -/
def sample_three_synced : gfs2_sbd :=
  state_of (gfs2_ail1_start_one storage_sync_ok 3 sample_three_repinned 1)
    sample_three_repinned

/-! ## Frame lemmas: the fields an operation leaves alone -/

@[simp] theorem set_bh_SDF_SHUTDOWN (s : gfs2_sbd) (b : Nat) (h : buffer_head) :
    (set_bh s b h).SDF_SHUTDOWN = s.SDF_SHUTDOWN := rfl

@[simp] theorem set_bh_SDF_ROFS (s : gfs2_sbd) (b : Nat) (h : buffer_head) :
    (set_bh s b h).SDF_ROFS = s.SDF_ROFS := rfl

@[simp] theorem set_bh_bd (s : gfs2_sbd) (b : Nat) (h : buffer_head) :
    (set_bh s b h).bd = s.bd := rfl

@[simp] theorem set_bh_gl (s : gfs2_sbd) (b : Nat) (h : buffer_head) :
    (set_bh s b h).gl = s.gl := rfl

@[simp] theorem set_bh_ai (s : gfs2_sbd) (b : Nat) (h : buffer_head) :
    (set_bh s b h).ai = s.ai := rfl

@[simp] theorem set_bh_get_transaction (s : gfs2_sbd) (b : Nat) (h : buffer_head) :
    (set_bh s b h).get_transaction = s.get_transaction := rfl

@[simp] theorem set_bh_withdraws (s : gfs2_sbd) (b : Nat) (h : buffer_head) :
    (set_bh s b h).withdraws = s.withdraws := rfl

@[simp] theorem set_bh_warnings (s : gfs2_sbd) (b : Nat) (h : buffer_head) :
    (set_bh s b h).warnings = s.warnings := rfl

@[simp] theorem set_bh_io_errors (s : gfs2_sbd) (b : Nat) (h : buffer_head) :
    (set_bh s b h).io_errors = s.io_errors := rfl

@[simp] theorem set_bh_io_log (s : gfs2_sbd) (b : Nat) (h : buffer_head) :
    (set_bh s b h).io_log = s.io_log := rfl

@[simp] theorem set_bh_trans_log (s : gfs2_sbd) (b : Nat) (h : buffer_head) :
    (set_bh s b h).trans_log = s.trans_log := rfl

@[simp] theorem set_bh_sd_log_num_buf (s : gfs2_sbd) (b : Nat) (h : buffer_head) :
    (set_bh s b h).sd_log_num_buf = s.sd_log_num_buf := rfl

@[simp] theorem set_bh_sd_bufdata_count (s : gfs2_sbd) (b : Nat) (h : buffer_head) :
    (set_bh s b h).sd_bufdata_count = s.sd_bufdata_count := rfl

@[simp] theorem set_bh_tr_num_buf_rm (s : gfs2_sbd) (b : Nat) (h : buffer_head) :
    (set_bh s b h).tr_num_buf_rm = s.tr_num_buf_rm := rfl

@[simp] theorem set_bh_le_list (s : gfs2_sbd) (b : Nat) (h : buffer_head) :
    (set_bh s b h).le_list = s.le_list := rfl

@[simp] theorem set_bh_list_tr (s : gfs2_sbd) (b : Nat) (h : buffer_head) :
    (set_bh s b h).list_tr = s.list_tr := rfl

@[simp] theorem set_bh_stuck_reports (s : gfs2_sbd) (b : Nat) (h : buffer_head) :
    (set_bh s b h).stuck_reports = s.stuck_reports := rfl

@[simp] theorem set_bd_SDF_SHUTDOWN (s : gfs2_sbd) (b : Nat) (d : gfs2_bufdata) :
    (set_bd s b d).SDF_SHUTDOWN = s.SDF_SHUTDOWN := rfl

@[simp] theorem set_bd_SDF_ROFS (s : gfs2_sbd) (b : Nat) (d : gfs2_bufdata) :
    (set_bd s b d).SDF_ROFS = s.SDF_ROFS := rfl

@[simp] theorem set_bd_bh (s : gfs2_sbd) (b : Nat) (d : gfs2_bufdata) :
    (set_bd s b d).bh = s.bh := rfl

@[simp] theorem set_bd_gl (s : gfs2_sbd) (b : Nat) (d : gfs2_bufdata) :
    (set_bd s b d).gl = s.gl := rfl

@[simp] theorem set_bd_ai (s : gfs2_sbd) (b : Nat) (d : gfs2_bufdata) :
    (set_bd s b d).ai = s.ai := rfl

@[simp] theorem set_bd_get_transaction (s : gfs2_sbd) (b : Nat) (d : gfs2_bufdata) :
    (set_bd s b d).get_transaction = s.get_transaction := rfl

@[simp] theorem set_bd_withdraws (s : gfs2_sbd) (b : Nat) (d : gfs2_bufdata) :
    (set_bd s b d).withdraws = s.withdraws := rfl

@[simp] theorem set_bd_warnings (s : gfs2_sbd) (b : Nat) (d : gfs2_bufdata) :
    (set_bd s b d).warnings = s.warnings := rfl

@[simp] theorem set_bd_io_errors (s : gfs2_sbd) (b : Nat) (d : gfs2_bufdata) :
    (set_bd s b d).io_errors = s.io_errors := rfl

@[simp] theorem set_bd_io_log (s : gfs2_sbd) (b : Nat) (d : gfs2_bufdata) :
    (set_bd s b d).io_log = s.io_log := rfl

@[simp] theorem set_bd_trans_log (s : gfs2_sbd) (b : Nat) (d : gfs2_bufdata) :
    (set_bd s b d).trans_log = s.trans_log := rfl

@[simp] theorem set_bd_sd_log_num_buf (s : gfs2_sbd) (b : Nat) (d : gfs2_bufdata) :
    (set_bd s b d).sd_log_num_buf = s.sd_log_num_buf := rfl

@[simp] theorem set_bd_sd_bufdata_count (s : gfs2_sbd) (b : Nat) (d : gfs2_bufdata) :
    (set_bd s b d).sd_bufdata_count = s.sd_bufdata_count := rfl

@[simp] theorem set_bd_tr_num_buf_rm (s : gfs2_sbd) (b : Nat) (d : gfs2_bufdata) :
    (set_bd s b d).tr_num_buf_rm = s.tr_num_buf_rm := rfl

@[simp] theorem set_bd_le_list (s : gfs2_sbd) (b : Nat) (d : gfs2_bufdata) :
    (set_bd s b d).le_list = s.le_list := rfl

@[simp] theorem set_bd_list_tr (s : gfs2_sbd) (b : Nat) (d : gfs2_bufdata) :
    (set_bd s b d).list_tr = s.list_tr := rfl

@[simp] theorem set_bd_stuck_reports (s : gfs2_sbd) (b : Nat) (d : gfs2_bufdata) :
    (set_bd s b d).stuck_reports = s.stuck_reports := rfl

@[simp] theorem set_gl_SDF_SHUTDOWN (s : gfs2_sbd) (g : Nat) (x : gfs2_glock) :
    (set_gl s g x).SDF_SHUTDOWN = s.SDF_SHUTDOWN := rfl

@[simp] theorem set_gl_SDF_ROFS (s : gfs2_sbd) (g : Nat) (x : gfs2_glock) :
    (set_gl s g x).SDF_ROFS = s.SDF_ROFS := rfl

@[simp] theorem set_gl_bh (s : gfs2_sbd) (g : Nat) (x : gfs2_glock) :
    (set_gl s g x).bh = s.bh := rfl

@[simp] theorem set_gl_bd (s : gfs2_sbd) (g : Nat) (x : gfs2_glock) :
    (set_gl s g x).bd = s.bd := rfl

@[simp] theorem set_gl_ai (s : gfs2_sbd) (g : Nat) (x : gfs2_glock) :
    (set_gl s g x).ai = s.ai := rfl

@[simp] theorem set_gl_get_transaction (s : gfs2_sbd) (g : Nat) (x : gfs2_glock) :
    (set_gl s g x).get_transaction = s.get_transaction := rfl

@[simp] theorem set_gl_withdraws (s : gfs2_sbd) (g : Nat) (x : gfs2_glock) :
    (set_gl s g x).withdraws = s.withdraws := rfl

@[simp] theorem set_gl_warnings (s : gfs2_sbd) (g : Nat) (x : gfs2_glock) :
    (set_gl s g x).warnings = s.warnings := rfl

@[simp] theorem set_gl_io_errors (s : gfs2_sbd) (g : Nat) (x : gfs2_glock) :
    (set_gl s g x).io_errors = s.io_errors := rfl

@[simp] theorem set_gl_io_log (s : gfs2_sbd) (g : Nat) (x : gfs2_glock) :
    (set_gl s g x).io_log = s.io_log := rfl

@[simp] theorem set_gl_trans_log (s : gfs2_sbd) (g : Nat) (x : gfs2_glock) :
    (set_gl s g x).trans_log = s.trans_log := rfl

@[simp] theorem set_gl_sd_log_num_buf (s : gfs2_sbd) (g : Nat) (x : gfs2_glock) :
    (set_gl s g x).sd_log_num_buf = s.sd_log_num_buf := rfl

@[simp] theorem set_gl_sd_bufdata_count (s : gfs2_sbd) (g : Nat) (x : gfs2_glock) :
    (set_gl s g x).sd_bufdata_count = s.sd_bufdata_count := rfl

@[simp] theorem set_gl_tr_num_buf_rm (s : gfs2_sbd) (g : Nat) (x : gfs2_glock) :
    (set_gl s g x).tr_num_buf_rm = s.tr_num_buf_rm := rfl

@[simp] theorem set_gl_le_list (s : gfs2_sbd) (g : Nat) (x : gfs2_glock) :
    (set_gl s g x).le_list = s.le_list := rfl

@[simp] theorem set_gl_list_tr (s : gfs2_sbd) (g : Nat) (x : gfs2_glock) :
    (set_gl s g x).list_tr = s.list_tr := rfl

@[simp] theorem set_gl_stuck_reports (s : gfs2_sbd) (g : Nat) (x : gfs2_glock) :
    (set_gl s g x).stuck_reports = s.stuck_reports := rfl

@[simp] theorem set_ai_SDF_SHUTDOWN (s : gfs2_sbd) (a : Nat) (x : gfs2_ail) :
    (set_ai s a x).SDF_SHUTDOWN = s.SDF_SHUTDOWN := rfl

@[simp] theorem set_ai_SDF_ROFS (s : gfs2_sbd) (a : Nat) (x : gfs2_ail) :
    (set_ai s a x).SDF_ROFS = s.SDF_ROFS := rfl

@[simp] theorem set_ai_bh (s : gfs2_sbd) (a : Nat) (x : gfs2_ail) :
    (set_ai s a x).bh = s.bh := rfl

@[simp] theorem set_ai_bd (s : gfs2_sbd) (a : Nat) (x : gfs2_ail) :
    (set_ai s a x).bd = s.bd := rfl

@[simp] theorem set_ai_gl (s : gfs2_sbd) (a : Nat) (x : gfs2_ail) :
    (set_ai s a x).gl = s.gl := rfl

@[simp] theorem set_ai_get_transaction (s : gfs2_sbd) (a : Nat) (x : gfs2_ail) :
    (set_ai s a x).get_transaction = s.get_transaction := rfl

@[simp] theorem set_ai_withdraws (s : gfs2_sbd) (a : Nat) (x : gfs2_ail) :
    (set_ai s a x).withdraws = s.withdraws := rfl

@[simp] theorem set_ai_warnings (s : gfs2_sbd) (a : Nat) (x : gfs2_ail) :
    (set_ai s a x).warnings = s.warnings := rfl

@[simp] theorem set_ai_io_errors (s : gfs2_sbd) (a : Nat) (x : gfs2_ail) :
    (set_ai s a x).io_errors = s.io_errors := rfl

@[simp] theorem set_ai_io_log (s : gfs2_sbd) (a : Nat) (x : gfs2_ail) :
    (set_ai s a x).io_log = s.io_log := rfl

@[simp] theorem set_ai_trans_log (s : gfs2_sbd) (a : Nat) (x : gfs2_ail) :
    (set_ai s a x).trans_log = s.trans_log := rfl

@[simp] theorem set_ai_sd_log_num_buf (s : gfs2_sbd) (a : Nat) (x : gfs2_ail) :
    (set_ai s a x).sd_log_num_buf = s.sd_log_num_buf := rfl

@[simp] theorem set_ai_sd_bufdata_count (s : gfs2_sbd) (a : Nat) (x : gfs2_ail) :
    (set_ai s a x).sd_bufdata_count = s.sd_bufdata_count := rfl

@[simp] theorem set_ai_tr_num_buf_rm (s : gfs2_sbd) (a : Nat) (x : gfs2_ail) :
    (set_ai s a x).tr_num_buf_rm = s.tr_num_buf_rm := rfl

@[simp] theorem set_ai_le_list (s : gfs2_sbd) (a : Nat) (x : gfs2_ail) :
    (set_ai s a x).le_list = s.le_list := rfl

@[simp] theorem set_ai_list_tr (s : gfs2_sbd) (a : Nat) (x : gfs2_ail) :
    (set_ai s a x).list_tr = s.list_tr := rfl

@[simp] theorem set_ai_stuck_reports (s : gfs2_sbd) (a : Nat) (x : gfs2_ail) :
    (set_ai s a x).stuck_reports = s.stuck_reports := rfl

@[simp] theorem gfs2_lm_withdraw_SDF_ROFS (s : gfs2_sbd) :
    (gfs2_lm_withdraw s).SDF_ROFS = s.SDF_ROFS := rfl

@[simp] theorem gfs2_lm_withdraw_bh (s : gfs2_sbd) :
    (gfs2_lm_withdraw s).bh = s.bh := rfl

@[simp] theorem gfs2_lm_withdraw_bd (s : gfs2_sbd) :
    (gfs2_lm_withdraw s).bd = s.bd := rfl

@[simp] theorem gfs2_lm_withdraw_gl (s : gfs2_sbd) :
    (gfs2_lm_withdraw s).gl = s.gl := rfl

@[simp] theorem gfs2_lm_withdraw_ai (s : gfs2_sbd) :
    (gfs2_lm_withdraw s).ai = s.ai := rfl

@[simp] theorem gfs2_lm_withdraw_get_transaction (s : gfs2_sbd) :
    (gfs2_lm_withdraw s).get_transaction = s.get_transaction := rfl

@[simp] theorem gfs2_lm_withdraw_warnings (s : gfs2_sbd) :
    (gfs2_lm_withdraw s).warnings = s.warnings := rfl

@[simp] theorem gfs2_lm_withdraw_io_errors (s : gfs2_sbd) :
    (gfs2_lm_withdraw s).io_errors = s.io_errors := rfl

@[simp] theorem gfs2_lm_withdraw_io_log (s : gfs2_sbd) :
    (gfs2_lm_withdraw s).io_log = s.io_log := rfl

@[simp] theorem gfs2_lm_withdraw_trans_log (s : gfs2_sbd) :
    (gfs2_lm_withdraw s).trans_log = s.trans_log := rfl

@[simp] theorem gfs2_lm_withdraw_sd_log_num_buf (s : gfs2_sbd) :
    (gfs2_lm_withdraw s).sd_log_num_buf = s.sd_log_num_buf := rfl

@[simp] theorem gfs2_lm_withdraw_sd_bufdata_count (s : gfs2_sbd) :
    (gfs2_lm_withdraw s).sd_bufdata_count = s.sd_bufdata_count := rfl

@[simp] theorem gfs2_lm_withdraw_tr_num_buf_rm (s : gfs2_sbd) :
    (gfs2_lm_withdraw s).tr_num_buf_rm = s.tr_num_buf_rm := rfl

@[simp] theorem gfs2_lm_withdraw_le_list (s : gfs2_sbd) :
    (gfs2_lm_withdraw s).le_list = s.le_list := rfl

@[simp] theorem gfs2_lm_withdraw_list_tr (s : gfs2_sbd) :
    (gfs2_lm_withdraw s).list_tr = s.list_tr := rfl

@[simp] theorem gfs2_lm_withdraw_stuck_reports (s : gfs2_sbd) :
    (gfs2_lm_withdraw s).stuck_reports = s.stuck_reports := rfl

@[simp] theorem gfs2_io_error_bh_SDF_ROFS (s : gfs2_sbd) (b : Nat) :
    (gfs2_io_error_bh s b).SDF_ROFS = s.SDF_ROFS := rfl

@[simp] theorem gfs2_io_error_bh_bh (s : gfs2_sbd) (b : Nat) :
    (gfs2_io_error_bh s b).bh = s.bh := rfl

@[simp] theorem gfs2_io_error_bh_bd (s : gfs2_sbd) (b : Nat) :
    (gfs2_io_error_bh s b).bd = s.bd := rfl

@[simp] theorem gfs2_io_error_bh_gl (s : gfs2_sbd) (b : Nat) :
    (gfs2_io_error_bh s b).gl = s.gl := rfl

@[simp] theorem gfs2_io_error_bh_ai (s : gfs2_sbd) (b : Nat) :
    (gfs2_io_error_bh s b).ai = s.ai := rfl

@[simp] theorem gfs2_io_error_bh_get_transaction (s : gfs2_sbd) (b : Nat) :
    (gfs2_io_error_bh s b).get_transaction = s.get_transaction := rfl

@[simp] theorem gfs2_io_error_bh_withdraws (s : gfs2_sbd) (b : Nat) :
    (gfs2_io_error_bh s b).withdraws = s.withdraws := rfl

@[simp] theorem gfs2_io_error_bh_warnings (s : gfs2_sbd) (b : Nat) :
    (gfs2_io_error_bh s b).warnings = s.warnings := rfl

@[simp] theorem gfs2_io_error_bh_io_log (s : gfs2_sbd) (b : Nat) :
    (gfs2_io_error_bh s b).io_log = s.io_log := rfl

@[simp] theorem gfs2_io_error_bh_trans_log (s : gfs2_sbd) (b : Nat) :
    (gfs2_io_error_bh s b).trans_log = s.trans_log := rfl

@[simp] theorem gfs2_io_error_bh_sd_log_num_buf (s : gfs2_sbd) (b : Nat) :
    (gfs2_io_error_bh s b).sd_log_num_buf = s.sd_log_num_buf := rfl

@[simp] theorem gfs2_io_error_bh_sd_bufdata_count (s : gfs2_sbd) (b : Nat) :
    (gfs2_io_error_bh s b).sd_bufdata_count = s.sd_bufdata_count := rfl

@[simp] theorem gfs2_io_error_bh_tr_num_buf_rm (s : gfs2_sbd) (b : Nat) :
    (gfs2_io_error_bh s b).tr_num_buf_rm = s.tr_num_buf_rm := rfl

@[simp] theorem gfs2_io_error_bh_le_list (s : gfs2_sbd) (b : Nat) :
    (gfs2_io_error_bh s b).le_list = s.le_list := rfl

@[simp] theorem gfs2_io_error_bh_list_tr (s : gfs2_sbd) (b : Nat) :
    (gfs2_io_error_bh s b).list_tr = s.list_tr := rfl

@[simp] theorem gfs2_io_error_bh_stuck_reports (s : gfs2_sbd) (b : Nat) :
    (gfs2_io_error_bh s b).stuck_reports = s.stuck_reports := rfl

@[simp] theorem log_call_SDF_SHUTDOWN (s : gfs2_sbd) (e : log_event) :
    (log_call s e).SDF_SHUTDOWN = s.SDF_SHUTDOWN := rfl

@[simp] theorem log_call_SDF_ROFS (s : gfs2_sbd) (e : log_event) :
    (log_call s e).SDF_ROFS = s.SDF_ROFS := rfl

@[simp] theorem log_call_bh (s : gfs2_sbd) (e : log_event) :
    (log_call s e).bh = s.bh := rfl

@[simp] theorem log_call_bd (s : gfs2_sbd) (e : log_event) :
    (log_call s e).bd = s.bd := rfl

@[simp] theorem log_call_gl (s : gfs2_sbd) (e : log_event) :
    (log_call s e).gl = s.gl := rfl

@[simp] theorem log_call_ai (s : gfs2_sbd) (e : log_event) :
    (log_call s e).ai = s.ai := rfl

@[simp] theorem log_call_get_transaction (s : gfs2_sbd) (e : log_event) :
    (log_call s e).get_transaction = s.get_transaction := rfl

@[simp] theorem log_call_withdraws (s : gfs2_sbd) (e : log_event) :
    (log_call s e).withdraws = s.withdraws := rfl

@[simp] theorem log_call_warnings (s : gfs2_sbd) (e : log_event) :
    (log_call s e).warnings = s.warnings := rfl

@[simp] theorem log_call_io_errors (s : gfs2_sbd) (e : log_event) :
    (log_call s e).io_errors = s.io_errors := rfl

@[simp] theorem log_call_io_log (s : gfs2_sbd) (e : log_event) :
    (log_call s e).io_log = s.io_log := rfl

@[simp] theorem log_call_sd_log_num_buf (s : gfs2_sbd) (e : log_event) :
    (log_call s e).sd_log_num_buf = s.sd_log_num_buf := rfl

@[simp] theorem log_call_sd_bufdata_count (s : gfs2_sbd) (e : log_event) :
    (log_call s e).sd_bufdata_count = s.sd_bufdata_count := rfl

@[simp] theorem log_call_tr_num_buf_rm (s : gfs2_sbd) (e : log_event) :
    (log_call s e).tr_num_buf_rm = s.tr_num_buf_rm := rfl

@[simp] theorem log_call_le_list (s : gfs2_sbd) (e : log_event) :
    (log_call s e).le_list = s.le_list := rfl

@[simp] theorem log_call_list_tr (s : gfs2_sbd) (e : log_event) :
    (log_call s e).list_tr = s.list_tr := rfl

@[simp] theorem log_call_stuck_reports (s : gfs2_sbd) (e : log_event) :
    (log_call s e).stuck_reports = s.stuck_reports := rfl

@[simp] theorem list_del_st_SDF_SHUTDOWN (s : gfs2_sbd) (b : Nat) :
    (list_del_st s b).SDF_SHUTDOWN = s.SDF_SHUTDOWN := rfl

@[simp] theorem list_del_st_SDF_ROFS (s : gfs2_sbd) (b : Nat) :
    (list_del_st s b).SDF_ROFS = s.SDF_ROFS := rfl

@[simp] theorem list_del_st_bh (s : gfs2_sbd) (b : Nat) :
    (list_del_st s b).bh = s.bh := rfl

@[simp] theorem list_del_st_bd (s : gfs2_sbd) (b : Nat) :
    (list_del_st s b).bd = s.bd := rfl

@[simp] theorem list_del_st_gl (s : gfs2_sbd) (b : Nat) :
    (list_del_st s b).gl = s.gl := rfl

@[simp] theorem list_del_st_get_transaction (s : gfs2_sbd) (b : Nat) :
    (list_del_st s b).get_transaction = s.get_transaction := rfl

@[simp] theorem list_del_st_withdraws (s : gfs2_sbd) (b : Nat) :
    (list_del_st s b).withdraws = s.withdraws := rfl

@[simp] theorem list_del_st_warnings (s : gfs2_sbd) (b : Nat) :
    (list_del_st s b).warnings = s.warnings := rfl

@[simp] theorem list_del_st_io_errors (s : gfs2_sbd) (b : Nat) :
    (list_del_st s b).io_errors = s.io_errors := rfl

@[simp] theorem list_del_st_io_log (s : gfs2_sbd) (b : Nat) :
    (list_del_st s b).io_log = s.io_log := rfl

@[simp] theorem list_del_st_trans_log (s : gfs2_sbd) (b : Nat) :
    (list_del_st s b).trans_log = s.trans_log := rfl

@[simp] theorem list_del_st_sd_log_num_buf (s : gfs2_sbd) (b : Nat) :
    (list_del_st s b).sd_log_num_buf = s.sd_log_num_buf := rfl

@[simp] theorem list_del_st_sd_bufdata_count (s : gfs2_sbd) (b : Nat) :
    (list_del_st s b).sd_bufdata_count = s.sd_bufdata_count := rfl

@[simp] theorem list_del_st_tr_num_buf_rm (s : gfs2_sbd) (b : Nat) :
    (list_del_st s b).tr_num_buf_rm = s.tr_num_buf_rm := rfl

@[simp] theorem list_del_st_le_list (s : gfs2_sbd) (b : Nat) :
    (list_del_st s b).le_list = s.le_list := rfl

@[simp] theorem list_del_st_list_tr (s : gfs2_sbd) (b : Nat) :
    (list_del_st s b).list_tr = s.list_tr := rfl

@[simp] theorem list_del_st_stuck_reports (s : gfs2_sbd) (b : Nat) :
    (list_del_st s b).stuck_reports = s.stuck_reports := rfl

@[simp] theorem list_del_gl_SDF_SHUTDOWN (s : gfs2_sbd) (b : Nat) :
    (list_del_gl s b).SDF_SHUTDOWN = s.SDF_SHUTDOWN := rfl

@[simp] theorem list_del_gl_SDF_ROFS (s : gfs2_sbd) (b : Nat) :
    (list_del_gl s b).SDF_ROFS = s.SDF_ROFS := rfl

@[simp] theorem list_del_gl_bh (s : gfs2_sbd) (b : Nat) :
    (list_del_gl s b).bh = s.bh := rfl

@[simp] theorem list_del_gl_bd (s : gfs2_sbd) (b : Nat) :
    (list_del_gl s b).bd = s.bd := rfl

@[simp] theorem list_del_gl_ai (s : gfs2_sbd) (b : Nat) :
    (list_del_gl s b).ai = s.ai := rfl

@[simp] theorem list_del_gl_get_transaction (s : gfs2_sbd) (b : Nat) :
    (list_del_gl s b).get_transaction = s.get_transaction := rfl

@[simp] theorem list_del_gl_withdraws (s : gfs2_sbd) (b : Nat) :
    (list_del_gl s b).withdraws = s.withdraws := rfl

@[simp] theorem list_del_gl_warnings (s : gfs2_sbd) (b : Nat) :
    (list_del_gl s b).warnings = s.warnings := rfl

@[simp] theorem list_del_gl_io_errors (s : gfs2_sbd) (b : Nat) :
    (list_del_gl s b).io_errors = s.io_errors := rfl

@[simp] theorem list_del_gl_io_log (s : gfs2_sbd) (b : Nat) :
    (list_del_gl s b).io_log = s.io_log := rfl

@[simp] theorem list_del_gl_trans_log (s : gfs2_sbd) (b : Nat) :
    (list_del_gl s b).trans_log = s.trans_log := rfl

@[simp] theorem list_del_gl_sd_log_num_buf (s : gfs2_sbd) (b : Nat) :
    (list_del_gl s b).sd_log_num_buf = s.sd_log_num_buf := rfl

@[simp] theorem list_del_gl_sd_bufdata_count (s : gfs2_sbd) (b : Nat) :
    (list_del_gl s b).sd_bufdata_count = s.sd_bufdata_count := rfl

@[simp] theorem list_del_gl_tr_num_buf_rm (s : gfs2_sbd) (b : Nat) :
    (list_del_gl s b).tr_num_buf_rm = s.tr_num_buf_rm := rfl

@[simp] theorem list_del_gl_le_list (s : gfs2_sbd) (b : Nat) :
    (list_del_gl s b).le_list = s.le_list := rfl

@[simp] theorem list_del_gl_list_tr (s : gfs2_sbd) (b : Nat) :
    (list_del_gl s b).list_tr = s.list_tr := rfl

@[simp] theorem list_del_gl_stuck_reports (s : gfs2_sbd) (b : Nat) :
    (list_del_gl s b).stuck_reports = s.stuck_reports := rfl

@[simp] theorem put_bh_SDF_SHUTDOWN (s : gfs2_sbd) (b : Nat) :
    (put_bh s b).SDF_SHUTDOWN = s.SDF_SHUTDOWN := rfl

@[simp] theorem put_bh_SDF_ROFS (s : gfs2_sbd) (b : Nat) :
    (put_bh s b).SDF_ROFS = s.SDF_ROFS := rfl

@[simp] theorem put_bh_bd (s : gfs2_sbd) (b : Nat) :
    (put_bh s b).bd = s.bd := rfl

@[simp] theorem put_bh_gl (s : gfs2_sbd) (b : Nat) :
    (put_bh s b).gl = s.gl := rfl

@[simp] theorem put_bh_ai (s : gfs2_sbd) (b : Nat) :
    (put_bh s b).ai = s.ai := rfl

@[simp] theorem put_bh_get_transaction (s : gfs2_sbd) (b : Nat) :
    (put_bh s b).get_transaction = s.get_transaction := rfl

@[simp] theorem put_bh_withdraws (s : gfs2_sbd) (b : Nat) :
    (put_bh s b).withdraws = s.withdraws := rfl

@[simp] theorem put_bh_warnings (s : gfs2_sbd) (b : Nat) :
    (put_bh s b).warnings = s.warnings := rfl

@[simp] theorem put_bh_io_errors (s : gfs2_sbd) (b : Nat) :
    (put_bh s b).io_errors = s.io_errors := rfl

@[simp] theorem put_bh_io_log (s : gfs2_sbd) (b : Nat) :
    (put_bh s b).io_log = s.io_log := rfl

@[simp] theorem put_bh_trans_log (s : gfs2_sbd) (b : Nat) :
    (put_bh s b).trans_log = s.trans_log := rfl

@[simp] theorem put_bh_sd_log_num_buf (s : gfs2_sbd) (b : Nat) :
    (put_bh s b).sd_log_num_buf = s.sd_log_num_buf := rfl

@[simp] theorem put_bh_sd_bufdata_count (s : gfs2_sbd) (b : Nat) :
    (put_bh s b).sd_bufdata_count = s.sd_bufdata_count := rfl

@[simp] theorem put_bh_tr_num_buf_rm (s : gfs2_sbd) (b : Nat) :
    (put_bh s b).tr_num_buf_rm = s.tr_num_buf_rm := rfl

@[simp] theorem put_bh_le_list (s : gfs2_sbd) (b : Nat) :
    (put_bh s b).le_list = s.le_list := rfl

@[simp] theorem put_bh_list_tr (s : gfs2_sbd) (b : Nat) :
    (put_bh s b).list_tr = s.list_tr := rfl

@[simp] theorem put_bh_stuck_reports (s : gfs2_sbd) (b : Nat) :
    (put_bh s b).stuck_reports = s.stuck_reports := rfl

@[simp] theorem brelse_SDF_SHUTDOWN (s : gfs2_sbd) (b : Nat) :
    (brelse s b).SDF_SHUTDOWN = s.SDF_SHUTDOWN := by
  unfold brelse; split <;> rfl

@[simp] theorem brelse_SDF_ROFS (s : gfs2_sbd) (b : Nat) :
    (brelse s b).SDF_ROFS = s.SDF_ROFS := by
  unfold brelse; split <;> rfl

@[simp] theorem brelse_bd (s : gfs2_sbd) (b : Nat) :
    (brelse s b).bd = s.bd := by
  unfold brelse; split <;> rfl

@[simp] theorem brelse_gl (s : gfs2_sbd) (b : Nat) :
    (brelse s b).gl = s.gl := by
  unfold brelse; split <;> rfl

@[simp] theorem brelse_ai (s : gfs2_sbd) (b : Nat) :
    (brelse s b).ai = s.ai := by
  unfold brelse; split <;> rfl

@[simp] theorem brelse_get_transaction (s : gfs2_sbd) (b : Nat) :
    (brelse s b).get_transaction = s.get_transaction := by
  unfold brelse; split <;> rfl

@[simp] theorem brelse_withdraws (s : gfs2_sbd) (b : Nat) :
    (brelse s b).withdraws = s.withdraws := by
  unfold brelse; split <;> rfl

@[simp] theorem brelse_warnings (s : gfs2_sbd) (b : Nat) :
    (brelse s b).warnings = s.warnings := by
  unfold brelse; split <;> rfl

@[simp] theorem brelse_io_errors (s : gfs2_sbd) (b : Nat) :
    (brelse s b).io_errors = s.io_errors := by
  unfold brelse; split <;> rfl

@[simp] theorem brelse_io_log (s : gfs2_sbd) (b : Nat) :
    (brelse s b).io_log = s.io_log := by
  unfold brelse; split <;> rfl

@[simp] theorem brelse_trans_log (s : gfs2_sbd) (b : Nat) :
    (brelse s b).trans_log = s.trans_log := by
  unfold brelse; split <;> rfl

@[simp] theorem brelse_sd_log_num_buf (s : gfs2_sbd) (b : Nat) :
    (brelse s b).sd_log_num_buf = s.sd_log_num_buf := by
  unfold brelse; split <;> rfl

@[simp] theorem brelse_sd_bufdata_count (s : gfs2_sbd) (b : Nat) :
    (brelse s b).sd_bufdata_count = s.sd_bufdata_count := by
  unfold brelse; split <;> rfl

@[simp] theorem brelse_tr_num_buf_rm (s : gfs2_sbd) (b : Nat) :
    (brelse s b).tr_num_buf_rm = s.tr_num_buf_rm := by
  unfold brelse; split <;> rfl

@[simp] theorem brelse_le_list (s : gfs2_sbd) (b : Nat) :
    (brelse s b).le_list = s.le_list := by
  unfold brelse; split <;> rfl

@[simp] theorem brelse_list_tr (s : gfs2_sbd) (b : Nat) :
    (brelse s b).list_tr = s.list_tr := by
  unfold brelse; split <;> rfl

@[simp] theorem brelse_stuck_reports (s : gfs2_sbd) (b : Nat) :
    (brelse s b).stuck_reports = s.stuck_reports := by
  unfold brelse; split <;> rfl

@[simp] theorem end_buffer_io_SDF_SHUTDOWN (s : gfs2_sbd) (b : Nat) (ok : Bool) :
    (end_buffer_io s b ok).SDF_SHUTDOWN = s.SDF_SHUTDOWN := rfl

@[simp] theorem end_buffer_io_SDF_ROFS (s : gfs2_sbd) (b : Nat) (ok : Bool) :
    (end_buffer_io s b ok).SDF_ROFS = s.SDF_ROFS := rfl

@[simp] theorem end_buffer_io_bd (s : gfs2_sbd) (b : Nat) (ok : Bool) :
    (end_buffer_io s b ok).bd = s.bd := rfl

@[simp] theorem end_buffer_io_gl (s : gfs2_sbd) (b : Nat) (ok : Bool) :
    (end_buffer_io s b ok).gl = s.gl := rfl

@[simp] theorem end_buffer_io_ai (s : gfs2_sbd) (b : Nat) (ok : Bool) :
    (end_buffer_io s b ok).ai = s.ai := rfl

@[simp] theorem end_buffer_io_get_transaction (s : gfs2_sbd) (b : Nat) (ok : Bool) :
    (end_buffer_io s b ok).get_transaction = s.get_transaction := rfl

@[simp] theorem end_buffer_io_withdraws (s : gfs2_sbd) (b : Nat) (ok : Bool) :
    (end_buffer_io s b ok).withdraws = s.withdraws := rfl

@[simp] theorem end_buffer_io_warnings (s : gfs2_sbd) (b : Nat) (ok : Bool) :
    (end_buffer_io s b ok).warnings = s.warnings := rfl

@[simp] theorem end_buffer_io_io_errors (s : gfs2_sbd) (b : Nat) (ok : Bool) :
    (end_buffer_io s b ok).io_errors = s.io_errors := rfl

@[simp] theorem end_buffer_io_io_log (s : gfs2_sbd) (b : Nat) (ok : Bool) :
    (end_buffer_io s b ok).io_log = s.io_log := rfl

@[simp] theorem end_buffer_io_trans_log (s : gfs2_sbd) (b : Nat) (ok : Bool) :
    (end_buffer_io s b ok).trans_log = s.trans_log := rfl

@[simp] theorem end_buffer_io_sd_log_num_buf (s : gfs2_sbd) (b : Nat) (ok : Bool) :
    (end_buffer_io s b ok).sd_log_num_buf = s.sd_log_num_buf := rfl

@[simp] theorem end_buffer_io_sd_bufdata_count (s : gfs2_sbd) (b : Nat) (ok : Bool) :
    (end_buffer_io s b ok).sd_bufdata_count = s.sd_bufdata_count := rfl

@[simp] theorem end_buffer_io_tr_num_buf_rm (s : gfs2_sbd) (b : Nat) (ok : Bool) :
    (end_buffer_io s b ok).tr_num_buf_rm = s.tr_num_buf_rm := rfl

@[simp] theorem end_buffer_io_le_list (s : gfs2_sbd) (b : Nat) (ok : Bool) :
    (end_buffer_io s b ok).le_list = s.le_list := rfl

@[simp] theorem end_buffer_io_list_tr (s : gfs2_sbd) (b : Nat) (ok : Bool) :
    (end_buffer_io s b ok).list_tr = s.list_tr := rfl

@[simp] theorem end_buffer_io_stuck_reports (s : gfs2_sbd) (b : Nat) (ok : Bool) :
    (end_buffer_io s b ok).stuck_reports = s.stuck_reports := rfl

@[simp] theorem wait_on_buffer_SDF_SHUTDOWN (sto : Storage) (s : gfs2_sbd) (b : Nat) :
    (wait_on_buffer sto s b).SDF_SHUTDOWN = s.SDF_SHUTDOWN := by
  unfold wait_on_buffer; split <;> rfl

@[simp] theorem wait_on_buffer_SDF_ROFS (sto : Storage) (s : gfs2_sbd) (b : Nat) :
    (wait_on_buffer sto s b).SDF_ROFS = s.SDF_ROFS := by
  unfold wait_on_buffer; split <;> rfl

@[simp] theorem wait_on_buffer_bd (sto : Storage) (s : gfs2_sbd) (b : Nat) :
    (wait_on_buffer sto s b).bd = s.bd := by
  unfold wait_on_buffer; split <;> rfl

@[simp] theorem wait_on_buffer_gl (sto : Storage) (s : gfs2_sbd) (b : Nat) :
    (wait_on_buffer sto s b).gl = s.gl := by
  unfold wait_on_buffer; split <;> rfl

@[simp] theorem wait_on_buffer_ai (sto : Storage) (s : gfs2_sbd) (b : Nat) :
    (wait_on_buffer sto s b).ai = s.ai := by
  unfold wait_on_buffer; split <;> rfl

@[simp] theorem wait_on_buffer_get_transaction (sto : Storage) (s : gfs2_sbd) (b : Nat) :
    (wait_on_buffer sto s b).get_transaction = s.get_transaction := by
  unfold wait_on_buffer; split <;> rfl

@[simp] theorem wait_on_buffer_withdraws (sto : Storage) (s : gfs2_sbd) (b : Nat) :
    (wait_on_buffer sto s b).withdraws = s.withdraws := by
  unfold wait_on_buffer; split <;> rfl

@[simp] theorem wait_on_buffer_warnings (sto : Storage) (s : gfs2_sbd) (b : Nat) :
    (wait_on_buffer sto s b).warnings = s.warnings := by
  unfold wait_on_buffer; split <;> rfl

@[simp] theorem wait_on_buffer_io_errors (sto : Storage) (s : gfs2_sbd) (b : Nat) :
    (wait_on_buffer sto s b).io_errors = s.io_errors := by
  unfold wait_on_buffer; split <;> rfl

@[simp] theorem wait_on_buffer_io_log (sto : Storage) (s : gfs2_sbd) (b : Nat) :
    (wait_on_buffer sto s b).io_log = s.io_log := by
  unfold wait_on_buffer; split <;> rfl

@[simp] theorem wait_on_buffer_trans_log (sto : Storage) (s : gfs2_sbd) (b : Nat) :
    (wait_on_buffer sto s b).trans_log = s.trans_log := by
  unfold wait_on_buffer; split <;> rfl

@[simp] theorem wait_on_buffer_sd_log_num_buf (sto : Storage) (s : gfs2_sbd) (b : Nat) :
    (wait_on_buffer sto s b).sd_log_num_buf = s.sd_log_num_buf := by
  unfold wait_on_buffer; split <;> rfl

@[simp] theorem wait_on_buffer_sd_bufdata_count (sto : Storage) (s : gfs2_sbd) (b : Nat) :
    (wait_on_buffer sto s b).sd_bufdata_count = s.sd_bufdata_count := by
  unfold wait_on_buffer; split <;> rfl

@[simp] theorem wait_on_buffer_tr_num_buf_rm (sto : Storage) (s : gfs2_sbd) (b : Nat) :
    (wait_on_buffer sto s b).tr_num_buf_rm = s.tr_num_buf_rm := by
  unfold wait_on_buffer; split <;> rfl

@[simp] theorem wait_on_buffer_le_list (sto : Storage) (s : gfs2_sbd) (b : Nat) :
    (wait_on_buffer sto s b).le_list = s.le_list := by
  unfold wait_on_buffer; split <;> rfl

@[simp] theorem wait_on_buffer_list_tr (sto : Storage) (s : gfs2_sbd) (b : Nat) :
    (wait_on_buffer sto s b).list_tr = s.list_tr := by
  unfold wait_on_buffer; split <;> rfl

@[simp] theorem wait_on_buffer_stuck_reports (sto : Storage) (s : gfs2_sbd) (b : Nat) :
    (wait_on_buffer sto s b).stuck_reports = s.stuck_reports := by
  unfold wait_on_buffer; split <;> rfl

@[simp] theorem submit_bh_SDF_SHUTDOWN (sto : Storage) (s : gfs2_sbd) (b : Nat) (rq : io_request) :
    (submit_bh sto s b rq).SDF_SHUTDOWN = s.SDF_SHUTDOWN := by
  unfold submit_bh; split <;> rfl

@[simp] theorem submit_bh_SDF_ROFS (sto : Storage) (s : gfs2_sbd) (b : Nat) (rq : io_request) :
    (submit_bh sto s b rq).SDF_ROFS = s.SDF_ROFS := by
  unfold submit_bh; split <;> rfl

@[simp] theorem submit_bh_bd (sto : Storage) (s : gfs2_sbd) (b : Nat) (rq : io_request) :
    (submit_bh sto s b rq).bd = s.bd := by
  unfold submit_bh; split <;> rfl

@[simp] theorem submit_bh_gl (sto : Storage) (s : gfs2_sbd) (b : Nat) (rq : io_request) :
    (submit_bh sto s b rq).gl = s.gl := by
  unfold submit_bh; split <;> rfl

@[simp] theorem submit_bh_ai (sto : Storage) (s : gfs2_sbd) (b : Nat) (rq : io_request) :
    (submit_bh sto s b rq).ai = s.ai := by
  unfold submit_bh; split <;> rfl

@[simp] theorem submit_bh_get_transaction (sto : Storage) (s : gfs2_sbd) (b : Nat) (rq : io_request) :
    (submit_bh sto s b rq).get_transaction = s.get_transaction := by
  unfold submit_bh; split <;> rfl

@[simp] theorem submit_bh_withdraws (sto : Storage) (s : gfs2_sbd) (b : Nat) (rq : io_request) :
    (submit_bh sto s b rq).withdraws = s.withdraws := by
  unfold submit_bh; split <;> rfl

@[simp] theorem submit_bh_warnings (sto : Storage) (s : gfs2_sbd) (b : Nat) (rq : io_request) :
    (submit_bh sto s b rq).warnings = s.warnings := by
  unfold submit_bh; split <;> rfl

@[simp] theorem submit_bh_io_errors (sto : Storage) (s : gfs2_sbd) (b : Nat) (rq : io_request) :
    (submit_bh sto s b rq).io_errors = s.io_errors := by
  unfold submit_bh; split <;> rfl

@[simp] theorem submit_bh_trans_log (sto : Storage) (s : gfs2_sbd) (b : Nat) (rq : io_request) :
    (submit_bh sto s b rq).trans_log = s.trans_log := by
  unfold submit_bh; split <;> rfl

@[simp] theorem submit_bh_sd_log_num_buf (sto : Storage) (s : gfs2_sbd) (b : Nat) (rq : io_request) :
    (submit_bh sto s b rq).sd_log_num_buf = s.sd_log_num_buf := by
  unfold submit_bh; split <;> rfl

@[simp] theorem submit_bh_sd_bufdata_count (sto : Storage) (s : gfs2_sbd) (b : Nat) (rq : io_request) :
    (submit_bh sto s b rq).sd_bufdata_count = s.sd_bufdata_count := by
  unfold submit_bh; split <;> rfl

@[simp] theorem submit_bh_tr_num_buf_rm (sto : Storage) (s : gfs2_sbd) (b : Nat) (rq : io_request) :
    (submit_bh sto s b rq).tr_num_buf_rm = s.tr_num_buf_rm := by
  unfold submit_bh; split <;> rfl

@[simp] theorem submit_bh_le_list (sto : Storage) (s : gfs2_sbd) (b : Nat) (rq : io_request) :
    (submit_bh sto s b rq).le_list = s.le_list := by
  unfold submit_bh; split <;> rfl

@[simp] theorem submit_bh_list_tr (sto : Storage) (s : gfs2_sbd) (b : Nat) (rq : io_request) :
    (submit_bh sto s b rq).list_tr = s.list_tr := by
  unfold submit_bh; split <;> rfl

@[simp] theorem submit_bh_stuck_reports (sto : Storage) (s : gfs2_sbd) (b : Nat) (rq : io_request) :
    (submit_bh sto s b rq).stuck_reports = s.stuck_reports := by
  unfold submit_bh; split <;> rfl

@[simp] theorem ll_rw_block_write_SDF_SHUTDOWN (sto : Storage) (s : gfs2_sbd) (b : Nat) :
    (ll_rw_block_write sto s b).SDF_SHUTDOWN = s.SDF_SHUTDOWN := by
  unfold ll_rw_block_write; simp only []; split_ifs <;> simp [clear_buffer_dirty, get_bh, unlock_buffer]

@[simp] theorem ll_rw_block_write_SDF_ROFS (sto : Storage) (s : gfs2_sbd) (b : Nat) :
    (ll_rw_block_write sto s b).SDF_ROFS = s.SDF_ROFS := by
  unfold ll_rw_block_write; simp only []; split_ifs <;> simp [clear_buffer_dirty, get_bh, unlock_buffer]

@[simp] theorem ll_rw_block_write_bd (sto : Storage) (s : gfs2_sbd) (b : Nat) :
    (ll_rw_block_write sto s b).bd = s.bd := by
  unfold ll_rw_block_write; simp only []; split_ifs <;> simp [clear_buffer_dirty, get_bh, unlock_buffer]

@[simp] theorem ll_rw_block_write_gl (sto : Storage) (s : gfs2_sbd) (b : Nat) :
    (ll_rw_block_write sto s b).gl = s.gl := by
  unfold ll_rw_block_write; simp only []; split_ifs <;> simp [clear_buffer_dirty, get_bh, unlock_buffer]

@[simp] theorem ll_rw_block_write_ai (sto : Storage) (s : gfs2_sbd) (b : Nat) :
    (ll_rw_block_write sto s b).ai = s.ai := by
  unfold ll_rw_block_write; simp only []; split_ifs <;> simp [clear_buffer_dirty, get_bh, unlock_buffer]

@[simp] theorem ll_rw_block_write_get_transaction (sto : Storage) (s : gfs2_sbd) (b : Nat) :
    (ll_rw_block_write sto s b).get_transaction = s.get_transaction := by
  unfold ll_rw_block_write; simp only []; split_ifs <;> simp [clear_buffer_dirty, get_bh, unlock_buffer]

@[simp] theorem ll_rw_block_write_withdraws (sto : Storage) (s : gfs2_sbd) (b : Nat) :
    (ll_rw_block_write sto s b).withdraws = s.withdraws := by
  unfold ll_rw_block_write; simp only []; split_ifs <;> simp [clear_buffer_dirty, get_bh, unlock_buffer]

@[simp] theorem ll_rw_block_write_warnings (sto : Storage) (s : gfs2_sbd) (b : Nat) :
    (ll_rw_block_write sto s b).warnings = s.warnings := by
  unfold ll_rw_block_write; simp only []; split_ifs <;> simp [clear_buffer_dirty, get_bh, unlock_buffer]

@[simp] theorem ll_rw_block_write_io_errors (sto : Storage) (s : gfs2_sbd) (b : Nat) :
    (ll_rw_block_write sto s b).io_errors = s.io_errors := by
  unfold ll_rw_block_write; simp only []; split_ifs <;> simp [clear_buffer_dirty, get_bh, unlock_buffer]

@[simp] theorem ll_rw_block_write_trans_log (sto : Storage) (s : gfs2_sbd) (b : Nat) :
    (ll_rw_block_write sto s b).trans_log = s.trans_log := by
  unfold ll_rw_block_write; simp only []; split_ifs <;> simp [clear_buffer_dirty, get_bh, unlock_buffer]

@[simp] theorem ll_rw_block_write_sd_log_num_buf (sto : Storage) (s : gfs2_sbd) (b : Nat) :
    (ll_rw_block_write sto s b).sd_log_num_buf = s.sd_log_num_buf := by
  unfold ll_rw_block_write; simp only []; split_ifs <;> simp [clear_buffer_dirty, get_bh, unlock_buffer]

@[simp] theorem ll_rw_block_write_sd_bufdata_count (sto : Storage) (s : gfs2_sbd) (b : Nat) :
    (ll_rw_block_write sto s b).sd_bufdata_count = s.sd_bufdata_count := by
  unfold ll_rw_block_write; simp only []; split_ifs <;> simp [clear_buffer_dirty, get_bh, unlock_buffer]

@[simp] theorem ll_rw_block_write_tr_num_buf_rm (sto : Storage) (s : gfs2_sbd) (b : Nat) :
    (ll_rw_block_write sto s b).tr_num_buf_rm = s.tr_num_buf_rm := by
  unfold ll_rw_block_write; simp only []; split_ifs <;> simp [clear_buffer_dirty, get_bh, unlock_buffer]

@[simp] theorem ll_rw_block_write_le_list (sto : Storage) (s : gfs2_sbd) (b : Nat) :
    (ll_rw_block_write sto s b).le_list = s.le_list := by
  unfold ll_rw_block_write; simp only []; split_ifs <;> simp [clear_buffer_dirty, get_bh, unlock_buffer]

@[simp] theorem ll_rw_block_write_list_tr (sto : Storage) (s : gfs2_sbd) (b : Nat) :
    (ll_rw_block_write sto s b).list_tr = s.list_tr := by
  unfold ll_rw_block_write; simp only []; split_ifs <;> simp [clear_buffer_dirty, get_bh, unlock_buffer]

@[simp] theorem ll_rw_block_write_stuck_reports (sto : Storage) (s : gfs2_sbd) (b : Nat) :
    (ll_rw_block_write sto s b).stuck_reports = s.stuck_reports := by
  unfold ll_rw_block_write; simp only []; split_ifs <;> simp [clear_buffer_dirty, get_bh, unlock_buffer]

@[simp] theorem ll_rw_block_read_SDF_SHUTDOWN (sto : Storage) (s : gfs2_sbd) (b : Nat) :
    (ll_rw_block_read sto s b).SDF_SHUTDOWN = s.SDF_SHUTDOWN := by
  unfold ll_rw_block_read; simp only []; split_ifs <;> simp [get_bh, unlock_buffer]

@[simp] theorem ll_rw_block_read_SDF_ROFS (sto : Storage) (s : gfs2_sbd) (b : Nat) :
    (ll_rw_block_read sto s b).SDF_ROFS = s.SDF_ROFS := by
  unfold ll_rw_block_read; simp only []; split_ifs <;> simp [get_bh, unlock_buffer]

@[simp] theorem ll_rw_block_read_bd (sto : Storage) (s : gfs2_sbd) (b : Nat) :
    (ll_rw_block_read sto s b).bd = s.bd := by
  unfold ll_rw_block_read; simp only []; split_ifs <;> simp [get_bh, unlock_buffer]

@[simp] theorem ll_rw_block_read_gl (sto : Storage) (s : gfs2_sbd) (b : Nat) :
    (ll_rw_block_read sto s b).gl = s.gl := by
  unfold ll_rw_block_read; simp only []; split_ifs <;> simp [get_bh, unlock_buffer]

@[simp] theorem ll_rw_block_read_ai (sto : Storage) (s : gfs2_sbd) (b : Nat) :
    (ll_rw_block_read sto s b).ai = s.ai := by
  unfold ll_rw_block_read; simp only []; split_ifs <;> simp [get_bh, unlock_buffer]

@[simp] theorem ll_rw_block_read_get_transaction (sto : Storage) (s : gfs2_sbd) (b : Nat) :
    (ll_rw_block_read sto s b).get_transaction = s.get_transaction := by
  unfold ll_rw_block_read; simp only []; split_ifs <;> simp [get_bh, unlock_buffer]

@[simp] theorem ll_rw_block_read_withdraws (sto : Storage) (s : gfs2_sbd) (b : Nat) :
    (ll_rw_block_read sto s b).withdraws = s.withdraws := by
  unfold ll_rw_block_read; simp only []; split_ifs <;> simp [get_bh, unlock_buffer]

@[simp] theorem ll_rw_block_read_warnings (sto : Storage) (s : gfs2_sbd) (b : Nat) :
    (ll_rw_block_read sto s b).warnings = s.warnings := by
  unfold ll_rw_block_read; simp only []; split_ifs <;> simp [get_bh, unlock_buffer]

@[simp] theorem ll_rw_block_read_io_errors (sto : Storage) (s : gfs2_sbd) (b : Nat) :
    (ll_rw_block_read sto s b).io_errors = s.io_errors := by
  unfold ll_rw_block_read; simp only []; split_ifs <;> simp [get_bh, unlock_buffer]

@[simp] theorem ll_rw_block_read_trans_log (sto : Storage) (s : gfs2_sbd) (b : Nat) :
    (ll_rw_block_read sto s b).trans_log = s.trans_log := by
  unfold ll_rw_block_read; simp only []; split_ifs <;> simp [get_bh, unlock_buffer]

@[simp] theorem ll_rw_block_read_sd_log_num_buf (sto : Storage) (s : gfs2_sbd) (b : Nat) :
    (ll_rw_block_read sto s b).sd_log_num_buf = s.sd_log_num_buf := by
  unfold ll_rw_block_read; simp only []; split_ifs <;> simp [get_bh, unlock_buffer]

@[simp] theorem ll_rw_block_read_sd_bufdata_count (sto : Storage) (s : gfs2_sbd) (b : Nat) :
    (ll_rw_block_read sto s b).sd_bufdata_count = s.sd_bufdata_count := by
  unfold ll_rw_block_read; simp only []; split_ifs <;> simp [get_bh, unlock_buffer]

@[simp] theorem ll_rw_block_read_tr_num_buf_rm (sto : Storage) (s : gfs2_sbd) (b : Nat) :
    (ll_rw_block_read sto s b).tr_num_buf_rm = s.tr_num_buf_rm := by
  unfold ll_rw_block_read; simp only []; split_ifs <;> simp [get_bh, unlock_buffer]

@[simp] theorem ll_rw_block_read_le_list (sto : Storage) (s : gfs2_sbd) (b : Nat) :
    (ll_rw_block_read sto s b).le_list = s.le_list := by
  unfold ll_rw_block_read; simp only []; split_ifs <;> simp [get_bh, unlock_buffer]

@[simp] theorem ll_rw_block_read_list_tr (sto : Storage) (s : gfs2_sbd) (b : Nat) :
    (ll_rw_block_read sto s b).list_tr = s.list_tr := by
  unfold ll_rw_block_read; simp only []; split_ifs <;> simp [get_bh, unlock_buffer]

@[simp] theorem ll_rw_block_read_stuck_reports (sto : Storage) (s : gfs2_sbd) (b : Nat) :
    (ll_rw_block_read sto s b).stuck_reports = s.stuck_reports := by
  unfold ll_rw_block_read; simp only []; split_ifs <;> simp [get_bh, unlock_buffer]

@[simp] theorem gfs2_assert_withdraw_SDF_ROFS (s : gfs2_sbd) (c : Bool) :
    (gfs2_assert_withdraw s c).SDF_ROFS = s.SDF_ROFS := by
  unfold gfs2_assert_withdraw; split <;> rfl

@[simp] theorem gfs2_assert_withdraw_bh (s : gfs2_sbd) (c : Bool) :
    (gfs2_assert_withdraw s c).bh = s.bh := by
  unfold gfs2_assert_withdraw; split <;> rfl

@[simp] theorem gfs2_assert_withdraw_bd (s : gfs2_sbd) (c : Bool) :
    (gfs2_assert_withdraw s c).bd = s.bd := by
  unfold gfs2_assert_withdraw; split <;> rfl

@[simp] theorem gfs2_assert_withdraw_gl (s : gfs2_sbd) (c : Bool) :
    (gfs2_assert_withdraw s c).gl = s.gl := by
  unfold gfs2_assert_withdraw; split <;> rfl

@[simp] theorem gfs2_assert_withdraw_ai (s : gfs2_sbd) (c : Bool) :
    (gfs2_assert_withdraw s c).ai = s.ai := by
  unfold gfs2_assert_withdraw; split <;> rfl

@[simp] theorem gfs2_assert_withdraw_get_transaction (s : gfs2_sbd) (c : Bool) :
    (gfs2_assert_withdraw s c).get_transaction = s.get_transaction := by
  unfold gfs2_assert_withdraw; split <;> rfl

@[simp] theorem gfs2_assert_withdraw_warnings (s : gfs2_sbd) (c : Bool) :
    (gfs2_assert_withdraw s c).warnings = s.warnings := by
  unfold gfs2_assert_withdraw; split <;> rfl

@[simp] theorem gfs2_assert_withdraw_io_errors (s : gfs2_sbd) (c : Bool) :
    (gfs2_assert_withdraw s c).io_errors = s.io_errors := by
  unfold gfs2_assert_withdraw; split <;> rfl

@[simp] theorem gfs2_assert_withdraw_io_log (s : gfs2_sbd) (c : Bool) :
    (gfs2_assert_withdraw s c).io_log = s.io_log := by
  unfold gfs2_assert_withdraw; split <;> rfl

@[simp] theorem gfs2_assert_withdraw_trans_log (s : gfs2_sbd) (c : Bool) :
    (gfs2_assert_withdraw s c).trans_log = s.trans_log := by
  unfold gfs2_assert_withdraw; split <;> rfl

@[simp] theorem gfs2_assert_withdraw_sd_log_num_buf (s : gfs2_sbd) (c : Bool) :
    (gfs2_assert_withdraw s c).sd_log_num_buf = s.sd_log_num_buf := by
  unfold gfs2_assert_withdraw; split <;> rfl

@[simp] theorem gfs2_assert_withdraw_sd_bufdata_count (s : gfs2_sbd) (c : Bool) :
    (gfs2_assert_withdraw s c).sd_bufdata_count = s.sd_bufdata_count := by
  unfold gfs2_assert_withdraw; split <;> rfl

@[simp] theorem gfs2_assert_withdraw_tr_num_buf_rm (s : gfs2_sbd) (c : Bool) :
    (gfs2_assert_withdraw s c).tr_num_buf_rm = s.tr_num_buf_rm := by
  unfold gfs2_assert_withdraw; split <;> rfl

@[simp] theorem gfs2_assert_withdraw_le_list (s : gfs2_sbd) (c : Bool) :
    (gfs2_assert_withdraw s c).le_list = s.le_list := by
  unfold gfs2_assert_withdraw; split <;> rfl

@[simp] theorem gfs2_assert_withdraw_list_tr (s : gfs2_sbd) (c : Bool) :
    (gfs2_assert_withdraw s c).list_tr = s.list_tr := by
  unfold gfs2_assert_withdraw; split <;> rfl

@[simp] theorem gfs2_assert_withdraw_stuck_reports (s : gfs2_sbd) (c : Bool) :
    (gfs2_assert_withdraw s c).stuck_reports = s.stuck_reports := by
  unfold gfs2_assert_withdraw; split <;> rfl

@[simp] theorem gfs2_assert_warn_SDF_SHUTDOWN (s : gfs2_sbd) (c : Bool) :
    (gfs2_assert_warn s c).SDF_SHUTDOWN = s.SDF_SHUTDOWN := by
  unfold gfs2_assert_warn; split <;> rfl

@[simp] theorem gfs2_assert_warn_SDF_ROFS (s : gfs2_sbd) (c : Bool) :
    (gfs2_assert_warn s c).SDF_ROFS = s.SDF_ROFS := by
  unfold gfs2_assert_warn; split <;> rfl

@[simp] theorem gfs2_assert_warn_bh (s : gfs2_sbd) (c : Bool) :
    (gfs2_assert_warn s c).bh = s.bh := by
  unfold gfs2_assert_warn; split <;> rfl

@[simp] theorem gfs2_assert_warn_bd (s : gfs2_sbd) (c : Bool) :
    (gfs2_assert_warn s c).bd = s.bd := by
  unfold gfs2_assert_warn; split <;> rfl

@[simp] theorem gfs2_assert_warn_gl (s : gfs2_sbd) (c : Bool) :
    (gfs2_assert_warn s c).gl = s.gl := by
  unfold gfs2_assert_warn; split <;> rfl

@[simp] theorem gfs2_assert_warn_ai (s : gfs2_sbd) (c : Bool) :
    (gfs2_assert_warn s c).ai = s.ai := by
  unfold gfs2_assert_warn; split <;> rfl

@[simp] theorem gfs2_assert_warn_get_transaction (s : gfs2_sbd) (c : Bool) :
    (gfs2_assert_warn s c).get_transaction = s.get_transaction := by
  unfold gfs2_assert_warn; split <;> rfl

@[simp] theorem gfs2_assert_warn_withdraws (s : gfs2_sbd) (c : Bool) :
    (gfs2_assert_warn s c).withdraws = s.withdraws := by
  unfold gfs2_assert_warn; split <;> rfl

@[simp] theorem gfs2_assert_warn_io_errors (s : gfs2_sbd) (c : Bool) :
    (gfs2_assert_warn s c).io_errors = s.io_errors := by
  unfold gfs2_assert_warn; split <;> rfl

@[simp] theorem gfs2_assert_warn_io_log (s : gfs2_sbd) (c : Bool) :
    (gfs2_assert_warn s c).io_log = s.io_log := by
  unfold gfs2_assert_warn; split <;> rfl

@[simp] theorem gfs2_assert_warn_trans_log (s : gfs2_sbd) (c : Bool) :
    (gfs2_assert_warn s c).trans_log = s.trans_log := by
  unfold gfs2_assert_warn; split <;> rfl

@[simp] theorem gfs2_assert_warn_sd_log_num_buf (s : gfs2_sbd) (c : Bool) :
    (gfs2_assert_warn s c).sd_log_num_buf = s.sd_log_num_buf := by
  unfold gfs2_assert_warn; split <;> rfl

@[simp] theorem gfs2_assert_warn_sd_bufdata_count (s : gfs2_sbd) (c : Bool) :
    (gfs2_assert_warn s c).sd_bufdata_count = s.sd_bufdata_count := by
  unfold gfs2_assert_warn; split <;> rfl

@[simp] theorem gfs2_assert_warn_tr_num_buf_rm (s : gfs2_sbd) (c : Bool) :
    (gfs2_assert_warn s c).tr_num_buf_rm = s.tr_num_buf_rm := by
  unfold gfs2_assert_warn; split <;> rfl

@[simp] theorem gfs2_assert_warn_le_list (s : gfs2_sbd) (c : Bool) :
    (gfs2_assert_warn s c).le_list = s.le_list := by
  unfold gfs2_assert_warn; split <;> rfl

@[simp] theorem gfs2_assert_warn_list_tr (s : gfs2_sbd) (c : Bool) :
    (gfs2_assert_warn s c).list_tr = s.list_tr := by
  unfold gfs2_assert_warn; split <;> rfl

@[simp] theorem gfs2_assert_warn_stuck_reports (s : gfs2_sbd) (c : Bool) :
    (gfs2_assert_warn s c).stuck_reports = s.stuck_reports := by
  unfold gfs2_assert_warn; split <;> rfl

@[simp] theorem gfs2_trans_begin_SDF_SHUTDOWN (s : gfs2_sbd) (error : Int) (blocks : Nat) :
    (gfs2_trans_begin s error blocks).SDF_SHUTDOWN = s.SDF_SHUTDOWN := by
  unfold gfs2_trans_begin; split <;> rfl

@[simp] theorem gfs2_trans_begin_SDF_ROFS (s : gfs2_sbd) (error : Int) (blocks : Nat) :
    (gfs2_trans_begin s error blocks).SDF_ROFS = s.SDF_ROFS := by
  unfold gfs2_trans_begin; split <;> rfl

@[simp] theorem gfs2_trans_begin_bh (s : gfs2_sbd) (error : Int) (blocks : Nat) :
    (gfs2_trans_begin s error blocks).bh = s.bh := by
  unfold gfs2_trans_begin; split <;> rfl

@[simp] theorem gfs2_trans_begin_bd (s : gfs2_sbd) (error : Int) (blocks : Nat) :
    (gfs2_trans_begin s error blocks).bd = s.bd := by
  unfold gfs2_trans_begin; split <;> rfl

@[simp] theorem gfs2_trans_begin_gl (s : gfs2_sbd) (error : Int) (blocks : Nat) :
    (gfs2_trans_begin s error blocks).gl = s.gl := by
  unfold gfs2_trans_begin; split <;> rfl

@[simp] theorem gfs2_trans_begin_ai (s : gfs2_sbd) (error : Int) (blocks : Nat) :
    (gfs2_trans_begin s error blocks).ai = s.ai := by
  unfold gfs2_trans_begin; split <;> rfl

@[simp] theorem gfs2_trans_begin_get_transaction (s : gfs2_sbd) (error : Int) (blocks : Nat) :
    (gfs2_trans_begin s error blocks).get_transaction = s.get_transaction := by
  unfold gfs2_trans_begin; split <;> rfl

@[simp] theorem gfs2_trans_begin_withdraws (s : gfs2_sbd) (error : Int) (blocks : Nat) :
    (gfs2_trans_begin s error blocks).withdraws = s.withdraws := by
  unfold gfs2_trans_begin; split <;> rfl

@[simp] theorem gfs2_trans_begin_warnings (s : gfs2_sbd) (error : Int) (blocks : Nat) :
    (gfs2_trans_begin s error blocks).warnings = s.warnings := by
  unfold gfs2_trans_begin; split <;> rfl

@[simp] theorem gfs2_trans_begin_io_errors (s : gfs2_sbd) (error : Int) (blocks : Nat) :
    (gfs2_trans_begin s error blocks).io_errors = s.io_errors := by
  unfold gfs2_trans_begin; split <;> rfl

@[simp] theorem gfs2_trans_begin_io_log (s : gfs2_sbd) (error : Int) (blocks : Nat) :
    (gfs2_trans_begin s error blocks).io_log = s.io_log := by
  unfold gfs2_trans_begin; split <;> rfl

@[simp] theorem gfs2_trans_begin_sd_log_num_buf (s : gfs2_sbd) (error : Int) (blocks : Nat) :
    (gfs2_trans_begin s error blocks).sd_log_num_buf = s.sd_log_num_buf := by
  unfold gfs2_trans_begin; split <;> rfl

@[simp] theorem gfs2_trans_begin_sd_bufdata_count (s : gfs2_sbd) (error : Int) (blocks : Nat) :
    (gfs2_trans_begin s error blocks).sd_bufdata_count = s.sd_bufdata_count := by
  unfold gfs2_trans_begin; split <;> rfl

@[simp] theorem gfs2_trans_begin_tr_num_buf_rm (s : gfs2_sbd) (error : Int) (blocks : Nat) :
    (gfs2_trans_begin s error blocks).tr_num_buf_rm = s.tr_num_buf_rm := by
  unfold gfs2_trans_begin; split <;> rfl

@[simp] theorem gfs2_trans_begin_le_list (s : gfs2_sbd) (error : Int) (blocks : Nat) :
    (gfs2_trans_begin s error blocks).le_list = s.le_list := by
  unfold gfs2_trans_begin; split <;> rfl

@[simp] theorem gfs2_trans_begin_list_tr (s : gfs2_sbd) (error : Int) (blocks : Nat) :
    (gfs2_trans_begin s error blocks).list_tr = s.list_tr := by
  unfold gfs2_trans_begin; split <;> rfl

@[simp] theorem gfs2_trans_begin_stuck_reports (s : gfs2_sbd) (error : Int) (blocks : Nat) :
    (gfs2_trans_begin s error blocks).stuck_reports = s.stuck_reports := by
  unfold gfs2_trans_begin; split <;> rfl

/-! ## Effect lemmas: the fields an operation writes -/

attribute [simp] get_bh put_bh unlock_buffer clear_buffer_dirty mark_buffer_dirty
  set_buffer_uptodate clear_buffer_uptodate clear_buffer_pinned set_buffer_pinned
  lock_buffer list_add_ail1 list_add_ail2 list_add_gl list_move_ail1 list_move_ail2
  ail_count_inc ail_count_dec gfs2_prep_new_buffer

@[simp] theorem set_bh_bh (s : gfs2_sbd) (b : Nat) (h : buffer_head) (i : Nat) :
    (set_bh s b h).bh i = if i = b then h else s.bh i := rfl

@[simp] theorem set_bd_bd (s : gfs2_sbd) (b : Nat) (d : gfs2_bufdata) (i : Nat) :
    (set_bd s b d).bd i = if i = b then some d else s.bd i := rfl

@[simp] theorem set_gl_gl (s : gfs2_sbd) (g : Nat) (x : gfs2_glock) (i : Nat) :
    (set_gl s g x).gl i = if i = g then x else s.gl i := rfl

@[simp] theorem set_ai_ai (s : gfs2_sbd) (a : Nat) (x : gfs2_ail) (i : Nat) :
    (set_ai s a x).ai i = if i = a then x else s.ai i := rfl

@[simp] theorem gfs2_lm_withdraw_SDF_SHUTDOWN (s : gfs2_sbd) :
    (gfs2_lm_withdraw s).SDF_SHUTDOWN = true := rfl

@[simp] theorem gfs2_lm_withdraw_withdraws (s : gfs2_sbd) :
    (gfs2_lm_withdraw s).withdraws = s.withdraws + 1 := rfl

@[simp] theorem gfs2_io_error_bh_SDF_SHUTDOWN (s : gfs2_sbd) (b : Nat) :
    (gfs2_io_error_bh s b).SDF_SHUTDOWN = true := rfl

@[simp] theorem gfs2_io_error_bh_io_errors (s : gfs2_sbd) (b : Nat) :
    (gfs2_io_error_bh s b).io_errors = s.io_errors ++ [(s.bh b).b_blocknr] := rfl

@[simp] theorem log_call_trans_log (s : gfs2_sbd) (e : log_event) :
    (log_call s e).trans_log = s.trans_log ++ [e] := rfl

@[simp] theorem list_del_st_ai (s : gfs2_sbd) (b a : Nat) :
    (list_del_st s b).ai a =
      { ai_ail1_list := (s.ai a).ai_ail1_list.filter (fun x => x ≠ b),
        ai_ail2_list := (s.ai a).ai_ail2_list.filter (fun x => x ≠ b) } := rfl

@[simp] theorem list_del_gl_gl (s : gfs2_sbd) (b g : Nat) :
    (list_del_gl s b).gl g =
      { s.gl g with gl_ail_list := (s.gl g).gl_ail_list.filter (fun x => x ≠ b) } := rfl

@[simp] theorem brelse_bh (s : gfs2_sbd) (b i : Nat) :
    (brelse s b).bh i =
      if i = b ∧ (s.bh b).b_count ≠ 0 then
        { s.bh b with b_count := (s.bh b).b_count - 1 }
      else s.bh i := by
  unfold brelse
  by_cases hc : (s.bh b).b_count = 0 <;> by_cases hi : i = b <;> simp [hc, hi]

theorem brelse_eq_put_bh (s : gfs2_sbd) (b : Nat) (h : (s.bh b).b_count ≠ 0) :
    brelse s b = put_bh s b := by
  unfold brelse
  simp [h]

@[simp] theorem end_buffer_io_bh (s : gfs2_sbd) (b : Nat) (ok : Bool) (i : Nat) :
    (end_buffer_io s b ok).bh i =
      if i = b then
        { s.bh b with BH_Lock := false, BH_Uptodate := ok,
                      b_count := (s.bh b).b_count - 1 }
      else s.bh i := rfl

@[simp] theorem wait_on_buffer_bh (sto : Storage) (s : gfs2_sbd) (b i : Nat) :
    (wait_on_buffer sto s b).bh i =
      if i = b then
        { s.bh b with
          BH_Lock := false,
          BH_Uptodate := if (s.bh b).BH_Lock then sto.finish s.io_log.length b
            else (s.bh b).BH_Uptodate,
          b_count := (s.bh b).b_count - (if (s.bh b).BH_Lock then 1 else 0) }
      else s.bh i := by
  unfold wait_on_buffer
  cases h : (s.bh b).BH_Lock
  · by_cases hi : i = b
    · subst hi
      cases hb : s.bh i
      simp [hb] at h
      simp [hb, h]
    · simp [hi]
  · simp

@[simp] theorem gfs2_assert_withdraw_SDF_SHUTDOWN (s : gfs2_sbd) (c : Bool) :
    (gfs2_assert_withdraw s c).SDF_SHUTDOWN = (s.SDF_SHUTDOWN || !c) := by
  unfold gfs2_assert_withdraw; cases c <;> simp

@[simp] theorem gfs2_assert_withdraw_withdraws (s : gfs2_sbd) (c : Bool) :
    (gfs2_assert_withdraw s c).withdraws = s.withdraws + (if c then 0 else 1) := by
  unfold gfs2_assert_withdraw; cases c <;> simp

@[simp] theorem gfs2_assert_warn_warnings (s : gfs2_sbd) (c : Bool) :
    (gfs2_assert_warn s c).warnings = s.warnings + (if c then 0 else 1) := by
  unfold gfs2_assert_warn; cases c <;> simp

@[simp] theorem gfs2_trans_begin_trans_log (s : gfs2_sbd) (error : Int) (blocks : Nat) :
    (gfs2_trans_begin s error blocks).trans_log =
      s.trans_log ++ (if error = 0 then [log_event.trans_begin 0 blocks] else []) := by
  unfold gfs2_trans_begin; split <;> simp

@[simp] theorem submit_bh_bh (sto : Storage) (s : gfs2_sbd) (b : Nat) (rq : io_request)
    (i : Nat) :
    (submit_bh sto s b rq).bh i =
      if i = b then
        match sto.submit s.io_log.length b with
        | .inflight => s.bh b
        | .done ok => { s.bh b with BH_Lock := false, BH_Uptodate := ok,
                                    b_count := (s.bh b).b_count - 1 }
      else s.bh i := by
  unfold submit_bh
  cases sto.submit s.io_log.length b <;> by_cases hi : i = b <;> simp [hi]

@[simp] theorem submit_bh_io_log (sto : Storage) (s : gfs2_sbd) (b : Nat) (rq : io_request) :
    (submit_bh sto s b rq).io_log = s.io_log ++ [rq] := by
  unfold submit_bh
  split <;> rfl

@[simp] theorem ll_rw_block_write_bh (sto : Storage) (s : gfs2_sbd) (b i : Nat) :
    (ll_rw_block_write sto s b).bh i =
      if i = b ∧ (s.bh b).BH_Lock = false ∧ (s.bh b).BH_Dirty = true then
        submitted (sto.submit s.io_log.length b) { s.bh b with BH_Dirty := false }
      else s.bh i := by
  unfold ll_rw_block_write submitted
  cases hb : s.bh b with
  | mk bn u d l p c m k mp =>
    cases hr : sto.submit s.io_log.length b <;> by_cases hi : i = b <;> cases l <;>
      cases d <;> simp [hi, hb, hr, submit_bh, end_buffer_io, set_bh]

@[simp] theorem ll_rw_block_write_io_log (sto : Storage) (s : gfs2_sbd) (b : Nat) :
    (ll_rw_block_write sto s b).io_log =
      s.io_log ++ (if (s.bh b).BH_Lock = false ∧ (s.bh b).BH_Dirty = true
        then [io_request.write b] else []) := by
  unfold ll_rw_block_write
  cases (s.bh b).BH_Lock <;> cases (s.bh b).BH_Dirty <;> simp

@[simp] theorem ll_rw_block_read_bh (sto : Storage) (s : gfs2_sbd) (b i : Nat) :
    (ll_rw_block_read sto s b).bh i =
      if i = b ∧ (s.bh b).BH_Lock = false ∧ (s.bh b).BH_Uptodate = false then
        submitted (sto.submit s.io_log.length b) (s.bh b)
      else s.bh i := by
  unfold ll_rw_block_read submitted
  cases hb : s.bh b with
  | mk bn u d l p c m k mp =>
    cases hr : sto.submit s.io_log.length b <;> by_cases hi : i = b <;> cases l <;>
      cases u <;> simp [hi, hb, hr, submit_bh, end_buffer_io, set_bh]

@[simp] theorem ll_rw_block_read_io_log (sto : Storage) (s : gfs2_sbd) (b : Nat) :
    (ll_rw_block_read sto s b).io_log =
      s.io_log ++ (if (s.bh b).BH_Lock = false ∧ (s.bh b).BH_Uptodate = false
        then [io_request.read b] else []) := by
  unfold ll_rw_block_read
  cases (s.bh b).BH_Lock <;> cases (s.bh b).BH_Uptodate <;> simp
/-! ## Lemmas on promotion -/

theorem promote_one_bh (a : Nat) (s : gfs2_sbd) (x : Nat) : (promote_one a s x).bh = s.bh := by
  unfold promote_one list_move_ail2 list_add_ail2 list_del_st set_ai gfs2_io_error_bh
  split <;> rfl

theorem promote_one_bd (a : Nat) (s : gfs2_sbd) (x : Nat) : (promote_one a s x).bd = s.bd := by
  unfold promote_one list_move_ail2 list_add_ail2 list_del_st set_ai gfs2_io_error_bh
  split <;> rfl

theorem promote_one_gl (a : Nat) (s : gfs2_sbd) (x : Nat) : (promote_one a s x).gl = s.gl := by
  unfold promote_one list_move_ail2 list_add_ail2 list_del_st set_ai gfs2_io_error_bh
  split <;> rfl

theorem promote_one_ai (a : Nat) (s : gfs2_sbd) (x a' : Nat) :
    (promote_one a s x).ai a' =
      { ai_ail1_list := (s.ai a').ai_ail1_list.filter (fun y => y ≠ x),
        ai_ail2_list := if a' = a then x :: (s.ai a').ai_ail2_list.filter (fun y => y ≠ x)
          else (s.ai a').ai_ail2_list.filter (fun y => y ≠ x) } := by
  unfold promote_one list_move_ail2 list_add_ail2 list_del_st set_ai gfs2_io_error_bh
  by_cases h : a' = a <;> split <;> simp [h]

theorem promote_bh (a : Nat) (xs : List Nat) (s : gfs2_sbd) : (promote a xs s).bh = s.bh := by
  induction xs generalizing s with
  | nil => rfl
  | cons x xs ih => simp [promote, ih, promote_one_bh]

theorem promote_bd (a : Nat) (xs : List Nat) (s : gfs2_sbd) : (promote a xs s).bd = s.bd := by
  induction xs generalizing s with
  | nil => rfl
  | cons x xs ih => simp [promote, ih, promote_one_bd]

theorem promote_gl (a : Nat) (xs : List Nat) (s : gfs2_sbd) : (promote a xs s).gl = s.gl := by
  induction xs generalizing s with
  | nil => rfl
  | cons x xs ih => simp [promote, ih, promote_one_gl]

theorem promote_ail1 (a : Nat) (xs : List Nat) (s : gfs2_sbd) (a' : Nat) :
    ((promote a xs s).ai a').ai_ail1_list = (s.ai a').ai_ail1_list.filter (fun y => y ∉ xs) := by
  induction xs generalizing s with
  | nil => simp [promote]
  | cons x xs ih =>
    simp only [promote, ih, promote_one_ai, List.filter_filter]
    apply List.filter_congr
    intro y _
    simp [Bool.and_comm]

theorem promote_ail2 (a : Nat) (xs : List Nat) (s : gfs2_sbd) (hnd : xs.Nodup) :
    ((promote a xs s).ai a).ai_ail2_list =
      xs.reverse ++ (s.ai a).ai_ail2_list.filter (fun y => y ∉ xs) := by
  induction xs generalizing s with
  | nil => simp [promote]
  | cons x xs ih =>
    have hx : x ∉ xs := (List.nodup_cons.mp hnd).1
    simp only [promote, ih (promote_one a s x) (List.nodup_cons.mp hnd).2, promote_one_ai,
      if_true, List.filter_cons, List.reverse_cons, List.append_assoc, List.filter_filter]
    simp only [hx, not_false_eq_true, decide_True, if_true, List.singleton_append]
    congr 2
    apply List.filter_congr
    intro y _
    simp [Bool.and_comm]

theorem promote_ail2_other (a : Nat) (xs : List Nat) (s : gfs2_sbd) (a' : Nat) (h : a' ≠ a) :
    ((promote a xs s).ai a').ai_ail2_list = (s.ai a').ai_ail2_list.filter (fun y => y ∉ xs) := by
  induction xs generalizing s with
  | nil => simp [promote]
  | cons x xs ih =>
    simp only [promote, ih, promote_one_ai, h, if_false, List.filter_filter]
    apply List.filter_congr
    intro y _
    simp [Bool.and_comm]

/-- A run of buffers that are not busy and belong to `a` is promoted by the scan of
`gfs2_ail1_empty_one`. -/
theorem ail1_empty_scan_promote (a : Nat) (flags : dio_flags) (xs rest : List Nat)
    (s : gfs2_sbd)
    (hwf : ∀ x ∈ xs, ∃ d, s.bd x = some d ∧ d.bd_ail = some a)
    (hfree : ∀ x ∈ xs, buffer_busy (s.bh x) = false) :
    ail1_empty_scan a flags (xs ++ rest) s = ail1_empty_scan a flags rest (promote a xs s) := by
  induction xs generalizing s with
  | nil => rfl
  | cons x xs ih =>
    obtain ⟨d, hd, hda⟩ := hwf x (List.mem_cons_self _ _)
    have hfx := hfree x (List.mem_cons_self _ _)
    have step : ail1_empty_scan a flags (x :: (xs ++ rest)) s =
        ail1_empty_scan a flags (xs ++ rest) (promote_one a s x) := by
      simp [ail1_empty_scan, hd, hda, hfx, promote_one]
    rw [List.cons_append, step, promote]
    apply ih
    · intro y hy
      rw [promote_one_bd]
      exact hwf y (List.mem_cons_of_mem _ hy)
    · intro y hy
      rw [promote_one_bh]
      exact hfree y (List.mem_cons_of_mem _ hy)

theorem ail_of_eq_some {sdp : gfs2_sbd} {b a : Nat} (h : ail_of sdp b = some a) :
    ∃ d, sdp.bd b = some d ∧ d.bd_ail = some a := by
  unfold ail_of at h
  cases hb : sdp.bd b with
  | none => simp [hb] at h
  | some d => exact ⟨d, rfl, by simpa [hb] using h⟩

theorem exists_oldest (p : Nat → Bool) (L : List Nat) (h : ∃ b ∈ L, p b = true) :
    ∃ newer bz older, L = newer ++ bz :: older ∧ p bz = true ∧ ∀ x ∈ older, p x = false := by
  induction L with
  | nil => simp at h
  | cons x xs ih =>
    by_cases hxs : ∃ b ∈ xs, p b = true
    · obtain ⟨newer, bz, older, hL, hbz, hold⟩ := ih hxs
      exact ⟨x :: newer, bz, older, by simp [hL], hbz, hold⟩
    · have hx : p x = true := by
        obtain ⟨b, hb, hpb⟩ := h
        rcases List.mem_cons.mp hb with rfl | hb'
        · exact hpb
        · exact absurd ⟨b, hb', hpb⟩ hxs
      refine ⟨[], x, xs, rfl, hx, ?_⟩
      intro y hy
      by_contra hc
      exact hxs ⟨y, hy, by simpa using hc⟩

theorem filter_not_mem_split (newer older : List Nat) (bz : Nat)
    (hnd : (newer ++ bz :: older).Nodup) :
    (newer ++ bz :: older).filter (fun y => y ∉ older.reverse) = newer ++ [bz] := by
  have h1 : ∀ y ∈ newer, y ∉ older := by
    intro y hy hyo
    exact (List.nodup_append.mp hnd).2.2 hy (List.mem_cons_of_mem _ hyo)
  have h2 : bz ∉ older := (List.nodup_cons.mp (List.nodup_append.mp hnd).2.1).1
  rw [List.filter_append, List.filter_cons]
  have e1 : newer.filter (fun y => !decide (y ∈ older)) = newer := by
    apply List.filter_eq_self.mpr
    intro y hy
    simpa using h1 y hy
  have e2 : older.filter (fun y => !decide (y ∈ older)) = [] := by
    apply List.filter_eq_nil_iff.mpr
    intro y hy
    simpa using hy
  simp [e1, e2, h2]

theorem ite_assert_withdraw (c : Bool) (s : gfs2_sbd) :
    (if c = true then gfs2_assert_withdraw s false else s) = gfs2_assert_withdraw s (!c) := by
  cases c <;> rfl

theorem ite_io_error_bh (c : Prop) [Decidable c] (s : gfs2_sbd) (b : Nat) :
    (if c then gfs2_io_error_bh s b else s).bh = s.bh ∧
    (if c then gfs2_io_error_bh s b else s).bd = s.bd ∧
    (if c then gfs2_io_error_bh s b else s).gl = s.gl ∧
    (if c then gfs2_io_error_bh s b else s).ai = s.ai := by
  by_cases h : c <;> simp [h]


/-! ## The list discipline is kept by every list operation -/

theorem filter_ne_of_not_mem (l : List Nat) (b : Nat) (h : b ∉ l) :
    l.filter (fun x => x ≠ b) = l := by
  apply List.filter_eq_self.mpr
  intro x hx
  have : x ≠ b := fun e => h (e ▸ hx)
  simpa using this

theorem length_filter_ne_of_mem (l : List Nat) (b : Nat) (hnd : l.Nodup) (h : b ∈ l) :
    ((l.filter (fun x => x ≠ b)).length : Int) = (l.length : Int) - 1 := by
  have e : l.filter (fun x => x ≠ b) = l.erase b := by
    rw [List.Nodup.erase_eq_filter hnd]
    apply List.filter_congr
    intro x _
    by_cases hx : x = b <;> simp [hx]
  rw [e, List.length_erase_of_mem h]
  have : 0 < l.length := List.length_pos_of_mem h
  omega

theorem mem_filter_ne (l : List Nat) (b x : Nat) :
    x ∈ l.filter (fun y => y ≠ b) ↔ x ∈ l ∧ x ≠ b := by
  simp [List.mem_filter]

theorem nodup_filter_append (l1 l2 : List Nat) (b : Nat) (h : (l1 ++ l2).Nodup) :
    (l1.filter (fun x => x ≠ b) ++ l2.filter (fun x => x ≠ b)).Nodup := by
  rw [← List.filter_append]
  exact h.filter _

theorem ail_inv_congr {s s' : gfs2_sbd} (h : ail_inv s)
    (hail : ∀ x, ail_of s' x = ail_of s x) (hgo : ∀ x, gl_of s' x = gl_of s x)
    (hgl : s'.gl = s.gl) (hai : s'.ai = s.ai) : ail_inv s' where
  st_nodup := by intro a; rw [hai]; exact h.st_nodup a
  st_mem := by intro a b; rw [hai, hail]; exact h.st_mem a b
  gl_nodup := by intro g; rw [hgl]; exact h.gl_nodup g
  gl_mem := by intro g b; rw [hgl, hail, hgo]; exact h.gl_mem g b
  gl_count := by intro g; rw [hgl]; exact h.gl_count g

/-- Moving a bufdata of entry `a` to the head of a list of `a`. -/
theorem ail_inv_move {s s' : gfs2_sbd} (h : ail_inv s) (b a : Nat) (to2 : Bool)
    (hb : ail_of s b = some a)
    (hail : ∀ x, ail_of s' x = ail_of s x) (hgo : ∀ x, gl_of s' x = gl_of s x)
    (hgl : s'.gl = s.gl)
    (hai : ∀ a', s'.ai a' =
      { ai_ail1_list := if a' = a ∧ to2 = false
          then b :: (s.ai a').ai_ail1_list.filter (fun x => x ≠ b)
          else (s.ai a').ai_ail1_list.filter (fun x => x ≠ b),
        ai_ail2_list := if a' = a ∧ to2 = true
          then b :: (s.ai a').ai_ail2_list.filter (fun x => x ≠ b)
          else (s.ai a').ai_ail2_list.filter (fun x => x ≠ b) }) : ail_inv s' where
  st_nodup := by
    intro a'
    rw [hai]
    have hf := nodup_filter_append _ _ b (h.st_nodup a')
    by_cases ha : a' = a
    · cases to2
      · simp only [ha, and_self, if_true, and_false, Bool.false_eq_true, if_false]
        rw [ha] at hf
        rw [List.cons_append]
        apply List.nodup_cons.mpr
        refine ⟨?_, hf⟩
        simp [List.mem_filter]
      · simp only [ha, and_self, if_true, and_false, Bool.true_eq_false, if_false]
        rw [ha] at hf
        apply List.nodup_middle.mpr
        apply List.nodup_cons.mpr
        refine ⟨?_, hf⟩
        simp [List.mem_filter]
    · simp only [ha, false_and, if_false]
      exact hf
  st_mem := by
    intro a' x
    rw [hai, hail]
    have hm := h.st_mem a' x
    by_cases hx : x = b
    · subst hx
      rw [hb]
      by_cases ha : a' = a
      · subst ha
        cases to2 <;> simp [List.mem_filter]
      · have : ¬ a = a' := fun e => ha e.symm
        simp [List.mem_filter, ha, this]
    · rw [← hm]
      by_cases ha : a' = a <;> cases to2 <;> simp [List.mem_filter, hx, ha]
  gl_nodup := by intro g; rw [hgl]; exact h.gl_nodup g
  gl_mem := by intro g x; rw [hgl, hail, hgo]; exact h.gl_mem g x
  gl_count := by intro g; rw [hgl]; exact h.gl_count g

/-- Taking a bufdata with AIL membership off every list. -/
theorem ail_inv_detach {s s' : gfs2_sbd} (h : ail_inv s) (b g0 : Nat)
    (hb : ail_of s b ≠ none) (hg : gl_of s b = some g0)
    (hail : ∀ x, ail_of s' x = if x = b then none else ail_of s x)
    (hgo : ∀ x, gl_of s' x = gl_of s x)
    (hgl : ∀ g, (s'.gl g).gl_ail_list = (s.gl g).gl_ail_list.filter (fun x => x ≠ b) ∧
      (s'.gl g).gl_ail_count = (s.gl g).gl_ail_count - (if g = g0 then 1 else 0))
    (hai : ∀ a, (s'.ai a).ai_ail1_list = (s.ai a).ai_ail1_list.filter (fun x => x ≠ b) ∧
      (s'.ai a).ai_ail2_list = (s.ai a).ai_ail2_list.filter (fun x => x ≠ b)) :
    ail_inv s' where
  st_nodup := by
    intro a
    rw [(hai a).1, (hai a).2]
    exact nodup_filter_append _ _ b (h.st_nodup a)
  st_mem := by
    intro a x
    rw [(hai a).1, (hai a).2, hail, mem_filter_ne, mem_filter_ne]
    have hm := h.st_mem a x
    by_cases hx : x = b
    · simp [hx]
    · simp only [hx, if_false, ne_eq, not_false_eq_true, and_true]
      exact hm
  gl_nodup := by
    intro g
    rw [(hgl g).1]
    exact (h.gl_nodup g).filter _
  gl_mem := by
    intro g x
    rw [(hgl g).1, hail, hgo, mem_filter_ne]
    have hm := h.gl_mem g x
    by_cases hx : x = b
    · simp [hx]
    · simp only [hx, if_false, ne_eq, not_false_eq_true, and_true]
      exact hm
  gl_count := by
    intro g
    rw [(hgl g).1, (hgl g).2, h.gl_count g]
    by_cases e : g = g0
    · have hin : b ∈ (s.gl g).gl_ail_list := (h.gl_mem g b).mpr ⟨by rw [hg, e], hb⟩
      rw [length_filter_ne_of_mem _ _ (h.gl_nodup g) hin]
      simp [e]
    · have hnin : b ∉ (s.gl g).gl_ail_list := by
        intro hin
        have := ((h.gl_mem g b).mp hin).1
        rw [hg] at this
        exact e (Option.some.inj this).symm
      rw [filter_ne_of_not_mem _ _ hnin]
      simp [e]

/-- Putting a bufdata without AIL membership on the pending list of entry `a` and on
the list of its glock. -/
theorem ail_inv_attach {s s' : gfs2_sbd} (h : ail_inv s) (b a g0 : Nat)
    (hb : ail_of s b = none) (hg : gl_of s b = some g0)
    (hail : ∀ x, ail_of s' x = if x = b then some a else ail_of s x)
    (hgo : ∀ x, gl_of s' x = gl_of s x)
    (hgl : ∀ g, (s'.gl g).gl_ail_list =
        (if g = g0 then b :: (s.gl g).gl_ail_list else (s.gl g).gl_ail_list) ∧
      (s'.gl g).gl_ail_count = (s.gl g).gl_ail_count + (if g = g0 then 1 else 0))
    (hai : ∀ a', (s'.ai a').ai_ail1_list =
        (if a' = a then b :: (s.ai a').ai_ail1_list else (s.ai a').ai_ail1_list) ∧
      (s'.ai a').ai_ail2_list = (s.ai a').ai_ail2_list) :
    ail_inv s' where
  st_nodup := by
    intro a'
    rw [(hai a').1, (hai a').2]
    by_cases e : a' = a
    · simp only [e, if_true, List.cons_append]
      apply List.nodup_cons.mpr
      refine ⟨?_, h.st_nodup a⟩
      intro hin
      have := (h.st_mem a b).mp (List.mem_append.mp hin)
      rw [hb] at this
      cases this
    · simp only [e, if_false]
      exact h.st_nodup a'
  st_mem := by
    intro a' x
    rw [(hai a').1, (hai a').2, hail]
    have hm := h.st_mem a' x
    by_cases hx : x = b
    · subst hx
      rw [hb] at hm
      by_cases e : a' = a
      · simp [e]
      · have e2 : ¬ a = a' := fun k => e k.symm
        simp only [e, if_false, if_true, Option.some.injEq, e2, iff_false]
        intro k
        cases hm.mp k
    · by_cases e : a' = a
      · simp only [e, if_true, List.mem_cons, hx, false_or, if_false]
        rw [e] at hm
        exact hm
      · simp only [e, if_false, hx]
        exact hm
  gl_nodup := by
    intro g
    rw [(hgl g).1]
    by_cases e : g = g0
    · simp only [e, if_true]
      apply List.nodup_cons.mpr
      refine ⟨?_, h.gl_nodup g0⟩
      intro hin
      exact ((h.gl_mem g0 b).mp hin).2 hb
    · simp only [e, if_false]
      exact h.gl_nodup g
  gl_mem := by
    intro g x
    rw [(hgl g).1, hail, hgo]
    have hm := h.gl_mem g x
    by_cases hx : x = b
    · subst hx
      by_cases e : g = g0
      · simp [e, hg]
      · have e2 : ¬ g0 = g := fun k => e k.symm
        simp only [e, if_false, if_true, hg, Option.some.injEq, e2, false_and, iff_false]
        intro k
        exact (hm.mp k).2 hb
    · by_cases e : g = g0
      · simp only [e, if_true, List.mem_cons, hx, false_or, if_false]
        rw [e] at hm
        exact hm
      · simp only [e, if_false, hx]
        exact hm
  gl_count := by
    intro g
    rw [(hgl g).1, (hgl g).2, h.gl_count g]
    by_cases e : g = g0 <;> simp [e]

/-- Moving a bufdata with AIL membership to the pending list of entry `a`. -/
theorem ail_inv_transfer {s s' : gfs2_sbd} (h : ail_inv s) (b a : Nat)
    (hb : ail_of s b ≠ none)
    (hail : ∀ x, ail_of s' x = if x = b then some a else ail_of s x)
    (hgo : ∀ x, gl_of s' x = gl_of s x)
    (hgl : s'.gl = s.gl)
    (hai : ∀ a', (s'.ai a').ai_ail1_list =
        (if a' = a then b :: (s.ai a').ai_ail1_list.filter (fun x => x ≠ b)
          else (s.ai a').ai_ail1_list.filter (fun x => x ≠ b)) ∧
      (s'.ai a').ai_ail2_list = (s.ai a').ai_ail2_list.filter (fun x => x ≠ b)) :
    ail_inv s' where
  st_nodup := by
    intro a'
    rw [(hai a').1, (hai a').2]
    have hf := nodup_filter_append _ _ b (h.st_nodup a')
    by_cases e : a' = a
    · simp only [e, if_true, List.cons_append]
      rw [e] at hf
      apply List.nodup_cons.mpr
      refine ⟨?_, hf⟩
      simp [List.mem_filter]
    · simp only [e, if_false]
      exact hf
  st_mem := by
    intro a' x
    rw [(hai a').1, (hai a').2, hail]
    have hm := h.st_mem a' x
    by_cases hx : x = b
    · subst hx
      by_cases e : a' = a
      · simp [e]
      · have e2 : ¬ a = a' := fun k => e k.symm
        simp [e, e2, List.mem_filter]
    · simp only [hx, if_false]
      rw [← hm]
      by_cases e : a' = a <;> simp [e, hx, List.mem_filter]
  gl_nodup := by intro g; rw [hgl]; exact h.gl_nodup g
  gl_mem := by
    intro g x
    rw [hgl, hail, hgo]
    have hm := h.gl_mem g x
    by_cases hx : x = b
    · subst hx
      simp only [if_true, ne_eq, reduceCtorEq, not_false_eq_true, and_true]
      rw [hm]
      simp [hb]
    · simp only [hx, if_false]
      exact hm
  gl_count := by intro g; rw [hgl]; exact h.gl_count g

theorem ail_inv_of_empty {s : gfs2_sbd} (h : ail_empty s) : ail_inv s where
  st_nodup := by intro a; rw [(h.1 a).1, (h.1 a).2]; simp
  st_mem := by intro a b; rw [(h.1 a).1, (h.1 a).2, h.2.2 b]; simp
  gl_nodup := by intro g; rw [(h.2.1 g).1]; simp
  gl_mem := by intro g b; rw [(h.2.1 g).1, h.2.2 b]; simp
  gl_count := by intro g; rw [(h.2.1 g).1, (h.2.1 g).2]; simp

/-! ## The list discipline and the reference count under the loop bodies -/

theorem ref_ok_iff (s : gfs2_sbd) (x : Nat) (c : Int) :
    ref_ok s x c ↔ ref_base (s.bh x) = c + (if (ail_of s x).isSome then 1 else 0) := by
  unfold ref_ok ref_base
  constructor <;> intro h <;> omega

theorem ref_ok_congr {s s' : gfs2_sbd} {x : Nat} {c : Int} (h : ref_ok s x c)
    (hb : ref_base (s'.bh x) = ref_base (s.bh x))
    (ha : ail_of s' x = ail_of s x) : ref_ok s' x c := by
  rw [ref_ok_iff] at *
  rw [hb, ha]
  exact h

theorem ail_of_congr {s s' : gfs2_sbd} (h : s'.bd = s.bd) (x : Nat) :
    ail_of s' x = ail_of s x := by
  unfold ail_of; rw [h]

theorem gl_of_congr {s s' : gfs2_sbd} (h : s'.bd = s.bd) (x : Nat) :
    gl_of s' x = gl_of s x := by
  unfold gl_of; rw [h]

theorem promote_one_inv (a : Nat) (s : gfs2_sbd) (x : Nat) (h : ail_inv s)
    (hx : ail_of s x = some a) : ail_inv (promote_one a s x) := by
  apply ail_inv_move h x a true hx (ail_of_congr (promote_one_bd a s x))
    (gl_of_congr (promote_one_bd a s x)) (promote_one_gl a s x)
  intro a'
  rw [promote_one_ai]
  simp

theorem promote_one_ref (a : Nat) (s : gfs2_sbd) (x y : Nat) (c : Int)
    (h : ref_ok s y c) : ref_ok (promote_one a s x) y c :=
  ref_ok_congr h (by rw [promote_one_bh])
    (ail_of_congr (promote_one_bd a s x) y)

theorem write_back_bd (sto : Storage) (a : Nat) (s : gfs2_sbd) (b : Nat) :
    (write_back sto a s b).bd = s.bd := by
  simp [write_back]

theorem write_back_gl (sto : Storage) (a : Nat) (s : gfs2_sbd) (b : Nat) :
    (write_back sto a s b).gl = s.gl := by
  simp [write_back]

theorem write_back_ai (sto : Storage) (a : Nat) (s : gfs2_sbd) (b a' : Nat) :
    (write_back sto a s b).ai a' =
      { ai_ail1_list := if a' = a then b :: (s.ai a').ai_ail1_list.filter (fun y => y ≠ b)
          else (s.ai a').ai_ail1_list.filter (fun y => y ≠ b),
        ai_ail2_list := (s.ai a').ai_ail2_list.filter (fun y => y ≠ b) } := by
  by_cases h : a' = a <;> simp [write_back, h]

theorem write_back_base (sto : Storage) (a : Nat) (s : gfs2_sbd) (b y : Nat) :
    ref_base ((write_back sto a s b).bh y) = ref_base (s.bh y) := by
  simp only [write_back, ll_rw_block_write_bh, wait_on_buffer_bh, wait_on_buffer_io_log,
    list_move_ail1, list_add_ail1, set_ai_bh, set_ai_io_log, list_del_st_bh,
    list_del_st_io_log, if_true]
  by_cases hy : y = b
  · subst hy
    simp only [if_true, true_and]
    generalize sto.submit s.io_log.length y = r
    by_cases hd : (s.bh y).BH_Dirty = true
    · rw [if_pos hd]
      cases r <;> simp only [ref_base, submitted] <;> split_ifs <;> simp_all
    · rw [if_neg hd]
      simp only [ref_base]
      split_ifs <;> simp_all
  · simp [hy]

theorem write_back_inv (sto : Storage) (a : Nat) (s : gfs2_sbd) (b : Nat) (h : ail_inv s)
    (hb : ail_of s b = some a) : ail_inv (write_back sto a s b) := by
  apply ail_inv_move h b a false hb (ail_of_congr (write_back_bd sto a s b))
    (gl_of_congr (write_back_bd sto a s b)) (write_back_gl sto a s b)
  intro a'
  rw [write_back_ai]
  simp

theorem write_back_ref (sto : Storage) (a : Nat) (s : gfs2_sbd) (b y : Nat) (c : Int)
    (h : ref_ok s y c) : ref_ok (write_back sto a s b) y c :=
  ref_ok_congr h (write_back_base sto a s b y)
    (ail_of_congr (write_back_bd sto a s b) y)
/-! ## The ordered drain gate -/

/-- C1: `gfs2_ail1_empty_one` without DIO_ALL, on a pending list holding a busy
buffer, returns false; the scan promotes exactly the buffers older than the oldest
busy one, so that buffer and every buffer enqueued after it stay on the pending
list, in order, and are not moved to the awaiting-release list. -/
theorem ail1_empty_one_gated_by_oldest_busy (sdp : gfs2_sbd) (a : Nat) (flags : dio_flags)
    (hall : flags.DIO_ALL = false)
    (hwf : ∀ x ∈ (sdp.ai a).ai_ail1_list, ail_of sdp x = some a)
    (hnd : (sdp.ai a).ai_ail1_list.Nodup)
    (hbusy : ∃ b ∈ (sdp.ai a).ai_ail1_list, buffer_busy (sdp.bh b) = true) :
    ∃ newer bz older s',
      (sdp.ai a).ai_ail1_list = newer ++ bz :: older ∧
      buffer_busy (sdp.bh bz) = true ∧
      (∀ x ∈ older, buffer_busy (sdp.bh x) = false) ∧
      gfs2_ail1_empty_one sdp a flags = .ok (false, s') ∧
      (s'.ai a).ai_ail1_list = newer ++ [bz] ∧
      (s'.ai a).ai_ail2_list = older ++ (sdp.ai a).ai_ail2_list.filter (fun y => y ∉ older) ∧
      (∀ x ∈ newer ++ [bz], x ∈ (s'.ai a).ai_ail2_list → x ∈ (sdp.ai a).ai_ail2_list) ∧
      s'.bh = sdp.bh := by
  obtain ⟨newer, bz, older, hL, hbz, hold⟩ :=
    exists_oldest (fun x => buffer_busy (sdp.bh x)) _ hbusy
  have hrev : (sdp.ai a).ai_ail1_list.reverse = older.reverse ++ bz :: newer.reverse := by
    simp [hL]
  have hscan : ail1_empty_scan a flags (sdp.ai a).ai_ail1_list.reverse sdp =
      .ok (promote a older.reverse sdp) := by
    rw [hrev, ail1_empty_scan_promote]
    · obtain ⟨d, hd, hda⟩ := ail_of_eq_some (hwf bz (by simp [hL]))
      have hbz' : buffer_busy (sdp.bh bz) = true := hbz
      simp [ail1_empty_scan, promote_bd, promote_bh, hd, hda, hbz', hall]
    · intro x hx
      exact ail_of_eq_some (hwf x (by simp [hL, List.mem_reverse.mp hx]))
    · intro x hx
      exact hold x (List.mem_reverse.mp hx)
  have hnd' : (newer ++ bz :: older).Nodup := hL ▸ hnd
  have hail1 : ((promote a older.reverse sdp).ai a).ai_ail1_list = newer ++ [bz] := by
    rw [promote_ail1, hL]
    exact filter_not_mem_split newer older bz hnd'
  have hondnd : older.reverse.Nodup :=
    List.nodup_reverse.mpr (List.nodup_cons.mp (List.nodup_append.mp hnd').2.1).2
  have hail2 : ((promote a older.reverse sdp).ai a).ai_ail2_list =
      older ++ (sdp.ai a).ai_ail2_list.filter (fun y => y ∉ older) := by
    rw [promote_ail2 _ _ _ hondnd]
    simp
  refine ⟨newer, bz, older, promote a older.reverse sdp, hL, hbz, hold, ?_, hail1, hail2, ?_,
    promote_bh _ _ _⟩
  · simp [gfs2_ail1_empty_one, hscan, hail1]
  · intro x hx hx2
    rw [hail2] at hx2
    rcases List.mem_append.mp hx2 with h | h
    · exfalso
      rcases List.mem_append.mp hx with hn | hb
      · exact (List.nodup_append.mp hnd').2.2 hn (List.mem_cons_of_mem _ h)
      · rw [List.mem_singleton.mp hb] at h
        exact (List.nodup_cons.mp (List.nodup_append.mp hnd').2.1).1 h
    · exact (List.mem_filter.mp h).1

/-- C1 at the example: 11 is locked, so only 10 is promoted and the call returns
false although 12 is clean. -/
theorem ail1_empty_one_gated_by_oldest_busy_witness :
    ∃ newer bz older s',
      (sample_busy_middle.ai 1).ai_ail1_list = newer ++ bz :: older ∧
      buffer_busy (sample_busy_middle.bh bz) = true ∧
      (∀ x ∈ older, buffer_busy (sample_busy_middle.bh x) = false) ∧
      gfs2_ail1_empty_one sample_busy_middle 1 {} = .ok (false, s') ∧
      (s'.ai 1).ai_ail1_list = newer ++ [bz] ∧
      (s'.ai 1).ai_ail2_list =
        older ++ (sample_busy_middle.ai 1).ai_ail2_list.filter (fun y => y ∉ older) ∧
      (∀ x ∈ newer ++ [bz], x ∈ (s'.ai 1).ai_ail2_list →
        x ∈ (sample_busy_middle.ai 1).ai_ail2_list) ∧
      s'.bh = sample_busy_middle.bh :=
  ail1_empty_one_gated_by_oldest_busy sample_busy_middle 1 {} rfl (by decide) (by decide)
    (by decide)


/-- The assumption of C1 that every pending entry has `bd_ail == ai` is the
assertion the scan itself makes: on a list that breaks it the call stops in
`gfs2_assert` and returns nothing. -/
theorem ail1_empty_one_asserts_membership :
    gfs2_ail1_empty_one sample_foreign_entry 1 {} = .error .panic := by
  rfl

/-! ## Unpinning -/

/-- C2: `gfs2_dunpin` of a pinned, uptodate buffer with bufdata into AIL entry `a`
raises the owning glock's `gl_ail_count` by exactly one when the buffer had no AIL
membership and leaves it unchanged when it had one; either way the buffer then sits
once on the pending list of `a` and on no other AIL list, with `bd_ail = a`, dirty
set and pinned cleared. -/
theorem dunpin_counts_membership_once (sdp : gfs2_sbd) (b a : Nat) (d : gfs2_bufdata)
    (hbd : sdp.bd b = some d)
    (hpin : (sdp.bh b).BH_Pinned = true)
    (hup : (sdp.bh b).BH_Uptodate = true)
    (hunlinked : d.bd_ail = none →
      ∀ g, b ∉ (sdp.ai g).ai_ail1_list ∧ b ∉ (sdp.ai g).ai_ail2_list) :
    ∃ s', gfs2_dunpin sdp b (some a) = .ok s' ∧
      (s'.gl d.bd_gl).gl_ail_count =
        (sdp.gl d.bd_gl).gl_ail_count + (if d.bd_ail = none then 1 else 0) ∧
      (∀ g, g ≠ d.bd_gl → (s'.gl g).gl_ail_count = (sdp.gl g).gl_ail_count) ∧
      s'.bd b = some { d with bd_ail := some a } ∧
      (s'.ai a).ai_ail1_list = b :: (sdp.ai a).ai_ail1_list.filter (fun x => x ≠ b) ∧
      (∀ g, g ≠ a → b ∉ (s'.ai g).ai_ail1_list) ∧
      (∀ g, b ∉ (s'.ai g).ai_ail2_list) ∧
      (s'.bh b).BH_Dirty = true ∧ (s'.bh b).BH_Pinned = false ∧
      s'.withdraws = sdp.withdraws := by
  cases hail : d.bd_ail with
  | none =>
    have hfree := hunlinked hail
    refine ⟨_, by simp [gfs2_dunpin, gfs2_assert_withdraw, mark_buffer_dirty,
      clear_buffer_pinned, set_bh, hbd, hpin, hup, hail]; rfl, ?_, ?_, ?_, ?_, ?_, ?_, ?_, ?_, ?_⟩
    · simp [list_add_ail1, set_ai, set_bd, ail_count_inc, set_gl, list_add_gl]
    · intro g hg
      simp [list_add_ail1, set_ai, set_bd, ail_count_inc, set_gl, list_add_gl, hg]
    · simp [list_add_ail1, set_ai, set_bd]
    · have : (sdp.ai a).ai_ail1_list.filter (fun x => decide (x ≠ b)) = (sdp.ai a).ai_ail1_list := by
        apply List.filter_eq_self.mpr
        intro x hx
        have : x ≠ b := fun h => (hfree a).1 (h ▸ hx)
        simpa using this
      simp only [this]
      simp [list_add_ail1, set_ai, set_bd, ail_count_inc, set_gl, list_add_gl, set_bh]
    · intro g hg
      simpa [list_add_ail1, set_ai, set_bd, ail_count_inc, set_gl, list_add_gl, set_bh, hg]
        using (hfree g).1
    · intro g
      by_cases hg : g = a
      · subst hg
        simpa [list_add_ail1, set_ai, set_bd, ail_count_inc, set_gl, list_add_gl, set_bh]
          using (hfree g).2
      · simpa [list_add_ail1, set_ai, set_bd, ail_count_inc, set_gl, list_add_gl, set_bh, hg]
          using (hfree g).2
    · simp [list_add_ail1, set_ai, set_bd, ail_count_inc, set_gl, list_add_gl, set_bh]
    · simp [list_add_ail1, set_ai, set_bd, ail_count_inc, set_gl, list_add_gl, set_bh]
    · simp [list_add_ail1, set_ai, set_bd, ail_count_inc, set_gl, list_add_gl, set_bh]
  | some a0 =>
    have e : gfs2_dunpin sdp b (some a) = .ok (list_add_ail1 (set_bd (brelse (list_del_st
        (clear_buffer_pinned (mark_buffer_dirty sdp b) b) b) b) b
        { d with bd_ail := some a }) b a) := by
      simp [gfs2_dunpin, gfs2_assert_withdraw, hbd, hpin, hup, hail]
    refine ⟨_, e, ?_, ?_, ?_, ?_, ?_, ?_, ?_, ?_, ?_⟩
    · simp
    · intro g _
      simp
    · simp
    · simp
    · intro g hg
      simp [hg]
    · intro g
      by_cases hg : g = a
      · subst hg
        simp
      · simp [hg]
    · by_cases hc : (sdp.bh b).b_count = 0 <;> simp [hc]
    · by_cases hc : (sdp.bh b).b_count = 0 <;> simp [hc]
    · simp

/-- C2 at the example of a first AIL membership: the count of glock 0 goes from 0
to 1 and buffer 10 lands on the pending list of entry 1. -/
theorem dunpin_counts_membership_once_witness :
    ∃ s', gfs2_dunpin sample_pinned 10 (some 1) = .ok s' ∧
      (s'.gl 0).gl_ail_count = (sample_pinned.gl 0).gl_ail_count + 1 ∧
      (∀ g, g ≠ 0 → (s'.gl g).gl_ail_count = (sample_pinned.gl g).gl_ail_count) ∧
      s'.bd 10 = some { bd_gl := 0, bd_ail := some 1 } ∧
      (s'.ai 1).ai_ail1_list = 10 :: (sample_pinned.ai 1).ai_ail1_list.filter (fun x => x ≠ 10) ∧
      (∀ g, g ≠ 1 → 10 ∉ (s'.ai g).ai_ail1_list) ∧
      (∀ g, 10 ∉ (s'.ai g).ai_ail2_list) ∧
      (s'.bh 10).BH_Dirty = true ∧ (s'.bh 10).BH_Pinned = false ∧
      s'.withdraws = sample_pinned.withdraws :=
  dunpin_counts_membership_once sample_pinned 10 1 { bd_gl := 0, bd_ail := none } rfl rfl rfl
    (fun _ g => by simp [sample_pinned, empty_sbd])

/-- The transfer case of `gfs2_dunpin`, at the example: buffer 10 moves from entry 1
to entry 2, the count of glock 0 stays 1 and the pin reference is dropped. -/
theorem dunpin_transfer_example :
    ∃ s', gfs2_dunpin sample_pinned_in_ail 10 (some 2) = .ok s' ∧
      (s'.gl 0).gl_ail_count = 1 ∧ (s'.ai 1).ai_ail1_list = [] ∧
      (s'.ai 2).ai_ail1_list = [10] ∧ (s'.bh 10).b_count = 1 :=
  ⟨_, rfl, by decide, by decide, by decide, by decide⟩

/-! ## Releasing the awaiting-release list -/

theorem release_one_bd (s : gfs2_sbd) (b x : Nat) :
    (release_one s b).bd x =
      if x = b then (s.bd b).map (fun d => { d with bd_ail := none }) else s.bd x := by
  unfold release_one
  cases h : s.bd b with
  | none => by_cases hx : x = b <;> simp [hx, h]
  | some d => by_cases hx : x = b <;> simp [hx]

theorem release_one_gl_of (s : gfs2_sbd) (b x : Nat) :
    gl_of (release_one s b) x = gl_of s x := by
  unfold gl_of
  rw [release_one_bd]
  by_cases hx : x = b
  · subst hx; cases s.bd x <;> simp
  · simp [hx]

theorem release_one_ail_of (s : gfs2_sbd) (b x : Nat) :
    ail_of (release_one s b) x = if x = b then none else ail_of s x := by
  unfold ail_of
  rw [release_one_bd]
  by_cases hx : x = b
  · subst hx; cases s.bd x <;> simp
  · simp [hx]

theorem release_one_ai (s : gfs2_sbd) (b a : Nat) (h : (s.bd b).isSome) :
    (release_one s b).ai a =
      { ai_ail1_list := (s.ai a).ai_ail1_list.filter (fun x => x ≠ b),
        ai_ail2_list := (s.ai a).ai_ail2_list.filter (fun x => x ≠ b) } := by
  unfold release_one
  cases hb : s.bd b with
  | none => simp [hb] at h
  | some d => simp

theorem release_one_gl (s : gfs2_sbd) (b g : Nat) (h : (s.bd b).isSome) :
    (release_one s b).gl g =
      { s.gl g with
        gl_ail_list := (s.gl g).gl_ail_list.filter (fun x => x ≠ b),
        gl_ail_count := (s.gl g).gl_ail_count - (if gl_of s b = some g then 1 else 0) } := by
  unfold release_one gl_of
  cases hb : s.bd b with
  | none => simp [hb] at h
  | some d =>
    by_cases hg : g = d.bd_gl
    · subst hg; simp
    · have : ¬ d.bd_gl = g := fun e => hg e.symm
      simp [hg, this]

theorem release_one_bh (s : gfs2_sbd) (b x : Nat) (h : (s.bd b).isSome) :
    (release_one s b).bh x =
      { s.bh x with b_count := (s.bh x).b_count -
          (if x = b ∧ (s.bh x).b_count ≠ 0 then 1 else 0) } := by
  unfold release_one
  cases hb : s.bd b with
  | none => simp [hb] at h
  | some d =>
    by_cases hx : x = b
    · subst hx
      by_cases hc : (s.bh x).b_count = 0
      · have eta : ∀ h : buffer_head, h.b_count = 0 → h = { h with b_count := 0 } := by
          intro h e
          cases h
          simp_all
        simpa [hc] using eta _ hc
      · simp [hc]
    · simp [hx]

theorem release_one_isSome (s : gfs2_sbd) (b x : Nat) :
    ((release_one s b).bd x).isSome = (s.bd x).isSome := by
  rw [release_one_bd]
  by_cases hx : x = b
  · subst hx; cases s.bd x <;> simp
  · simp [hx]

theorem release_gl_of (xs : List Nat) (s : gfs2_sbd) (x : Nat) :
    gl_of (release xs s) x = gl_of s x := by
  induction xs generalizing s with
  | nil => rfl
  | cons y ys ih => simp [release, ih, release_one_gl_of]

theorem release_ail_of (xs : List Nat) (s : gfs2_sbd) (x : Nat) :
    ail_of (release xs s) x = if x ∈ xs then none else ail_of s x := by
  induction xs generalizing s with
  | nil => simp [release]
  | cons y ys ih =>
    simp only [release, ih, release_one_ail_of, List.mem_cons]
    by_cases h1 : x ∈ ys <;> by_cases h2 : x = y <;> simp [h1, h2]

theorem release_isSome (xs : List Nat) (s : gfs2_sbd) (x : Nat) :
    ((release xs s).bd x).isSome = (s.bd x).isSome := by
  induction xs generalizing s with
  | nil => rfl
  | cons y ys ih => simp [release, ih, release_one_isSome]

theorem release_ai (xs : List Nat) (s : gfs2_sbd) (a : Nat)
    (h : ∀ x ∈ xs, (s.bd x).isSome) :
    (release xs s).ai a =
      { ai_ail1_list := (s.ai a).ai_ail1_list.filter (fun x => x ∉ xs),
        ai_ail2_list := (s.ai a).ai_ail2_list.filter (fun x => x ∉ xs) } := by
  induction xs generalizing s with
  | nil => simp [release]
  | cons y ys ih =>
    have hy := h y (List.mem_cons_self _ _)
    have hys : ∀ x ∈ ys, ((release_one s y).bd x).isSome := by
      intro x hx
      rw [release_one_isSome]
      exact h x (List.mem_cons_of_mem _ hx)
    simp only [release, ih _ hys, release_one_ai _ _ _ hy, List.filter_filter]
    congr 1 <;> (apply List.filter_congr; intro x _; simp [Bool.and_comm])

theorem release_gl_list (xs : List Nat) (s : gfs2_sbd) (g : Nat)
    (h : ∀ x ∈ xs, (s.bd x).isSome) :
    ((release xs s).gl g).gl_ail_list = (s.gl g).gl_ail_list.filter (fun x => x ∉ xs) := by
  induction xs generalizing s with
  | nil => simp [release]
  | cons y ys ih =>
    have hy := h y (List.mem_cons_self _ _)
    have hys : ∀ x ∈ ys, ((release_one s y).bd x).isSome := by
      intro x hx
      rw [release_one_isSome]
      exact h x (List.mem_cons_of_mem _ hx)
    simp only [release, ih _ hys, release_one_gl _ _ _ hy, List.filter_filter]
    apply List.filter_congr
    intro x _
    simp [Bool.and_comm]

theorem release_gl_count (xs : List Nat) (s : gfs2_sbd) (g : Nat)
    (h : ∀ x ∈ xs, (s.bd x).isSome) :
    ((release xs s).gl g).gl_ail_count =
      (s.gl g).gl_ail_count - (xs.countP (fun x => gl_of s x = some g) : Nat) := by
  induction xs generalizing s with
  | nil => simp [release]
  | cons y ys ih =>
    have hy := h y (List.mem_cons_self _ _)
    have hys : ∀ x ∈ ys, ((release_one s y).bd x).isSome := by
      intro x hx
      rw [release_one_isSome]
      exact h x (List.mem_cons_of_mem _ hx)
    simp only [release, ih _ hys, release_one_gl _ _ _ hy, release_one_gl_of, List.countP_cons]
    by_cases hg : gl_of s y = some g
    · simp [hg]; omega
    · simp [hg]

theorem release_gl_rest (xs : List Nat) (s : gfs2_sbd) (g : Nat)
    (h : ∀ x ∈ xs, (s.bd x).isSome) :
    ((release xs s).gl g).i_writecount = (s.gl g).i_writecount ∧
    ((release xs s).gl g).pages = (s.gl g).pages := by
  induction xs generalizing s with
  | nil => simp [release]
  | cons y ys ih =>
    have hy := h y (List.mem_cons_self _ _)
    have hys : ∀ x ∈ ys, ((release_one s y).bd x).isSome := by
      intro x hx
      rw [release_one_isSome]
      exact h x (List.mem_cons_of_mem _ hx)
    simp only [release, ih _ hys, release_one_gl _ _ _ hy, and_self]

theorem release_bh (xs : List Nat) (s : gfs2_sbd) (x : Nat)
    (h : ∀ x ∈ xs, (s.bd x).isSome) (hnd : xs.Nodup) :
    (release xs s).bh x = { s.bh x with b_count := (s.bh x).b_count -
      (if x ∈ xs ∧ (s.bh x).b_count ≠ 0 then 1 else 0) } := by
  induction xs generalizing s with
  | nil => simp [release]
  | cons y ys ih =>
    have hy := h y (List.mem_cons_self _ _)
    have hys : ∀ x ∈ ys, ((release_one s y).bd x).isSome := by
      intro x hx
      rw [release_one_isSome]
      exact h x (List.mem_cons_of_mem _ hx)
    have hyn : y ∉ ys := (List.nodup_cons.mp hnd).1
    simp only [release, ih _ hys (List.nodup_cons.mp hnd).2, release_one_bh _ _ _ hy,
      List.mem_cons]
    by_cases hx : x = y
    · subst hx
      simp [hyn]
    · simp [hx]

/-- The loop of `gfs2_ail2_empty_one` releases the awaiting-release list from
`head->prev` on and ends. -/
theorem ail2_empty_one_eq_release (a : Nat) (L : List Nat) :
    ∀ (s : gfs2_sbd) (fuel : Nat), (s.ai a).ai_ail2_list = L → L.Nodup →
      (∀ x ∈ L, ail_of s x = some a) → L.length ≤ fuel →
      gfs2_ail2_empty_one fuel s a = .ok (release L.reverse s) := by
  induction L using List.reverseRecOn with
  | nil =>
    intro s fuel hL _ _ _
    unfold gfs2_ail2_empty_one
    simp [hL, release]
  | append_singleton init b ih =>
    intro s fuel hL hnd hwf hfuel
    obtain ⟨d, hd, hda⟩ := ail_of_eq_some (hwf b (by simp))
    have hb : b ∉ init := by
      intro hmem
      have := List.nodup_append.mp hnd
      exact this.2.2 hmem (List.mem_singleton_self b) 
    cases fuel with
    | zero => simp at hfuel
    | succ f =>
      have hlast : (init ++ [b]).getLast? = some b := by simp
      unfold gfs2_ail2_empty_one
      simp only [hL, hlast, hd, hda, ne_eq, not_true_eq_false, if_false]
      have hstep : brelse (ail_count_dec (list_del_gl (list_del_st
          (set_bd s b { d with bd_ail := none }) b) b) d.bd_gl) b = release_one s b := by
        simp [release_one, hd]
      rw [hstep, List.reverse_append, List.reverse_singleton, List.singleton_append, release]
      apply ih
      · rw [release_one_ai _ _ _ (by simp [hd]), hL]
        simp only [List.filter_append]
        simp only [ne_eq, decide_not, List.filter_cons, decide_True, Bool.not_true,
          Bool.false_eq_true, if_false, List.filter_nil, List.append_nil]
        apply List.filter_eq_self.mpr
        intro x hx
        have : x ≠ b := fun e => hb (e ▸ hx)
        simpa using this
      · exact (List.nodup_append.mp hnd).1
      · intro x hx
        rw [release_one_ail_of]
        have : x ≠ b := fun e => hb (e ▸ hx)
        simp [this, hwf x (by simp [hx])]
      · simpa using hfuel

theorem countP_gl_of_eq_count (L : List Nat) (s : gfs2_sbd) (g : Nat) :
    L.countP (fun x => gl_of s x = some g) = (L.filterMap (gl_of s)).count g := by
  induction L with
  | nil => rfl
  | cons x xs ih =>
    cases hx : gl_of s x with
    | none => simp [List.countP_cons, List.filterMap_cons, hx, ih]
    | some g' =>
      by_cases hg : g' = g
      · simp [List.countP_cons, List.filterMap_cons, hx, ih, hg]
      · simp [List.countP_cons, List.filterMap_cons, hx, ih, hg, List.count_cons]

theorem length_filterMap_gl_of (L : List Nat) (s : gfs2_sbd)
    (h : ∀ x ∈ L, (s.bd x).isSome) : (L.filterMap (gl_of s)).length = L.length := by
  induction L with
  | nil => rfl
  | cons x xs ih =>
    have hx := h x (List.mem_cons_self _ _)
    cases hb : s.bd x with
    | none => simp [hb] at hx
    | some d =>
      have : gl_of s x = some d.bd_gl := by simp [gl_of, hb]
      simp [List.filterMap_cons, this, ih (fun y hy => h y (List.mem_cons_of_mem _ hy))]

theorem sum_count_owners (M : List Nat) :
    ((M.dedup.map (fun g => ((M.count g : Nat) : Int))).sum) = (M.length : Int) := by
  have h := List.sum_map_count_dedup_eq_length M
  have h2 : ((M.dedup.map (fun g => M.count g)).sum : Int) = (M.length : Int) := by
    exact_mod_cast h
  rw [← h2, Nat.cast_list_sum, List.map_map]
  rfl

/-- C3: `gfs2_ail2_empty_one` on an entry whose awaiting-release list holds `k`
buffers ends with that list empty and the pending list as it was; each of the `k`
buffers, each holding at least the reference that its AIL membership stands for,
has `bd_ail = NULL`, is on no glock's AIL list and holds exactly one reference
less; every other buffer keeps its count; each glock's `gl_ail_count` goes down by
the number of released buffers it owns, and these decrements add up to `k`. -/
theorem ail2_empty_one_releases_all (sdp : gfs2_sbd) (a fuel : Nat)
    (hwf : ∀ x ∈ (sdp.ai a).ai_ail2_list, ail_of sdp x = some a)
    (hnd : (sdp.ai a).ai_ail2_list.Nodup)
    (hdisj : ∀ x ∈ (sdp.ai a).ai_ail2_list, x ∉ (sdp.ai a).ai_ail1_list)
    (hheld : ∀ x ∈ (sdp.ai a).ai_ail2_list, 0 < (sdp.bh x).b_count)
    (hfuel : (sdp.ai a).ai_ail2_list.length ≤ fuel) :
    ∃ s', gfs2_ail2_empty_one fuel sdp a = .ok s' ∧
      (s'.ai a).ai_ail2_list = [] ∧
      (s'.ai a).ai_ail1_list = (sdp.ai a).ai_ail1_list ∧
      (∀ x ∈ (sdp.ai a).ai_ail2_list,
        ail_of s' x = none ∧ (∀ g, x ∉ (s'.gl g).gl_ail_list) ∧
        (s'.bh x).b_count = (sdp.bh x).b_count - 1) ∧
      (∀ x, x ∉ (sdp.ai a).ai_ail2_list → s'.bh x = sdp.bh x ∧ ail_of s' x = ail_of sdp x) ∧
      (∀ g, (s'.gl g).gl_ail_count = (sdp.gl g).gl_ail_count -
        ((sdp.ai a).ai_ail2_list.countP (fun x => gl_of sdp x = some g) : Nat)) ∧
      ((((sdp.ai a).ai_ail2_list.filterMap (gl_of sdp)).dedup.map
        (fun g => (sdp.gl g).gl_ail_count - (s'.gl g).gl_ail_count)).sum =
          ((sdp.ai a).ai_ail2_list.length : Int)) := by
  have hsome : ∀ x ∈ (sdp.ai a).ai_ail2_list.reverse, (sdp.bd x).isSome := by
    intro x hx
    obtain ⟨d, hd, _⟩ := ail_of_eq_some (hwf x (List.mem_reverse.mp hx))
    simp [hd]
  have hcount : ∀ g, ((release (sdp.ai a).ai_ail2_list.reverse sdp).gl g).gl_ail_count =
      (sdp.gl g).gl_ail_count -
        ((sdp.ai a).ai_ail2_list.countP (fun x => gl_of sdp x = some g) : Nat) := by
    intro g
    rw [release_gl_count _ _ _ hsome, List.countP_reverse]
  refine ⟨release (sdp.ai a).ai_ail2_list.reverse sdp,
    ail2_empty_one_eq_release a _ sdp fuel rfl hnd hwf hfuel, ?_, ?_, ?_, ?_, hcount, ?_⟩
  · rw [release_ai _ _ _ hsome]
    apply List.filter_eq_nil_iff.mpr
    intro x hx
    simpa using hx
  · rw [release_ai _ _ _ hsome]
    apply List.filter_eq_self.mpr
    intro x hx
    have : x ∉ (sdp.ai a).ai_ail2_list := fun h => hdisj x h hx
    simpa using this
  · intro x hx
    refine ⟨?_, ?_, ?_⟩
    · rw [release_ail_of]; simp [hx]
    · intro g
      rw [release_gl_list _ _ _ hsome]
      simp [hx]
    · have hpos := hheld x hx
      have hne : (sdp.bh x).b_count ≠ 0 := by omega
      rw [release_bh _ _ _ hsome (List.nodup_reverse.mpr hnd)]
      simp [hx, hne]
  · intro x hx
    refine ⟨?_, ?_⟩
    · rw [release_bh _ _ _ hsome (List.nodup_reverse.mpr hnd)]
      simp [hx]
    · rw [release_ail_of]; simp [hx]
  · have hfun : ∀ g, (sdp.gl g).gl_ail_count -
        ((release (sdp.ai a).ai_ail2_list.reverse sdp).gl g).gl_ail_count =
        ((((sdp.ai a).ai_ail2_list.filterMap (gl_of sdp)).count g : Nat) : Int) := by
      intro g
      rw [hcount g, countP_gl_of_eq_count]
      omega
    simp only [hfun]
    rw [sum_count_owners, length_filterMap_gl_of]
    intro x hx
    exact hsome x (List.mem_reverse.mpr hx)

/-- C3 at the example: the three buffers awaiting release in entry 1 are let go;
glock 0 loses two members and glock 5 one. -/
theorem ail2_empty_one_releases_all_witness :
    ∃ s', gfs2_ail2_empty_one 3 sample_awaiting 1 = .ok s' ∧
      (s'.ai 1).ai_ail2_list = [] ∧
      (s'.ai 1).ai_ail1_list = (sample_awaiting.ai 1).ai_ail1_list ∧
      (∀ x ∈ (sample_awaiting.ai 1).ai_ail2_list,
        ail_of s' x = none ∧ (∀ g, x ∉ (s'.gl g).gl_ail_list) ∧
        (s'.bh x).b_count = (sample_awaiting.bh x).b_count - 1) ∧
      (∀ x, x ∉ (sample_awaiting.ai 1).ai_ail2_list →
        s'.bh x = sample_awaiting.bh x ∧ ail_of s' x = ail_of sample_awaiting x) ∧
      (∀ g, (s'.gl g).gl_ail_count = (sample_awaiting.gl g).gl_ail_count -
        ((sample_awaiting.ai 1).ai_ail2_list.countP
          (fun x => gl_of sample_awaiting x = some g) : Nat)) ∧
      ((((sample_awaiting.ai 1).ai_ail2_list.filterMap (gl_of sample_awaiting)).dedup.map
        (fun g => (sample_awaiting.gl g).gl_ail_count - (s'.gl g).gl_ail_count)).sum =
          ((sample_awaiting.ai 1).ai_ail2_list.length : Int)) :=
  ail2_empty_one_releases_all sample_awaiting 1 3 (by decide) (by decide) (by decide)
    (by decide) (by decide)

/-- The run of C3 at the example, evaluated: the counters of glocks 0 and 5 go from
3 and 1 to 1 and 0, buffer 13 stays pending, and the reference counts of the
released buffers 10, 11, 12 go from 1 to 0 while that of 13 stays 1. -/
theorem ail2_empty_one_example :
    ∃ s', gfs2_ail2_empty_one 3 sample_awaiting 1 = .ok s' ∧
      (s'.gl 0).gl_ail_count = 1 ∧ (s'.gl 5).gl_ail_count = 0 ∧
      (s'.gl 0).gl_ail_list = [13] ∧ (s'.gl 5).gl_ail_list = [] ∧
      (s'.ai 1).ai_ail1_list = [13] ∧ (s'.ai 1).ai_ail2_list = [] ∧
      [10, 11, 12, 13].map (fun x => (sample_awaiting.bh x).b_count) = [1, 1, 1, 1] ∧
      [10, 11, 12, 13].map (fun x => (s'.bh x).b_count) = [0, 0, 0, 1] :=
  ⟨_, rfl, by decide, by decide, by decide, by decide, by decide, by decide, by decide,
    by decide⟩

/-- Outside the hypothesis of C3 nothing is dropped: for a buffer that awaits
release with a reference count of zero, `brelse` leaves the count at zero. -/
theorem ail2_empty_one_unreferenced :
    ∃ s', gfs2_ail2_empty_one 3
        { sample_awaiting with bh := fun i => mk_bh i true false false false 0 } 1 = .ok s' ∧
      (s'.ai 1).ai_ail2_list = [] ∧
      [10, 11, 12].map (fun x => (s'.bh x).b_count) = [0, 0, 0] :=
  ⟨_, rfl, by decide, by decide⟩

/-! ## Forced drain of a glock -/

theorem release_one_log_call (s : gfs2_sbd) (e : log_event) (b : Nat) :
    release_one (log_call s e) b = log_call (release_one s b) e := by
  have key : ∀ (c : Prop) [Decidable c] (A B : gfs2_sbd),
      (if c then log_call A e else log_call B e) = log_call (if c then A else B) e := by
    intro c _ A B
    split <;> rfl
  unfold release_one
  simp only [log_call_bd]
  cases s.bd b with
  | none => rfl
  | some d =>
    let X := fun t : gfs2_sbd => ail_count_dec (list_del_gl (list_del_st
      (set_bd t b { d with bd_ail := none }) b) b) d.bd_gl
    show brelse (X (log_call s e)) b = log_call (brelse (X s) b) e
    exact key ((s.bh b).b_count ≠ 0) (put_bh (X s) b) (X s)

theorem release_log_call (xs : List Nat) (s : gfs2_sbd) (e : log_event) :
    release xs (log_call s e) = log_call (release xs s) e := by
  induction xs generalizing s with
  | nil => rfl
  | cons x xs ih => simp only [release, release_one_log_call, ih]

theorem release_one_trans_log (s : gfs2_sbd) (b : Nat) :
    (release_one s b).trans_log = s.trans_log := by
  unfold release_one
  cases s.bd b <;> simp

theorem release_trans_log (xs : List Nat) (s : gfs2_sbd) :
    (release xs s).trans_log = s.trans_log := by
  induction xs generalizing s with
  | nil => rfl
  | cons x xs ih => simp only [release, ih, release_one_trans_log]

theorem release_one_flags (s : gfs2_sbd) (b : Nat) :
    (release_one s b).withdraws = s.withdraws ∧
    (release_one s b).SDF_SHUTDOWN = s.SDF_SHUTDOWN := by
  unfold release_one
  cases s.bd b <;> simp

theorem release_flags (xs : List Nat) (s : gfs2_sbd) :
    (release xs s).withdraws = s.withdraws ∧ (release xs s).SDF_SHUTDOWN = s.SDF_SHUTDOWN := by
  induction xs generalizing s with
  | nil => exact ⟨rfl, rfl⟩
  | cons x xs ih => simp only [release, ih, release_one_flags, and_self]

theorem log_calls_log_call (s : gfs2_sbd) (e : log_event) (es : List log_event) :
    log_calls (log_call s e) es = log_calls s (e :: es) := by
  simp [log_calls, log_call]

theorem revoke_one_eq (g : Nat) (s : gfs2_sbd) (b : Nat)
    (hfree : buffer_busy (s.bh b) = false) (hown : gl_of s b = some g) :
    revoke_one g s b =
      log_call (release_one s b) (.trans_add_revoke (s.bh b).b_blocknr) := by
  unfold revoke_one release_one
  unfold gl_of at hown
  cases hb : s.bd b with
  | none => simp [hb] at hown
  | some d =>
    have hg : d.bd_gl = g := by simpa [hb] using hown
    have hs : gfs2_assert_withdraw s (!buffer_busy (s.bh b)) = s := by
      simp [gfs2_assert_withdraw, hfree]
    simp only [hs, hg]

theorem revoke_eq (g : Nat) (xs : List Nat) (s : gfs2_sbd)
    (hfree : ∀ x ∈ xs, buffer_busy (s.bh x) = false)
    (hown : ∀ x ∈ xs, gl_of s x = some g) :
    revoke g xs s =
      log_calls (release xs s) (xs.map (fun x => .trans_add_revoke (s.bh x).b_blocknr)) := by
  induction xs generalizing s with
  | nil => simp [revoke, release, log_calls]
  | cons y ys ih =>
    have hy1 := hfree y (List.mem_cons_self _ _)
    have hy2 := hown y (List.mem_cons_self _ _)
    have hsome : (s.bd y).isSome := by
      unfold gl_of at hy2
      cases hb : s.bd y with
      | none => simp [hb] at hy2
      | some d => rfl
    have hbh : ∀ x, ((log_call (release_one s y)
        (.trans_add_revoke (s.bh y).b_blocknr)).bh x) =
        { s.bh x with b_count := (s.bh x).b_count -
          (if x = y ∧ (s.bh x).b_count ≠ 0 then 1 else 0) } := by
      intro x
      rw [log_call_bh, release_one_bh _ _ _ hsome]
    rw [revoke, revoke_one_eq g s y hy1 hy2, ih]
    · rw [release_log_call, log_calls_log_call, release]
      congr 1
      simp only [List.map_cons, hbh]
    · intro x hx
      rw [hbh]
      simpa [buffer_busy] using hfree x (List.mem_cons_of_mem _ hx)
    · intro x hx
      have : gl_of (log_call (release_one s y) (.trans_add_revoke (s.bh y).b_blocknr)) x =
          gl_of (release_one s y) x := rfl
      rw [this, release_one_gl_of]
      exact hown x (List.mem_cons_of_mem _ hx)

theorem revoke_one_isSome (g : Nat) (s : gfs2_sbd) (b x : Nat) :
    ((revoke_one g s b).bd x).isSome = (s.bd x).isSome := by
  unfold revoke_one
  cases hb : s.bd b with
  | none => rfl
  | some d =>
    by_cases hx : x = b
    · subst hx; simp [hb]
    · simp [hx]

theorem revoke_one_gl_list (g : Nat) (s : gfs2_sbd) (b : Nat) (h : (s.bd b).isSome) :
    ((revoke_one g s b).gl g).gl_ail_list = (s.gl g).gl_ail_list.filter (fun x => x ≠ b) := by
  unfold revoke_one
  cases hb : s.bd b with
  | none => simp [hb] at h
  | some d => simp

/-- The loop of `gfs2_ail_empty_gl` revokes the glock's AIL list from `head->next`
on and ends. -/
theorem ail_empty_gl_loop_eq_revoke (g : Nat) (L : List Nat) :
    ∀ (s : gfs2_sbd) (fuel : Nat), (s.gl g).gl_ail_list = L → L.Nodup →
      (∀ x ∈ L, (s.bd x).isSome) → L.length ≤ fuel →
      ail_empty_gl_loop fuel s g = .ok (revoke g L s) := by
  induction L with
  | nil =>
    intro s fuel hL _ _ _
    unfold ail_empty_gl_loop
    simp [hL, revoke]
  | cons b rest ih =>
    intro s fuel hL hnd hsome hfuel
    have hb : b ∉ rest := (List.nodup_cons.mp hnd).1
    have hbs := hsome b (List.mem_cons_self _ _)
    cases hd : s.bd b with
    | none => simp [hd] at hbs
    | some d =>
      cases fuel with
      | zero => simp at hfuel
      | succ f =>
        unfold ail_empty_gl_loop
        simp only [hL, List.head?_cons, hd]
        have hstep : log_call (brelse (ail_count_dec (list_del_gl (list_del_st
            (set_bd (gfs2_assert_withdraw s (!buffer_busy (s.bh b))) b { d with bd_ail := none })
            b) b) g) b) (.trans_add_revoke (s.bh b).b_blocknr) = revoke_one g s b := by
          simp [revoke_one, hd]
        rw [hstep, revoke]
        apply ih
        · rw [revoke_one_gl_list _ _ _ hbs, hL]
          simp only [ne_eq, decide_not, List.filter_cons, decide_True, Bool.not_true,
            Bool.false_eq_true, if_false]
          apply List.filter_eq_self.mpr
          intro x hx
          have : x ≠ b := fun e => hb (e ▸ hx)
          simpa using this
        · exact (List.nodup_cons.mp hnd).2
        · intro x hx
          rw [revoke_one_isSome]
          exact hsome x (List.mem_cons_of_mem _ hx)
        · simpa using hfuel

/-- C4: on a glock whose AIL list holds `n > 0` buffers of its own, none busy, with
`gl_ail_count = n`, and with `gfs2_trans_begin` succeeding, `gfs2_ail_empty_gl`
opens one transaction for `n` blocks, adds one revoke per member carrying the
member's block number (in list order), ends the transaction and flushes the log;
every member is then off every AIL entry list with `bd_ail = NULL` and one
reference less (`brelse` leaving a count of zero at zero), the glock's list is
empty and its counter is 0; no withdraw is raised. -/
theorem ail_empty_gl_revokes_each_member (sdp : gfs2_sbd) (g fuel n : Nat)
    (hlen : (sdp.gl g).gl_ail_list.length = n) (hpos : 0 < n) (hn : n < 4294967296)
    (hcount : (sdp.gl g).gl_ail_count = n)
    (hnd : (sdp.gl g).gl_ail_list.Nodup)
    (hown : ∀ x ∈ (sdp.gl g).gl_ail_list, gl_of sdp x = some g)
    (hfree : ∀ x ∈ (sdp.gl g).gl_ail_list, buffer_busy (sdp.bh x) = false)
    (hfuel : n ≤ fuel) :
    ∃ s', gfs2_ail_empty_gl fuel 0 sdp g = .ok s' ∧
      s'.trans_log = sdp.trans_log ++ [log_event.trans_begin 0 n] ++
        (sdp.gl g).gl_ail_list.map (fun x => log_event.trans_add_revoke (sdp.bh x).b_blocknr) ++
        [log_event.trans_end, log_event.log_flush] ∧
      (∀ x ∈ (sdp.gl g).gl_ail_list,
        ail_of s' x = none ∧
        (∀ a, x ∉ (s'.ai a).ai_ail1_list ∧ x ∉ (s'.ai a).ai_ail2_list) ∧
        (s'.bh x).b_count =
          (sdp.bh x).b_count - (if (sdp.bh x).b_count = 0 then 0 else 1)) ∧
      (s'.gl g).gl_ail_list = [] ∧ (s'.gl g).gl_ail_count = 0 ∧
      s'.withdraws = sdp.withdraws ∧ s'.SDF_SHUTDOWN = sdp.SDF_SHUTDOWN := by
  have hsome : ∀ x ∈ (sdp.gl g).gl_ail_list, (sdp.bd x).isSome := by
    intro x hx
    have h := hown x hx
    unfold gl_of at h
    cases hb : sdp.bd x with
    | none => simp [hb] at h
    | some d => rfl
  have hblocks : ((sdp.gl g).gl_ail_count % 4294967296).toNat = n := by
    rw [hcount]; omega
  have hloop : ail_empty_gl_loop fuel (log_call sdp (.trans_begin 0 n)) g =
      .ok (revoke g (sdp.gl g).gl_ail_list (log_call sdp (.trans_begin 0 n))) :=
    ail_empty_gl_loop_eq_revoke g _ _ fuel rfl hnd hsome (hlen ▸ hfuel)
  have hrev : revoke g (sdp.gl g).gl_ail_list (log_call sdp (.trans_begin 0 n)) =
      log_calls (log_call (release (sdp.gl g).gl_ail_list sdp) (.trans_begin 0 n))
        ((sdp.gl g).gl_ail_list.map (fun x => .trans_add_revoke (sdp.bh x).b_blocknr)) := by
    rw [revoke_eq g _ (log_call sdp (.trans_begin 0 n)) hfree hown, release_log_call]
    rfl
  have hzero : ((release (sdp.gl g).gl_ail_list sdp).gl g).gl_ail_count = 0 := by
    rw [release_gl_count _ _ _ hsome, hcount]
    have : (sdp.gl g).gl_ail_list.countP (fun x => gl_of sdp x = some g) = n := by
      rw [← hlen]
      apply List.countP_eq_length.mpr
      intro x hx
      simpa using hown x hx
    rw [this]; omega
  have hpass : ∀ s : gfs2_sbd, gfs2_assert_withdraw s true = s := fun s => rfl
  have hres : gfs2_ail_empty_gl fuel 0 sdp g = .ok (log_call (log_call
      (log_calls (log_call (release (sdp.gl g).gl_ail_list sdp) (.trans_begin 0 n))
        ((sdp.gl g).gl_ail_list.map (fun x => .trans_add_revoke (sdp.bh x).b_blocknr)))
      .trans_end) .log_flush) := by
    unfold gfs2_ail_empty_gl
    have hne : ¬ n = 0 := by omega
    simp only [hblocks, hne, if_false, gfs2_trans_begin, if_true, decide_True, hpass, ne_eq,
      not_true_eq_false, hloop, hrev]
    have hz : ((log_calls (log_call (release (sdp.gl g).gl_ail_list sdp) (.trans_begin 0 n))
        ((sdp.gl g).gl_ail_list.map (fun x => .trans_add_revoke (sdp.bh x).b_blocknr))).gl
          g).gl_ail_count = 0 := hzero
    simp only [hz, decide_True, hpass]
  refine ⟨_, hres, ?_, ?_, ?_, ?_, ?_, ?_⟩
  · simp [log_calls, release_trans_log]
  · intro x hx
    refine ⟨?_, ?_, ?_⟩
    · have : ∀ s : gfs2_sbd, ail_of (log_call (log_call (log_calls (log_call s
          (.trans_begin 0 n)) ((sdp.gl g).gl_ail_list.map
          (fun x => .trans_add_revoke (sdp.bh x).b_blocknr))) .trans_end) .log_flush) x =
          ail_of s x := fun s => rfl
      rw [this, release_ail_of]
      simp [hx]
    · intro a
      have : (log_call (log_call (log_calls (log_call (release (sdp.gl g).gl_ail_list sdp)
          (.trans_begin 0 n)) ((sdp.gl g).gl_ail_list.map
          (fun x => .trans_add_revoke (sdp.bh x).b_blocknr))) .trans_end) .log_flush).ai a =
          (release (sdp.gl g).gl_ail_list sdp).ai a := rfl
      rw [this, release_ai _ _ _ hsome]
      simp [hx]
    · have : (log_call (log_call (log_calls (log_call (release (sdp.gl g).gl_ail_list sdp)
          (.trans_begin 0 n)) ((sdp.gl g).gl_ail_list.map
          (fun x => .trans_add_revoke (sdp.bh x).b_blocknr))) .trans_end) .log_flush).bh x =
          (release (sdp.gl g).gl_ail_list sdp).bh x := rfl
      rw [this, release_bh _ _ _ hsome hnd]
      by_cases hc : (sdp.bh x).b_count = 0 <;> simp [hx, hc]
  · have : (log_call (log_call (log_calls (log_call (release (sdp.gl g).gl_ail_list sdp)
        (.trans_begin 0 n)) ((sdp.gl g).gl_ail_list.map
        (fun x => .trans_add_revoke (sdp.bh x).b_blocknr))) .trans_end) .log_flush).gl g =
        (release (sdp.gl g).gl_ail_list sdp).gl g := rfl
    rw [this, release_gl_list _ _ _ hsome]
    apply List.filter_eq_nil_iff.mpr
    intro x hx
    simpa using hx
  · exact hzero
  · exact (release_flags _ _).1
  · exact (release_flags _ _).2

/-- C4 at the instance of the spec: AIL count 3 gives exactly 3 revoke records. -/
theorem ail_empty_gl_revokes_each_member_witness :
    ∃ s', gfs2_ail_empty_gl 3 0 sample_synced 0 = .ok s' ∧
      s'.trans_log = sample_synced.trans_log ++ [log_event.trans_begin 0 3] ++
        (sample_synced.gl 0).gl_ail_list.map
          (fun x => log_event.trans_add_revoke (sample_synced.bh x).b_blocknr) ++
        [log_event.trans_end, log_event.log_flush] ∧
      (∀ x ∈ (sample_synced.gl 0).gl_ail_list,
        ail_of s' x = none ∧
        (∀ a, x ∉ (s'.ai a).ai_ail1_list ∧ x ∉ (s'.ai a).ai_ail2_list) ∧
        (s'.bh x).b_count = (sample_synced.bh x).b_count -
          (if (sample_synced.bh x).b_count = 0 then 0 else 1)) ∧
      (s'.gl 0).gl_ail_list = [] ∧ (s'.gl 0).gl_ail_count = 0 ∧
      s'.withdraws = sample_synced.withdraws ∧
      s'.SDF_SHUTDOWN = sample_synced.SDF_SHUTDOWN :=
  ail_empty_gl_revokes_each_member sample_synced 0 3 3 (by decide) (by decide) (by decide)
    (by decide) (by decide) (by decide) (by decide) (by decide)

/-- The run of C4 at the instance of the spec, evaluated. -/
theorem ail_empty_gl_example :
    ∃ s', gfs2_ail_empty_gl 3 0 sample_synced 0 = .ok s' ∧
      s'.trans_log = [log_event.trans_begin 0 3, log_event.trans_add_revoke 12,
        log_event.trans_add_revoke 11, log_event.trans_add_revoke 10,
        log_event.trans_end, log_event.log_flush] ∧
      (s'.gl 0).gl_ail_list = [] ∧ (s'.gl 0).gl_ail_count = 0 ∧
      (s'.ai 1).ai_ail2_list = [] :=
  ⟨_, rfl, by decide, by decide, by decide, by decide⟩

/-! ## Withdraw assertions do not end the call -/

/-- The blocks of `gfs2_dwrite` in order. -/
theorem gfs2_dwrite_blocks (sto : Storage) (s : gfs2_sbd) (b : Nat) (flags : dio_flags) :
    gfs2_dwrite sto s b flags =
      if s.SDF_ROFS then (- EIO, gfs2_assert_warn s (!s.SDF_ROFS))
      else if s.SDF_SHUTDOWN then (- EIO, s)
      else if flags.DIO_DIRTY && !((dwrite_cleaned sto s b flags).bh b).BH_Uptodate then
        (- EIO, gfs2_assert_warn (dwrite_cleaned sto s b flags)
          ((dwrite_cleaned sto s b flags).bh b).BH_Uptodate)
      else if flags.DIO_WAIT then dwrite_waited sto (dwrite_started sto s b flags) b
      else (0, dwrite_started sto s b flags) := rfl

theorem dwrite_waited_zero_or_eio (sto : Storage) (s : gfs2_sbd) (b : Nat) :
    ((dwrite_waited sto s b).1 = 0 ∧
      ((dwrite_waited sto s b).2.bh b).BH_Uptodate = true ∧
      ((dwrite_waited sto s b).2.bh b).BH_Dirty = false) ∨
    (dwrite_waited sto s b).1 = - EIO := by
  unfold dwrite_waited
  generalize wait_on_buffer sto s b = w
  by_cases h1 : (!(w.bh b).BH_Uptodate || (w.bh b).BH_Dirty) = true
  · right; simp only [h1, if_true]
  · by_cases h2 : w.SDF_SHUTDOWN = true
    · right; simp [h1, h2]
    · left
      simp only [Bool.or_eq_true, Bool.not_eq_true', not_or, Bool.not_eq_false,
        Bool.not_eq_true] at h1
      simp [h1, h2]

/-- C7: a `gfs2_dwrite` with DIO_WAIT has two outcomes only: it returns 0 and the
buffer is uptodate and not dirty, or it returns -EIO.  In particular this holds for
the call with DIO_START | DIO_WAIT that follows a call with DIO_DIRTY, whatever the
first call returned and whatever the storage did. -/
theorem dwrite_wait_zero_or_eio (sto : Storage) (sdp : gfs2_sbd) (b : Nat)
    (flags : dio_flags) (hwait : flags.DIO_WAIT = true) :
    (((gfs2_dwrite sto sdp b flags).1 = 0 ∧
        ((gfs2_dwrite sto sdp b flags).2.bh b).BH_Uptodate = true ∧
        ((gfs2_dwrite sto sdp b flags).2.bh b).BH_Dirty = false) ∨
      (gfs2_dwrite sto sdp b flags).1 = - EIO) ∧
    (((gfs2_dwrite sto (gfs2_dwrite sto sdp b { DIO_DIRTY := true }).2 b
          { DIO_START := true, DIO_WAIT := true }).1 = 0 ∧
        ((gfs2_dwrite sto (gfs2_dwrite sto sdp b { DIO_DIRTY := true }).2 b
          { DIO_START := true, DIO_WAIT := true }).2.bh b).BH_Uptodate = true ∧
        ((gfs2_dwrite sto (gfs2_dwrite sto sdp b { DIO_DIRTY := true }).2 b
          { DIO_START := true, DIO_WAIT := true }).2.bh b).BH_Dirty = false) ∨
      (gfs2_dwrite sto (gfs2_dwrite sto sdp b { DIO_DIRTY := true }).2 b
          { DIO_START := true, DIO_WAIT := true }).1 = - EIO) := by
  have key : ∀ (s : gfs2_sbd) (fl : dio_flags), fl.DIO_WAIT = true →
      (((gfs2_dwrite sto s b fl).1 = 0 ∧
        ((gfs2_dwrite sto s b fl).2.bh b).BH_Uptodate = true ∧
        ((gfs2_dwrite sto s b fl).2.bh b).BH_Dirty = false) ∨
      (gfs2_dwrite sto s b fl).1 = - EIO) := by
    intro s fl hw
    rw [gfs2_dwrite_blocks]
    simp only [hw, if_true]
    split_ifs
    · right; rfl
    · right; rfl
    · right; rfl
    · exact dwrite_waited_zero_or_eio sto _ b
  exact ⟨key sdp flags hwait, key _ _ rfl⟩

/-- C7 at the example: on a storage that completes writes, the dirty buffer 10 is
written by DIO_START | DIO_WAIT and the call returns 0. -/
theorem dwrite_wait_zero_or_eio_witness :
    (gfs2_dwrite storage_sync_ok sample_dirty 10 { DIO_START := true, DIO_WAIT := true }).1 = 0 ∧
    ((gfs2_dwrite storage_sync_ok sample_dirty 10
      { DIO_START := true, DIO_WAIT := true }).2.bh 10).BH_Uptodate = true ∧
    ((gfs2_dwrite storage_sync_ok sample_dirty 10
      { DIO_START := true, DIO_WAIT := true }).2.bh 10).BH_Dirty = false :=
  ((dwrite_wait_zero_or_eio storage_sync_ok sample_dirty 10
    { DIO_START := true, DIO_WAIT := true } rfl).1).resolve_right (by decide)

/-- Both outcomes of C7 occur: DIO_DIRTY then DIO_START | DIO_WAIT returns 0 on a
storage that completes the write and -EIO on one that fails it. -/
theorem dwrite_dirty_then_start_wait_examples :
    (gfs2_dwrite storage_sync_ok (gfs2_dwrite storage_sync_ok sample_dirty 10
      { DIO_DIRTY := true }).2 10 { DIO_START := true, DIO_WAIT := true }).1 = 0 ∧
    (gfs2_dwrite storage_sync_fail (gfs2_dwrite storage_sync_fail sample_dirty 10
      { DIO_DIRTY := true }).2 10 { DIO_START := true, DIO_WAIT := true }).1 = - EIO ∧
    (gfs2_dwrite storage_async_ok (gfs2_dwrite storage_async_ok sample_dirty 10
      { DIO_DIRTY := true }).2 10 { DIO_START := true, DIO_WAIT := true }).1 = 0 := by
  decide

/-- C8: with the shutdown flag set at entry, `gfs2_dreread` and `gfs2_dwrite` return
-EIO whatever the flags, `gfs2_dreread` leaves the whole state as it was, and
`gfs2_dwrite` issues no transfer and leaves every buffer as it was; the same holds
for `gfs2_dwrite` on a read-only filesystem. -/
theorem shutdown_and_rofs_fail_without_io (sto : Storage) (sdp : gfs2_sbd) (b : Nat)
    (flags : dio_flags) :
    (sdp.SDF_SHUTDOWN = true →
      gfs2_dreread sto sdp b flags = (- EIO, sdp) ∧
      (gfs2_dwrite sto sdp b flags).1 = - EIO ∧
      (gfs2_dwrite sto sdp b flags).2.bh = sdp.bh ∧
      (gfs2_dwrite sto sdp b flags).2.io_log = sdp.io_log) ∧
    (sdp.SDF_ROFS = true →
      (gfs2_dwrite sto sdp b flags).1 = - EIO ∧
      (gfs2_dwrite sto sdp b flags).2.bh = sdp.bh ∧
      (gfs2_dwrite sto sdp b flags).2.io_log = sdp.io_log) := by
  constructor
  · intro h
    unfold gfs2_dreread gfs2_dwrite
    by_cases hro : sdp.SDF_ROFS = true <;> simp [h, hro]
  · intro h
    unfold gfs2_dwrite
    simp [h]

/-- C8 at the example of a filesystem that is shut down and read-only, with every
flag bit set. -/
theorem shutdown_and_rofs_fail_without_io_witness :
    (gfs2_dreread storage_sync_ok sample_shutdown 10
        ⟨true, true, true, true, true, true⟩ = (- EIO, sample_shutdown) ∧
      (gfs2_dwrite storage_sync_ok sample_shutdown 10 ⟨true, true, true, true, true, true⟩).1
        = - EIO ∧
      (gfs2_dwrite storage_sync_ok sample_shutdown 10 ⟨true, true, true, true, true, true⟩).2.bh
        = sample_shutdown.bh ∧
      (gfs2_dwrite storage_sync_ok sample_shutdown 10
        ⟨true, true, true, true, true, true⟩).2.io_log = sample_shutdown.io_log) ∧
    ((gfs2_dwrite storage_sync_ok sample_shutdown 10 ⟨true, true, true, true, true, true⟩).1
        = - EIO ∧
      (gfs2_dwrite storage_sync_ok sample_shutdown 10 ⟨true, true, true, true, true, true⟩).2.bh
        = sample_shutdown.bh ∧
      (gfs2_dwrite storage_sync_ok sample_shutdown 10
        ⟨true, true, true, true, true, true⟩).2.io_log = sample_shutdown.io_log) :=
  ⟨(shutdown_and_rofs_fail_without_io storage_sync_ok sample_shutdown 10
      ⟨true, true, true, true, true, true⟩).1 rfl,
   (shutdown_and_rofs_fail_without_io storage_sync_ok sample_shutdown 10
      ⟨true, true, true, true, true, true⟩).2 rfl⟩

/-- C10: `gfs2_dunpin` called with a NULL AIL entry never returns: the statement
`list_add(&bd->bd_ail_st_list, &ai->ai_ail1_list)` is reached on every path that
gets past `bd->bd_ail`, and it dereferences the NULL entry.  The call documented as
"don't attach buffer to any AIL list" therefore faults instead of completing. -/
theorem dunpin_null_ail_faults (sdp : gfs2_sbd) (b : Nat) :
    gfs2_dunpin sdp b none = .error .null_deref := by
  unfold gfs2_dunpin
  simp only
  split <;> rfl

/-! ## Pinning a buffer that is in the AIL -/

theorem keeps_refl {s : gfs2_sbd} (h : ail_inv s) : keeps s s := ⟨h, fun _ _ _ k => k⟩

theorem keeps_trans {s s1 s2 : gfs2_sbd} (h1 : keeps s s1) (h2 : keeps s1 s2) : keeps s s2 :=
  ⟨h2.1, fun x c hc k => h2.2 x c hc (h1.2 x c hc k)⟩

/-- A step that touches no bufdata and no list and leaves each buffer the references
it has apart from the pin's and the block layer's. -/
theorem keeps_of_frame {s s' : gfs2_sbd} (h : ail_inv s) (hbd : s'.bd = s.bd)
    (hgl : s'.gl = s.gl) (hai : s'.ai = s.ai)
    (hbh : ∀ x, ref_base (s'.bh x) = ref_base (s.bh x)) : keeps s s' :=
  ⟨ail_inv_congr h (ail_of_congr hbd) (gl_of_congr hbd) hgl hai,
   fun x _ _ k => ref_ok_congr k (hbh x) (ail_of_congr hbd x)⟩

theorem keeps_congr {s s1 s2 : gfs2_sbd} (h : keeps s s1) (hbd : s2.bd = s1.bd)
    (hgl : s2.gl = s1.gl) (hai : s2.ai = s1.ai)
    (hbh : ∀ x, ref_base (s2.bh x) = ref_base (s1.bh x)) : keeps s s2 :=
  keeps_trans h (keeps_of_frame h.1 hbd hgl hai hbh)

theorem promote_one_keeps (a : Nat) (s : gfs2_sbd) (x : Nat) (h : ail_inv s)
    (hx : ail_of s x = some a) : keeps s (promote_one a s x) :=
  ⟨promote_one_inv a s x h hx, fun y c _ k => promote_one_ref a s x y c k⟩

theorem write_back_keeps (sto : Storage) (a : Nat) (s : gfs2_sbd) (b : Nat) (h : ail_inv s)
    (hb : ail_of s b = some a) : keeps s (write_back sto a s b) :=
  ⟨write_back_inv sto a s b h hb, fun y c _ k => write_back_ref sto a s b y c k⟩

theorem isSome_of_ail_of {s : gfs2_sbd} {b : Nat} (h : ail_of s b ≠ none) :
    (s.bd b).isSome := by
  unfold ail_of at h
  cases hb : s.bd b with
  | none => simp [hb] at h
  | some d => rfl

theorem gl_of_of_isSome {s : gfs2_sbd} {b : Nat} (h : (s.bd b).isSome) :
    ∃ g, gl_of s b = some g := by
  unfold gl_of
  cases hb : s.bd b with
  | none => simp [hb] at h
  | some d => exact ⟨d.bd_gl, rfl⟩

theorem release_one_keeps (s : gfs2_sbd) (b : Nat) (h : ail_inv s)
    (hb : ail_of s b ≠ none) : keeps s (release_one s b) := by
  have hs := isSome_of_ail_of hb
  obtain ⟨g0, hg0⟩ := gl_of_of_isSome hs
  constructor
  · apply ail_inv_detach h b g0 hb hg0 (release_one_ail_of s b) (release_one_gl_of s b)
    · intro g
      rw [release_one_gl s b g hs, hg0]
      constructor
      · rfl
      · by_cases e : g = g0
        · simp [e]
        · have e2 : ¬ g0 = g := fun k => e k.symm
          simp [e, e2]
    · intro a
      rw [release_one_ai s b a hs]
      exact ⟨rfl, rfl⟩
  · intro x c hc k
    unfold ref_ok at *
    rw [release_one_bh s b x hs, release_one_ail_of]
    by_cases hx : x = b
    · subst hx
      have : (ail_of s x).isSome = true := by
        cases e : ail_of s x with
        | none => exact absurd e hb
        | some _ => rfl
      rw [this] at k
      have hne : (s.bh x).b_count ≠ 0 := by
        intro e0
        rw [e0] at k
        simp only [if_true] at k
        split_ifs at k <;> omega
      simp only [hne, ne_eq, not_false_eq_true, and_self, if_true, Option.isSome_none,
        Bool.false_eq_true, if_false] at k ⊢
      omega
    · simp only [hx, false_and, if_false]
      simpa using k

theorem revoke_one_proj (g : Nat) (s : gfs2_sbd) (b : Nat) (hown : gl_of s b = some g) :
    (revoke_one g s b).bd = (release_one s b).bd ∧
    (revoke_one g s b).gl = (release_one s b).gl ∧
    (revoke_one g s b).ai = (release_one s b).ai ∧
    (revoke_one g s b).bh = (release_one s b).bh := by
  unfold revoke_one release_one
  unfold gl_of at hown
  cases hb : s.bd b with
  | none => simp [hb] at hown
  | some d =>
    have hg : d.bd_gl = g := by simpa [hb] using hown
    subst hg
    refine ⟨?_, ?_, ?_, ?_⟩
    · funext x; simp
    · funext x; simp
    · funext x; simp
    · funext x; simp

theorem revoke_one_keeps (g : Nat) (s : gfs2_sbd) (b : Nat) (h : ail_inv s)
    (hb : b ∈ (s.gl g).gl_ail_list) : keeps s (revoke_one g s b) := by
  have hm := (h.gl_mem g b).mp hb
  have hp := revoke_one_proj g s b hm.1
  exact keeps_congr (release_one_keeps s b h hm.2) hp.1 hp.2.1 hp.2.2.1
    (fun x => by rw [hp.2.2.2])

theorem ail1_empty_scan_keeps (a : Nat) (flags : dio_flags) :
    ∀ (xs : List Nat) (s : gfs2_sbd), ail_inv s → (∀ x ∈ xs, ail_of s x = some a) →
      ∃ s', ail1_empty_scan a flags xs s = .ok s' ∧ keeps s s' := by
  intro xs
  induction xs with
  | nil => intro s h _; exact ⟨s, rfl, keeps_refl h⟩
  | cons x rest ih =>
    intro s h hwf
    have hx := hwf x (List.mem_cons_self _ _)
    obtain ⟨d, hd, hda⟩ := ail_of_eq_some hx
    by_cases hbusy : buffer_busy (s.bh x) = true
    · by_cases hall : flags.DIO_ALL = true
      · have e : ail1_empty_scan a flags (x :: rest) s = ail1_empty_scan a flags rest s := by
          simp [ail1_empty_scan, hd, hda, hbusy, hall]
        rw [e]
        exact ih s h (fun y hy => hwf y (List.mem_cons_of_mem _ hy))
      · have e : ail1_empty_scan a flags (x :: rest) s = .ok s := by
          simp [ail1_empty_scan, hd, hda, hbusy, hall]
        exact ⟨s, e, keeps_refl h⟩
    · have e : ail1_empty_scan a flags (x :: rest) s =
          ail1_empty_scan a flags rest (promote_one a s x) := by
        simp [ail1_empty_scan, hd, hda, hbusy, promote_one]
      rw [e]
      have k := promote_one_keeps a s x h hx
      obtain ⟨s', hs', k'⟩ := ih (promote_one a s x) k.1 (by
        intro y hy
        rw [ail_of_congr (promote_one_bd a s x)]
        exact hwf y (List.mem_cons_of_mem _ hy))
      exact ⟨s', hs', keeps_trans k k'⟩

theorem pending_wf {s : gfs2_sbd} (h : ail_inv s) (a : Nat) :
    ∀ x ∈ (s.ai a).ai_ail1_list.reverse, ail_of s x = some a := by
  intro x hx
  exact (h.st_mem a x).mp (Or.inl (List.mem_reverse.mp hx))

theorem ail1_empty_one_keeps (s : gfs2_sbd) (a : Nat) (flags : dio_flags) (h : ail_inv s) :
    ∃ r s', gfs2_ail1_empty_one s a flags = .ok (r, s') ∧ keeps s s' := by
  obtain ⟨s', hs', k⟩ := ail1_empty_scan_keeps a flags _ s h (pending_wf h a)
  exact ⟨(s'.ai a).ai_ail1_list.isEmpty, s', by simp [gfs2_ail1_empty_one, hs'], k⟩

theorem ail1_start_scan_keeps (sto : Storage) (a : Nat) :
    ∀ (xs : List Nat) (s : gfs2_sbd), ail_inv s → (∀ x ∈ xs, ail_of s x = some a) →
      ∃ r s', ail1_start_scan sto a xs s = .ok (r, s') ∧ keeps s s' := by
  intro xs
  induction xs with
  | nil => intro s h _; exact ⟨false, s, rfl, keeps_refl h⟩
  | cons x rest ih =>
    intro s h hwf
    have hx := hwf x (List.mem_cons_self _ _)
    obtain ⟨d, hd, hda⟩ := ail_of_eq_some hx
    by_cases hbusy : buffer_busy (s.bh x) = true
    · by_cases hdirty : (s.bh x).BH_Dirty = true
      · have e : ail1_start_scan sto a (x :: rest) s = .ok (true, write_back sto a s x) := by
          simp [ail1_start_scan, hd, hda, hbusy, hdirty, write_back]
        exact ⟨true, _, e, write_back_keeps sto a s x h hx⟩
      · have e : ail1_start_scan sto a (x :: rest) s = ail1_start_scan sto a rest s := by
          simp [ail1_start_scan, hd, hda, hbusy, hdirty]
        rw [e]
        exact ih s h (fun y hy => hwf y (List.mem_cons_of_mem _ hy))
    · have e : ail1_start_scan sto a (x :: rest) s =
          ail1_start_scan sto a rest (promote_one a s x) := by
        simp [ail1_start_scan, hd, hda, hbusy, promote_one]
      rw [e]
      have k := promote_one_keeps a s x h hx
      obtain ⟨r, s', hs', k'⟩ := ih (promote_one a s x) k.1 (by
        intro y hy
        rw [ail_of_congr (promote_one_bd a s x)]
        exact hwf y (List.mem_cons_of_mem _ hy))
      exact ⟨r, s', hs', keeps_trans k k'⟩

theorem ail1_start_one_keeps (sto : Storage) (a : Nat) :
    ∀ (fuel : Nat) (s : gfs2_sbd), ail_inv s →
      gfs2_ail1_start_one sto fuel s a = .error .no_fuel ∨
      ∃ s', gfs2_ail1_start_one sto fuel s a = .ok s' ∧ keeps s s' := by
  intro fuel
  induction fuel with
  | zero => intro s _; exact Or.inl rfl
  | succ n ih =>
    intro s h
    obtain ⟨r, s1, hs1, k⟩ := ail1_start_scan_keeps sto a _ s h (pending_wf h a)
    cases r with
    | false => exact Or.inr ⟨s1, by simp [gfs2_ail1_start_one, hs1], k⟩
    | true =>
      have e : gfs2_ail1_start_one sto (n + 1) s a = gfs2_ail1_start_one sto n s1 a := by
        simp [gfs2_ail1_start_one, hs1]
      rw [e]
      rcases ih s1 k.1 with h1 | ⟨s', hs', k'⟩
      · exact Or.inl h1
      · exact Or.inr ⟨s', hs', keeps_trans k k'⟩

theorem ail2_empty_one_keeps (a : Nat) :
    ∀ (fuel : Nat) (s : gfs2_sbd), ail_inv s →
      gfs2_ail2_empty_one fuel s a = .error .no_fuel ∨
      ∃ s', gfs2_ail2_empty_one fuel s a = .ok s' ∧ keeps s s' := by
  intro fuel
  induction fuel with
  | zero =>
    intro s h
    cases hl : (s.ai a).ai_ail2_list.getLast? with
    | none => exact Or.inr ⟨s, by unfold gfs2_ail2_empty_one; simp [hl], keeps_refl h⟩
    | some b => exact Or.inl (by unfold gfs2_ail2_empty_one; simp [hl])
  | succ n ih =>
    intro s h
    cases hl : (s.ai a).ai_ail2_list.getLast? with
    | none => exact Or.inr ⟨s, by unfold gfs2_ail2_empty_one; simp [hl], keeps_refl h⟩
    | some b =>
      have hb : ail_of s b = some a :=
        (h.st_mem a b).mp (Or.inr (List.mem_of_getLast?_eq_some hl))
      obtain ⟨d, hd, hda⟩ := ail_of_eq_some hb
      have e : gfs2_ail2_empty_one (n + 1) s a = gfs2_ail2_empty_one n (release_one s b) a := by
        rw [gfs2_ail2_empty_one]
        simp [hl, hd, hda, release_one]
      rw [e]
      have k := release_one_keeps s b h (by rw [hb]; simp)
      rcases ih (release_one s b) k.1 with h1 | ⟨s', hs', k'⟩
      · exact Or.inl h1
      · exact Or.inr ⟨s', hs', keeps_trans k k'⟩

theorem ail_empty_gl_loop_keeps (g : Nat) :
    ∀ (fuel : Nat) (s : gfs2_sbd), ail_inv s →
      ail_empty_gl_loop fuel s g = .error .no_fuel ∨
      ∃ s', ail_empty_gl_loop fuel s g = .ok s' ∧ keeps s s' := by
  intro fuel
  induction fuel with
  | zero =>
    intro s h
    cases hl : (s.gl g).gl_ail_list.head? with
    | none => exact Or.inr ⟨s, by unfold ail_empty_gl_loop; simp [hl], keeps_refl h⟩
    | some b => exact Or.inl (by unfold ail_empty_gl_loop; simp [hl])
  | succ n ih =>
    intro s h
    cases hl : (s.gl g).gl_ail_list.head? with
    | none => exact Or.inr ⟨s, by unfold ail_empty_gl_loop; simp [hl], keeps_refl h⟩
    | some b =>
      have hb : b ∈ (s.gl g).gl_ail_list := List.mem_of_mem_head? hl
      have hm := (h.gl_mem g b).mp hb
      obtain ⟨d, hd⟩ := Option.isSome_iff_exists.mp (isSome_of_ail_of hm.2)
      have e : ail_empty_gl_loop (n + 1) s g = ail_empty_gl_loop n (revoke_one g s b) g := by
        rw [ail_empty_gl_loop]
        simp [hl, hd, revoke_one]
      rw [e]
      have k := revoke_one_keeps g s b h hb
      rcases ih (revoke_one g s b) k.1 with h1 | ⟨s', hs', k'⟩
      · exact Or.inl h1
      · exact Or.inr ⟨s', hs', keeps_trans k k'⟩

theorem ail_empty_gl_keeps (fuel : Nat) (error : Int) (s : gfs2_sbd) (g : Nat)
    (h : ail_inv s) :
    gfs2_ail_empty_gl fuel error s g = .error .no_fuel ∨
    ∃ s', gfs2_ail_empty_gl fuel error s g = .ok s' ∧ keeps s s' := by
  unfold gfs2_ail_empty_gl
  simp only
  split
  · exact Or.inr ⟨s, rfl, keeps_refl h⟩
  · have k0 : keeps s (gfs2_assert_withdraw (gfs2_trans_begin s error
        ((s.gl g).gl_ail_count % 4294967296).toNat) (decide (error = 0))) :=
      keeps_of_frame h (by simp) (by simp) (by simp) (by intro x; simp)
    split
    · exact Or.inr ⟨_, rfl, k0⟩
    · rcases ail_empty_gl_loop_keeps g fuel _ k0.1 with h1 | ⟨s', hs', k'⟩
      · left; rw [h1]
      · right
        rw [hs']
        refine ⟨_, rfl, ?_⟩
        exact keeps_congr (keeps_trans k0 k') (by simp) (by simp) (by simp)
          (by intro x; simp)

theorem dpin_proj (sto : Storage) (s : gfs2_sbd) (b : Nat) (s' : gfs2_sbd)
    (h : gfs2_dpin sto s b = .ok s') :
    s'.bd = s.bd ∧ s'.gl = s.gl ∧
    (s'.ai = s.ai ∨ ∃ a, ail_of s b = some a ∧ s'.ai = (list_move_ail2 s b a).ai) ∧
    (∀ x, (s'.bh x).b_count = (s.bh x).b_count +
      (if x = b then 1 else 0) - (if x = b ∧ (s.bh b).BH_Lock = true then 1 else 0)) ∧
    (∀ x, (s'.bh x).BH_Pinned = if x = b then true else (s.bh x).BH_Pinned) ∧
    (∀ x, (s'.bh x).BH_Lock = if x = b then false else (s.bh x).BH_Lock) ∧
    (s'.withdraws = s.withdraws → (s.bh b).BH_Pinned = false) := by
  unfold gfs2_dpin at h
  simp only [ite_assert_withdraw, wait_on_buffer_bd, set_buffer_pinned, set_bh_bd,
    gfs2_assert_withdraw_bd] at h
  cases hbd : s.bd b with
  | none => rw [hbd] at h; simp at h
  | some d =>
    rw [hbd] at h
    simp only [] at h
    cases hail : d.bd_ail with
    | none =>
      rw [hail] at h
      simp only [] at h
      injection h with h
      subst h
      refine ⟨?_, ?_, ?_, ?_, ?_, ?_, ?_⟩
      · simp [(ite_io_error_bh _ _ _).2.1]
      · simp [(ite_io_error_bh _ _ _).2.2.1]
      · left; simp [(ite_io_error_bh _ _ _).2.2.2]
      · intro x
        by_cases hx : x = b
        · simp [(ite_io_error_bh _ _ _).1, hx]
          split <;> omega
        · simp [(ite_io_error_bh _ _ _).1, hx]
      · intro x
        by_cases hx : x = b <;> simp [(ite_io_error_bh _ _ _).1, hx]
      · intro x
        by_cases hx : x = b <;> simp [(ite_io_error_bh _ _ _).1, hx]
      · cases hp : (s.bh b).BH_Pinned <;> simp [apply_ite gfs2_sbd.withdraws, hp]
        omega
    | some a =>
      rw [hail] at h
      simp only [] at h
      injection h with h
      subst h
      have hb : ail_of s b = some a := by simp [ail_of, hbd, hail]
      refine ⟨?_, ?_, ?_, ?_, ?_, ?_, ?_⟩
      · simp [(ite_io_error_bh _ _ _).2.1, apply_ite gfs2_sbd.bd]
      · simp [(ite_io_error_bh _ _ _).2.2.1, apply_ite gfs2_sbd.gl]
      · simp only [(ite_io_error_bh _ _ _).2.2.2, get_bh, clear_buffer_dirty, set_bh_ai,
          wait_on_buffer_ai, apply_ite gfs2_sbd.ai]
        split
        · right
          refine ⟨a, hb, ?_⟩
          funext a'
          by_cases ha : a' = a <;> simp [ha]
        · left; simp
      · intro x
        by_cases hx : x = b
        · simp [(ite_io_error_bh _ _ _).1, hx, apply_ite gfs2_sbd.bh]
          split <;> omega
        · simp [(ite_io_error_bh _ _ _).1, hx, apply_ite gfs2_sbd.bh]
      · intro x
        by_cases hx : x = b <;> simp [(ite_io_error_bh _ _ _).1, hx, apply_ite gfs2_sbd.bh]
      · intro x
        by_cases hx : x = b <;> simp [(ite_io_error_bh _ _ _).1, hx, apply_ite gfs2_sbd.bh]
      · cases hp : (s.bh b).BH_Pinned <;> simp [apply_ite gfs2_sbd.withdraws, hp]
        omega

theorem dpin_keeps (sto : Storage) (s : gfs2_sbd) (b : Nat) (s' : gfs2_sbd)
    (h : ail_inv s) (hs : gfs2_dpin sto s b = .ok s') :
    ail_inv s' ∧ (s'.withdraws = s.withdraws → ∀ x c, 0 ≤ c → ref_ok s x c → ref_ok s' x c) := by
  obtain ⟨hbd, hgl, hai, hcnt, hpin, hlock, hw⟩ := dpin_proj sto s b s' hs
  constructor
  · rcases hai with hai | ⟨a, hb, hai⟩
    · exact ail_inv_congr h (ail_of_congr hbd) (gl_of_congr hbd) hgl hai
    · apply ail_inv_move h b a true hb (ail_of_congr hbd) (gl_of_congr hbd) hgl
      intro a'
      rw [hai]
      by_cases ha : a' = a <;> simp [ha]
  · intro hwd x c _ k
    have hp := hw hwd
    refine ref_ok_congr k ?_ (ail_of_congr hbd x)
    simp only [ref_base, hcnt x, hpin x, hlock x]
    by_cases hx : x = b
    · subst hx
      simp only [if_true, hp, true_and]
      split_ifs <;> simp_all
    · simp [hx]

theorem dunpin_keeps (s : gfs2_sbd) (b a : Nat) (s' : gfs2_sbd)
    (h : ail_inv s) (hs : gfs2_dunpin s b (some a) = .ok s') :
    ail_inv s' ∧ (s'.withdraws = s.withdraws → ∀ x c, 0 ≤ c → ref_ok s x c → ref_ok s' x c) := by
  unfold gfs2_dunpin at hs
  simp only [ite_assert_withdraw, mark_buffer_dirty, clear_buffer_pinned, set_bh_bd,
    gfs2_assert_withdraw_bd] at hs
  cases hbd : s.bd b with
  | none => rw [hbd] at hs; simp at hs
  | some d =>
    rw [hbd] at hs
    simp only [] at hs
    have hgo : gl_of s b = some d.bd_gl := by simp [gl_of, hbd]
    cases hail : d.bd_ail with
    | none =>
      rw [hail] at hs
      simp only [] at hs
      injection hs with hs
      subst hs
      have hb : ail_of s b = none := by simp [ail_of, hbd, hail]
      constructor
      · apply ail_inv_attach h b a d.bd_gl hb hgo
        · intro x
          by_cases hx : x = b <;> simp [ail_of, hx]
        · intro x
          by_cases hx : x = b <;> simp [gl_of, hx, hbd]
        · intro g
          by_cases hg : g = d.bd_gl <;> simp [hg]
        · intro a'
          by_cases ha : a' = a <;> simp [ha]
      · intro hwd x c _ k
        have hp : (s.bh b).BH_Pinned = true := by
          cases hp : (s.bh b).BH_Pinned
          · simp [hp] at hwd
            omega
          · rfl
        unfold ref_ok at *
        by_cases hx : x = b
        · subst hx
          rw [hp, hb] at k
          simp [ail_of] at k ⊢
          omega
        · simpa [ail_of, hx] using k
    | some a0 =>
      rw [hail] at hs
      simp only [] at hs
      injection hs with hs
      subst hs
      have hb : ail_of s b = some a0 := by simp [ail_of, hbd, hail]
      constructor
      · apply ail_inv_transfer h b a (by rw [hb]; simp)
        · intro x
          by_cases hx : x = b <;> simp [ail_of, hx]
        · intro x
          by_cases hx : x = b <;> simp [gl_of, hx, hbd]
        · funext g; simp
        · intro a'
          by_cases ha : a' = a <;> simp [ha]
      · intro hwd x c hc k
        have hp : (s.bh b).BH_Pinned = true := by
          cases hp : (s.bh b).BH_Pinned
          · simp [hp] at hwd
            omega
          · rfl
        unfold ref_ok at *
        by_cases hx : x = b
        · subst hx
          rw [hp, hb] at k
          have hne : (s.bh x).b_count ≠ 0 := by
            intro e0
            rw [e0] at k
            simp only [if_true, Option.isSome_some] at k
            split_ifs at k <;> omega
          simp [ail_of, hne] at k ⊢
          omega
        · simpa [ail_of, hx] using k

theorem ref_ok_shift {s s' : gfs2_sbd} {x : Nat} {c c' : Int} (k : ref_ok s x c)
    (ha : ail_of s' x = ail_of s x)
    (hc : ref_base (s'.bh x) - c' = ref_base (s.bh x) - c) : ref_ok s' x c' := by
  rw [ref_ok_iff] at *
  rw [ha]
  omega

theorem ref_ok_count_pos {s : gfs2_sbd} {x : Nat} {c : Int} (k : ref_ok s x c)
    (hc : 0 < c ∨ (0 ≤ c ∧ ((s.bh x).BH_Pinned = true ∨ (ail_of s x).isSome = true))) :
    0 < (s.bh x).b_count - (if (s.bh x).BH_Lock then 1 else 0) := by
  unfold ref_ok at k
  rw [k]
  rcases hc with h | ⟨h0, h | h⟩
  · split_ifs <;> omega
  · rw [h]
    simp only [if_true]
    split_ifs <;> omega
  · rw [h]
    simp only [if_true]
    split_ifs <;> omega

theorem getbuf_spec (cache : Nat → Option Nat) (s : gfs2_sbd) (blkno : Nat) :
    (getbuf cache s blkno).2.bd = s.bd ∧ (getbuf cache s blkno).2.gl = s.gl ∧
    (getbuf cache s blkno).2.ai = s.ai ∧
    (getbuf cache s blkno).2.withdraws = s.withdraws ∧
    (getbuf cache s blkno).1 = cache blkno ∧
    ∀ x, ((getbuf cache s blkno).2.bh x).b_count =
        (s.bh x).b_count + (if cache blkno = some x then 1 else 0) ∧
      ((getbuf cache s blkno).2.bh x).BH_Pinned = (s.bh x).BH_Pinned ∧
      ((getbuf cache s blkno).2.bh x).BH_Lock = (s.bh x).BH_Lock := by
  unfold getbuf
  cases hc : cache blkno with
  | none => simp
  | some b =>
    simp only [map_bh]
    refine ⟨?_, ?_, ?_, ?_, ?_, ?_⟩
    · split
      · simp
      · split <;> simp
    · split
      · simp
      · split <;> simp
    · split
      · simp
      · split <;> simp
    · split
      · simp
      · split <;> simp
    · split
      · simp
      · split <;> simp
    · intro x
      by_cases hx : x = b
      · subst hx
        split
        · simp
        · split <;> simp
      · have hx2 : ¬ b = x := fun k => hx k.symm
        split
        · simp [hx, hx2]
        · split <;> simp [hx, hx2]

theorem getbuf_base (cache : Nat → Option Nat) (s : gfs2_sbd) (blkno x : Nat) :
    ref_base ((getbuf cache s blkno).2.bh x) =
      ref_base (s.bh x) + (if cache blkno = some x then 1 else 0) := by
  obtain ⟨h1, h2, h3⟩ := (getbuf_spec cache s blkno).2.2.2.2.2 x
  simp only [ref_base, h1, h2, h3]
  omega

theorem buf_wipe_unpin_keeps (s : gfs2_sbd) (b : Nat) (s' : gfs2_sbd) (h : ail_inv s)
    (hs : buf_wipe_unpin s b = .ok s') : keeps s s' ∧ s'.withdraws = s.withdraws := by
  unfold buf_wipe_unpin at hs
  cases hp : (s.bh b).BH_Pinned with
  | false =>
    simp [hp] at hs
    subst hs
    exact ⟨keeps_refl h, rfl⟩
  | true =>
    simp only [hp, if_true] at hs
    cases hbd : s.bd b with
    | none => rw [hbd] at hs; simp at hs
    | some d =>
      rw [hbd] at hs
      simp only [] at hs
      split at hs
      · simp at hs
      · injection hs with hs
        subst hs
        refine ⟨⟨?_, ?_⟩, ?_⟩
        · apply ail_inv_congr h
          · intro x; simp [ail_of, list_del_init_le]
          · intro x; simp [gl_of, list_del_init_le]
          · simp [list_del_init_le]
          · simp [list_del_init_le]
        · intro x c hc k
          have hpos : x = b → (s.bh x).b_count ≠ 0 := by
            intro e
            have := ref_ok_count_pos k (Or.inr ⟨hc, Or.inl (e ▸ hp)⟩)
            split_ifs at this <;> omega
          refine ref_ok_shift k (ail_of_congr ?_ x) ?_
          · simp [list_del_init_le]
          · by_cases hx : x = b
            · subst hx
              simp [list_del_init_le, hp, ref_base, hpos rfl]
            · simp [list_del_init_le, hx]
        · simp [list_del_init_le]

theorem buf_wipe_ail_keeps (s : gfs2_sbd) (b : Nat) (h : ail_inv s) :
    keeps s (buf_wipe_ail s b) := by
  cases hbd : s.bd b with
  | none =>
    have e : buf_wipe_ail s b = s := by simp [buf_wipe_ail, hbd]
    rw [e]; exact keeps_refl h
  | some d =>
    cases hail : d.bd_ail with
    | none =>
      have e : buf_wipe_ail s b = s := by simp [buf_wipe_ail, hbd, hail]
      rw [e]; exact keeps_refl h
    | some a =>
      have hb : ail_of s b ≠ none := by simp [ail_of, hbd, hail]
      have e : buf_wipe_ail s b =
          log_call (release_one s b) (.trans_add_revoke (s.bh b).b_blocknr) := by
        simp [buf_wipe_ail, release_one, hbd, hail]
      rw [e]
      exact keeps_congr (release_one_keeps s b h hb) (by simp) (by simp) (by simp)
        (by intro x; simp)

theorem buf_wipe_bh_keeps (sto : Storage) (s : gfs2_sbd) (b : Nat) (s' : gfs2_sbd)
    (h : ail_inv s) (hs : buf_wipe_bh sto s b = .ok s') :
    ail_inv s' ∧
    ∀ x c, 0 ≤ c → ref_ok s x (c + if x = b then 1 else 0) → ref_ok s' x c := by
  unfold buf_wipe_bh at hs
  cases hu : buf_wipe_unpin s b with
  | error e => rw [hu] at hs; simp at hs
  | ok s1 =>
    rw [hu] at hs
    simp only [] at hs
    injection hs with hs
    subst hs
    have k1 := (buf_wipe_unpin_keeps s b s1 h hu).1
    have k2 := buf_wipe_ail_keeps s1 b k1.1
    constructor
    · apply ail_inv_congr k2.1
      · intro x; exact ail_of_congr (by simp) x
      · intro x; exact gl_of_congr (by simp) x
      · simp
      · simp
    · intro x c hc k
      have hc1 : 0 ≤ c + (if x = b then 1 else 0) := by split_ifs <;> omega
      have k3 := k2.2 x _ hc1 (k1.2 x _ hc1 k)
      have hpos : x = b → ((buf_wipe_ail s1 b).bh x).b_count -
          (if ((buf_wipe_ail s1 b).bh x).BH_Lock then 1 else 0) ≠ 0 := by
        intro e
        have := ref_ok_count_pos k3 (Or.inl (by simp [e]; omega))
        omega
      refine ref_ok_shift k3 (ail_of_congr ?_ x) ?_
      · simp
      · by_cases hx : x = b
        · subst hx
          have := hpos rfl
          simp [ref_base, this]
          split_ifs <;> omega
        · simp [hx]

theorem buf_wipe_keeps (sto : Storage) (cache : Nat → Option Nat) :
    ∀ (blen : Nat) (s : gfs2_sbd) (bstart : Nat) (s' : gfs2_sbd), ail_inv s →
      gfs2_buf_wipe sto cache s bstart blen = .ok s' → keeps s s' := by
  intro blen
  induction blen with
  | zero =>
    intro s bstart s' h hs
    simp [gfs2_buf_wipe] at hs
    subst hs
    exact keeps_refl h
  | succ n ih =>
    intro s bstart s' h hs
    obtain ⟨gbd, ggl, gai, _, gfst, _⟩ := getbuf_spec cache s bstart
    have gbase := getbuf_base cache s bstart
    have h1 : ail_inv (getbuf cache s bstart).2 :=
      ail_inv_congr h (ail_of_congr gbd) (gl_of_congr gbd) ggl gai
    rw [gfs2_buf_wipe] at hs
    cases hg : getbuf cache s bstart with
    | mk ob s1 =>
      rw [hg] at hs gbd gbase gfst h1
      simp only [] at gfst gbd gbase h1
      cases hob : ob with
      | none =>
        rw [hob] at hs
        simp only [] at hs
        have k1 : keeps s s1 := by
          refine ⟨h1, ?_⟩
          intro x c _ k
          refine ref_ok_shift k (ail_of_congr gbd x) ?_
          rw [gbase x, ← gfst, hob]
          simp
        exact keeps_trans k1 (ih s1 _ s' h1 hs)
      | some b =>
        rw [hob] at hs
        simp only [] at hs
        cases hw : buf_wipe_bh sto s1 b with
        | error e => rw [hw] at hs; simp at hs
        | ok s2 =>
          rw [hw] at hs
          simp only [] at hs
          have k2 := buf_wipe_bh_keeps sto s1 b s2 h1 hw
          have k12 : keeps s s2 := by
            refine ⟨k2.1, ?_⟩
            intro x c hc k
            apply k2.2 x c hc
            refine ref_ok_shift k (ail_of_congr gbd x) ?_
            rw [gbase x, ← gfst, hob]
            by_cases hx : x = b
            · subst hx
              simp only [if_true]
              omega
            · have hx2 : ¬ b = x := fun e => hx e.symm
              simp [hx, hx2]
          exact keeps_trans k12 (ih s2 _ s' k2.1 hs)

theorem ail_step_keeps {s s' : gfs2_sbd} (h : ail_inv s) (st : ail_step s s') :
    ail_inv s' ∧ (s'.withdraws = s.withdraws → ∀ x c, 0 ≤ c → ref_ok s x c → ref_ok s' x c) := by
  cases st with
  | dpin sto b hs => exact dpin_keeps sto s b s' h hs
  | dunpin b a hs => exact dunpin_keeps s b a s' h hs
  | ail1_start_one sto fuel a hs =>
    rcases ail1_start_one_keeps sto a fuel s h with h1 | ⟨s1, hs1, k⟩
    · rw [h1] at hs; cases hs
    · rw [hs1] at hs
      injection hs with hs
      subst hs
      exact ⟨k.1, fun _ => k.2⟩
  | ail1_empty_one a flags r hs =>
    obtain ⟨r1, s1, hs1, k⟩ := ail1_empty_one_keeps s a flags h
    rw [hs1] at hs
    injection hs with hs
    injection hs with _ hs
    subst hs
    exact ⟨k.1, fun _ => k.2⟩
  | ail2_empty_one fuel a hs =>
    rcases ail2_empty_one_keeps a fuel s h with h1 | ⟨s1, hs1, k⟩
    · rw [h1] at hs; cases hs
    · rw [hs1] at hs
      injection hs with hs
      subst hs
      exact ⟨k.1, fun _ => k.2⟩
  | ail_empty_gl fuel error g hs =>
    rcases ail_empty_gl_keeps fuel error s g h with h1 | ⟨s1, hs1, k⟩
    · rw [h1] at hs; cases hs
    · rw [hs1] at hs
      injection hs with hs
      subst hs
      exact ⟨k.1, fun _ => k.2⟩
  | buf_wipe sto cache bstart blen hs =>
    have k := buf_wipe_keeps sto cache blen s bstart s' h hs
    exact ⟨k.1, fun _ => k.2⟩

theorem reachable_inv {s0 s : gfs2_sbd} (h0 : ail_inv s0) (hr : reachable s0 s) :
    ail_inv s := by
  induction hr with
  | start => exact h0
  | step _ st ih => exact (ail_step_keeps ih st).1
  | io_end b ok _ _ ih => exact ail_inv_congr ih (fun _ => rfl) (fun _ => rfl) rfl rfl

theorem reachable_ok_keeps {s0 s : gfs2_sbd} (h0 : ail_inv s0) (hr : reachable_ok s0 s) :
    keeps s0 s := by
  induction hr with
  | start => exact keeps_refl h0
  | step _ st hw ih =>
    have k := ail_step_keeps ih.1 st
    exact ⟨k.1, fun x c hc r => k.2 hw x c hc (ih.2 x c hc r)⟩
  | io_end b ok _ hl ih =>
    refine keeps_congr ih ?_ ?_ ?_ ?_
    · rfl
    · rfl
    · rfl
    intro x
    by_cases hx : x = b
    · subst hx
      simp only [ref_base, end_buffer_io_bh, if_true, hl, Bool.false_eq_true, if_false]
      omega
    · simp [hx]

/-! ## Releasing a page: who waits and who gives up -/

theorem releasepage_wait_gives_up (sch : Sched) (g b stall fuel k t : Nat) (s : gfs2_sbd)
    (hc : (s.bh b).b_count ≠ 0) (hw : (s.gl g).i_writecount = 0) :
    releasepage_wait sch g b stall fuel k t s = .ok (true, fuel, k, s) := by
  unfold releasepage_wait
  simp [hc, hw]

theorem releasepage_wait_unreferenced (sch : Sched) (g b stall fuel k t : Nat) (s : gfs2_sbd)
    (hc : (s.bh b).b_count = 0) :
    releasepage_wait sch g b stall fuel k t s = .ok (false, fuel, k, s) := by
  unfold releasepage_wait
  simp [hc]

theorem releasepage_wait_round (sch : Sched) (g b stall fuel k t : Nat) (s : gfs2_sbd)
    (h : keeps_waiting g b s) :
    releasepage_wait sch g b stall (fuel + 1) k t s =
      releasepage_wait sch g b stall fuel (k + 1) (wait_round sch b stall k t s).1
        (wait_round sch b stall k t s).2 := by
  conv_lhs => unfold releasepage_wait
  simp [h.1, h.2, wait_round]

theorem releasepage_wait_no_fuel (sch : Sched) (g b stall k t : Nat) (s : gfs2_sbd)
    (h : keeps_waiting g b s) :
    releasepage_wait sch g b stall 0 k t s = .error .no_fuel := by
  unfold releasepage_wait
  simp [h.1, h.2]

/-- As long as the loop condition holds round after round, the wait loop goes on. -/
theorem releasepage_wait_unroll (sch : Sched) (g b stall : Nat) (m : Nat) :
    ∀ (fuel k t : Nat) (s : gfs2_sbd),
      (∀ j, j < m → keeps_waiting g b (wait_rounds sch b stall j k t s).2) →
      releasepage_wait sch g b stall (fuel + m) k t s =
        releasepage_wait sch g b stall fuel (k + m) (wait_rounds sch b stall m k t s).1
          (wait_rounds sch b stall m k t s).2 := by
  induction m with
  | zero => intro fuel k t s _; rfl
  | succ m ih =>
    intro fuel k t s h
    have h0 : keeps_waiting g b s := h 0 (Nat.succ_pos m)
    have e : fuel + (m + 1) = (fuel + m) + 1 := by omega
    rw [e, releasepage_wait_round sch g b stall _ k t s h0, ih]
    · have : k + 1 + m = k + (m + 1) := by omega
      rw [this]
      rfl
    · intro j hj
      exact h (j + 1) (Nat.succ_lt_succ hj)

theorem releasepage_wait_starves (sch : Sched) (g b stall : Nat) (m : Nat) :
    ∀ (fuel k t : Nat) (s : gfs2_sbd),
      (∀ j, j ≤ m → keeps_waiting g b (wait_rounds sch b stall j k t s).2) →
      fuel ≤ m →
      releasepage_wait sch g b stall fuel k t s = .error .no_fuel := by
  intro fuel k t s h hf
  have := releasepage_wait_unroll sch g b stall fuel 0 k t s
    (fun j hj => h j (by omega))
  rw [Nat.zero_add] at this
  rw [this]
  exact releasepage_wait_no_fuel sch g b stall _ _ _ (h fuel hf)

/-- C14, as the code has it: in `gfs2_aspace_releasepage` the wait on a referenced
buffer goes on round after round (a stall report whenever the threshold has passed,
then `yield()`) for as long as the buffer is referenced and `i_writecount` of the
address space is nonzero.  Once the count is nonzero with `i_writecount` zero, at
entry or after `m` rounds, the call returns 0 at once and frees nothing; once the
count is zero the call goes on to free the bufdata.  While both stay nonzero the
call does not return. -/
theorem releasepage_waits_only_while_writing (sch : Sched) (stall fuel m : Nat)
    (s : gfs2_sbd) (g b : Nat) (rest : List Nat)
    (hwait : ∀ j, j < m →
      keeps_waiting g b (wait_rounds sch b stall j 0 (sch.jiffies 0) s).2) :
    (keeps_waiting g b (wait_rounds sch b stall m 0 (sch.jiffies 0) s).2 → fuel ≤ m →
      gfs2_aspace_releasepage sch stall fuel s g (b :: rest) = .error .no_fuel) ∧
    (m ≤ fuel →
      ((wait_rounds sch b stall m 0 (sch.jiffies 0) s).2.bh b).b_count ≠ 0 →
      ((wait_rounds sch b stall m 0 (sch.jiffies 0) s).2.gl g).i_writecount = 0 →
      gfs2_aspace_releasepage sch stall fuel s g (b :: rest) =
        .ok (0, (wait_rounds sch b stall m 0 (sch.jiffies 0) s).2)) ∧
    (m ≤ fuel →
      ((wait_rounds sch b stall m 0 (sch.jiffies 0) s).2.bh b).b_count = 0 →
      gfs2_aspace_releasepage sch stall fuel s g (b :: rest) =
        releasepage_loop sch g stall (b :: rest) rest (fuel - m) m
          (releasepage_free_bd (wait_rounds sch b stall m 0 (sch.jiffies 0) s).2 b)) := by
  refine ⟨?_, ?_, ?_⟩
  · intro hm hf
    have hst := releasepage_wait_starves sch g b stall m fuel 0 (sch.jiffies 0) s
      (by
        intro j hj
        rcases Nat.lt_or_eq_of_le hj with h | h
        · exact hwait j h
        · rw [h]; exact hm)
      hf
    unfold gfs2_aspace_releasepage releasepage_loop
    rw [hst]
  · intro hf hc hw
    have hun := releasepage_wait_unroll sch g b stall m (fuel - m) 0 (sch.jiffies 0) s hwait
    rw [Nat.sub_add_cancel hf, Nat.zero_add] at hun
    unfold gfs2_aspace_releasepage releasepage_loop
    rw [hun, releasepage_wait_gives_up sch g b stall _ _ _ _ hc hw]
  · intro hf hc
    have hun := releasepage_wait_unroll sch g b stall m (fuel - m) 0 (sch.jiffies 0) s hwait
    rw [Nat.sub_add_cancel hf, Nat.zero_add] at hun
    conv_lhs => unfold gfs2_aspace_releasepage releasepage_loop
    rw [hun, releasepage_wait_unreferenced sch g b stall _ _ _ _ hc]

/-- C14 at an example: inside `gfs2_inval_buf` the call waits through three rounds,
until another task has dropped the reference, and then frees the bufdata. -/
theorem releasepage_waits_only_while_writing_witness :
    (keeps_waiting 0 10 (wait_rounds sched_drop_third 10 100 3 0
        (sched_drop_third.jiffies 0) sample_referenced_writing).2 → 5 ≤ 3 →
      gfs2_aspace_releasepage sched_drop_third 100 5 sample_referenced_writing 0 [10] =
        .error .no_fuel) ∧
    (3 ≤ 5 →
      ((wait_rounds sched_drop_third 10 100 3 0 (sched_drop_third.jiffies 0)
        sample_referenced_writing).2.bh 10).b_count ≠ 0 →
      ((wait_rounds sched_drop_third 10 100 3 0 (sched_drop_third.jiffies 0)
        sample_referenced_writing).2.gl 0).i_writecount = 0 →
      gfs2_aspace_releasepage sched_drop_third 100 5 sample_referenced_writing 0 [10] =
        .ok (0, (wait_rounds sched_drop_third 10 100 3 0 (sched_drop_third.jiffies 0)
          sample_referenced_writing).2)) ∧
    (3 ≤ 5 →
      ((wait_rounds sched_drop_third 10 100 3 0 (sched_drop_third.jiffies 0)
        sample_referenced_writing).2.bh 10).b_count = 0 →
      gfs2_aspace_releasepage sched_drop_third 100 5 sample_referenced_writing 0 [10] =
        releasepage_loop sched_drop_third 0 100 [10] [] (5 - 3) 3
          (releasepage_free_bd (wait_rounds sched_drop_third 10 100 3 0
            (sched_drop_third.jiffies 0) sample_referenced_writing).2 10)) :=
  releasepage_waits_only_while_writing sched_drop_third 100 5 3 sample_referenced_writing
    0 10 [] (by decide)

/-- C14 as stated fails, both ways.  With the address space not marked as written
to, the call on the referenced buffer 10 returns 0 without a single `yield()` and
with the bufdata still attached, instead of waiting.  With the mark set (as inside
`gfs2_inval_buf`) and nobody dropping the reference, the call has not returned
after three rounds, instead of returning 0 at once. -/
theorem releasepage_polarity :
    (sample_referenced.bh 10).b_count = 1 ∧
    (sample_referenced.gl 0).i_writecount = 0 ∧
    (∃ s', gfs2_aspace_releasepage sched_idle 100 0 sample_referenced 0 [10] = .ok (0, s') ∧
      (s'.bd 10).isSome = true ∧ s'.sd_bufdata_count = sample_referenced.sd_bufdata_count) ∧
    (sample_referenced_writing.bh 10).b_count = 1 ∧
    (sample_referenced_writing.gl 0).i_writecount = 1 ∧
    gfs2_aspace_releasepage sched_idle 100 3 sample_referenced_writing 0 [10] =
      .error .no_fuel :=
  ⟨by decide, by decide, ⟨_, rfl, by decide, by decide⟩, by decide, by decide, rfl⟩

/-- The runs of C14 at the examples, evaluated: with a stall threshold of 2 ticks
the idle wait of five rounds reports the block twice; and once the reference is
dropped in the third round the call frees the bufdata and returns what
`try_to_free_buffers` returns. -/
theorem releasepage_examples :
    (wait_rounds sched_idle 10 2 5 0 0 sample_referenced_writing).2.stuck_reports = [10, 10] ∧
    ∃ s', gfs2_aspace_releasepage sched_drop_third 100 5 sample_referenced_writing 0 [10] =
        .ok (1, s') ∧
      s'.bd 10 = none ∧ s'.sd_bufdata_count = 0 ∧ s'.warnings = 0 ∧ s'.stuck_reports = [] :=
  ⟨by decide, _, rfl, by decide, by decide, by decide, by decide⟩

/-! ## C6: invalidating the address space of a glock -/

theorem discard_buffer_bh (sto : Storage) (s : gfs2_sbd) (b i : Nat) :
    (discard_buffer sto s b).bh i =
      if i = b then
        { s.bh b with
          BH_Lock := false, BH_Dirty := false, BH_Mapped := false,
          BH_Uptodate := if (s.bh b).BH_Lock then sto.finish s.io_log.length b
            else (s.bh b).BH_Uptodate,
          b_count := (s.bh b).b_count - (if (s.bh b).BH_Lock then 1 else 0) }
      else s.bh i := by
  unfold discard_buffer
  by_cases hi : i = b <;> simp [hi]

theorem discard_buffer_frame (sto : Storage) (s : gfs2_sbd) (b : Nat) :
    (discard_buffer sto s b).gl = s.gl ∧ (discard_buffer sto s b).bd = s.bd ∧
    (discard_buffer sto s b).ai = s.ai ∧
    (discard_buffer sto s b).withdraws = s.withdraws ∧
    (discard_buffer sto s b).SDF_SHUTDOWN = s.SDF_SHUTDOWN := by
  unfold discard_buffer
  refine ⟨?_, ?_, ?_, ?_, ?_⟩ <;> simp

theorem discard_all_frame (sto : Storage) (p : List Nat) :
    ∀ s : gfs2_sbd,
      (p.foldl (discard_buffer sto) s).gl = s.gl ∧
      (p.foldl (discard_buffer sto) s).bd = s.bd ∧
      (p.foldl (discard_buffer sto) s).ai = s.ai ∧
      (p.foldl (discard_buffer sto) s).withdraws = s.withdraws ∧
      (p.foldl (discard_buffer sto) s).SDF_SHUTDOWN = s.SDF_SHUTDOWN := by
  induction p with
  | nil => intro s; exact ⟨rfl, rfl, rfl, rfl, rfl⟩
  | cons b rest ih =>
    intro s
    obtain ⟨h1, h2, h3, h4, h5⟩ := ih (discard_buffer sto s b)
    obtain ⟨k1, k2, k3, k4, k5⟩ := discard_buffer_frame sto s b
    simp only [List.foldl_cons]
    exact ⟨h1.trans k1, h2.trans k2, h3.trans k3, h4.trans k4, h5.trans k5⟩

/-- The buffers of a page after each of them is discarded: a buffer of the page is
unlocked, clean and unmapped, and its count is less the reference of the transfer
that was in flight; the other buffers are as they were. -/
theorem discard_all_bh (sto : Storage) (p : List Nat) :
    ∀ (s : gfs2_sbd) (x : Nat),
      (x ∉ p → (p.foldl (discard_buffer sto) s).bh x = s.bh x) ∧
      (x ∈ p →
        ((p.foldl (discard_buffer sto) s).bh x).b_count =
          (s.bh x).b_count - (if (s.bh x).BH_Lock then 1 else 0) ∧
        ((p.foldl (discard_buffer sto) s).bh x).BH_Lock = false ∧
        ((p.foldl (discard_buffer sto) s).bh x).BH_Dirty = false ∧
        ((p.foldl (discard_buffer sto) s).bh x).BH_Mapped = false) := by
  induction p with
  | nil => intro s x; simp
  | cons b rest ih =>
    intro s x
    simp only [List.foldl_cons]
    obtain ⟨i1, i2⟩ := ih (discard_buffer sto s b) x
    constructor
    · intro hx
      have hxb : x ≠ b := fun e => hx (by simp [e])
      have hxr : x ∉ rest := fun e => hx (by simp [e])
      rw [i1 hxr, discard_buffer_bh, if_neg hxb]
    · intro hx
      by_cases hxr : x ∈ rest
      · obtain ⟨c1, c2, c3, c4⟩ := i2 hxr
        refine ⟨?_, c2, c3, c4⟩
        rw [c1, discard_buffer_bh]
        by_cases hxb : x = b
        · subst hxb
          simp
        · simp [hxb]
      · have hxb : x = b := by
          rcases List.mem_cons.mp hx with e | e
          · exact e
          · exact absurd e hxr
        subst hxb
        rw [i1 hxr, discard_buffer_bh]
        simp

theorem releasepage_free_bd_frame (s : gfs2_sbd) (b : Nat) :
    (releasepage_free_bd s b).bh = s.bh ∧ (releasepage_free_bd s b).gl = s.gl ∧
    (releasepage_free_bd s b).ai = s.ai ∧
    (releasepage_free_bd s b).withdraws = s.withdraws ∧
    (releasepage_free_bd s b).SDF_SHUTDOWN = s.SDF_SHUTDOWN := by
  unfold releasepage_free_bd
  simp only [gfs2_assert_warn_bd]
  cases s.bd b <;> refine ⟨?_, ?_, ?_, ?_, ?_⟩ <;> simp

theorem releasepage_free_bd_bd (s : gfs2_sbd) (b i : Nat) :
    (releasepage_free_bd s b).bd i = if i = b then none else s.bd i := by
  unfold releasepage_free_bd
  simp only [gfs2_assert_warn_bd]
  cases h : s.bd b
  · by_cases hi : i = b
    · simp [hi, h]
    · simp [hi]
  · simp

theorem free_all_frame (p : List Nat) :
    ∀ s : gfs2_sbd,
      (p.foldl releasepage_free_bd s).bh = s.bh ∧
      (p.foldl releasepage_free_bd s).gl = s.gl ∧
      (p.foldl releasepage_free_bd s).ai = s.ai ∧
      (p.foldl releasepage_free_bd s).withdraws = s.withdraws ∧
      (p.foldl releasepage_free_bd s).SDF_SHUTDOWN = s.SDF_SHUTDOWN := by
  induction p with
  | nil => intro s; exact ⟨rfl, rfl, rfl, rfl, rfl⟩
  | cons b rest ih =>
    intro s
    obtain ⟨h1, h2, h3, h4, h5⟩ := ih (releasepage_free_bd s b)
    obtain ⟨k1, k2, k3, k4, k5⟩ := releasepage_free_bd_frame s b
    simp only [List.foldl_cons]
    exact ⟨h1.trans k1, h2.trans k2, h3.trans k3, h4.trans k4, h5.trans k5⟩

theorem free_all_bd (p : List Nat) :
    ∀ (s : gfs2_sbd) (x : Nat),
      (p.foldl releasepage_free_bd s).bd x = if x ∈ p then none else s.bd x := by
  induction p with
  | nil => intro s x; simp
  | cons b rest ih =>
    intro s x
    simp only [List.foldl_cons]
    rw [ih, releasepage_free_bd_bd]
    by_cases hxr : x ∈ rest <;> by_cases hxb : x = b <;> simp [hxr, hxb]

/-- The loop of `gfs2_aspace_releasepage` over unreferenced buffers does not wait:
it frees the bufdata of each and returns what `try_to_free_buffers` says. -/
theorem releasepage_loop_unreferenced (sch : Sched) (g stall : Nat) (page : List Nat) :
    ∀ (rest : List Nat) (fuel k : Nat) (s : gfs2_sbd),
      (∀ b ∈ rest, (s.bh b).b_count = 0) →
      releasepage_loop sch g stall page rest fuel k s =
        .ok (try_to_free_buffers (rest.foldl releasepage_free_bd s) page,
             rest.foldl releasepage_free_bd s) := by
  intro rest
  induction rest with
  | nil => intro fuel k s _; rfl
  | cons b rest ih =>
    intro fuel k s h
    unfold releasepage_loop
    rw [releasepage_wait_unreferenced sch g b stall fuel k _ s (h b (by simp))]
    simp only [List.foldl_cons]
    apply ih
    intro x hx
    rw [(releasepage_free_bd_frame s b).1]
    exact h x (by simp [hx])

/-- With nothing else running, the wait on a referenced buffer of an address space
that is being written to never ends. -/
theorem releasepage_wait_idle (sch : Sched) (hidle : ∀ k t, sch.yield k t = t)
    (g b stall : Nat) :
    ∀ (fuel k t : Nat) (s : gfs2_sbd), keeps_waiting g b s →
      releasepage_wait sch g b stall fuel k t s = .error .no_fuel := by
  intro fuel
  induction fuel with
  | zero => intro k t s h; exact releasepage_wait_no_fuel sch g b stall k t s h
  | succ fuel ih =>
    intro k t s h
    rw [releasepage_wait_round sch g b stall fuel k t s h]
    apply ih
    unfold wait_round
    simp only [hidle]
    split
    · exact h
    · exact h

theorem releasepage_loop_idle (sch : Sched) (hidle : ∀ k t, sch.yield k t = t)
    (g stall : Nat) (page : List Nat) :
    ∀ (rest : List Nat) (fuel k : Nat) (s : gfs2_sbd),
      (s.gl g).i_writecount ≠ 0 → (∃ b ∈ rest, (s.bh b).b_count ≠ 0) →
      releasepage_loop sch g stall page rest fuel k s = .error .no_fuel := by
  intro rest
  induction rest with
  | nil => intro fuel k s _ h; simp at h
  | cons x rest ih =>
    intro fuel k s hw h
    unfold releasepage_loop
    by_cases hx : (s.bh x).b_count = 0
    · rw [releasepage_wait_unreferenced sch g x stall fuel k _ s hx]
      obtain ⟨k1, k2, _, _, _⟩ := releasepage_free_bd_frame s x
      apply ih
      · rw [k2]; exact hw
      · obtain ⟨b, hb, hc⟩ := h
        refine ⟨b, ?_, ?_⟩
        · rcases List.mem_cons.mp hb with e | e
          · subst e; exact absurd hx hc
          · exact e
        · rw [k1]; exact hc
    · rw [releasepage_wait_idle sch hidle g x stall fuel k _ s ⟨hx, hw⟩]

/-- Truncating a page on whose buffers no reference is held but that of a transfer
in flight: the call returns, the page is gone, the buffers are discarded and their
bufdata freed. -/
theorem truncate_complete_page_unreferenced (sch : Sched) (sto : Storage)
    (stall fuel : Nat) (s : gfs2_sbd) (g : Nat) (p : List Nat)
    (h : ∀ b ∈ p, (s.bh b).b_count = if (s.bh b).BH_Lock then 1 else 0) :
    ∃ s', truncate_complete_page sch sto stall fuel s g p = .ok s' ∧
      (s'.gl g).pages = (s.gl g).pages.erase p ∧
      s'.ai = s.ai ∧ s'.withdraws = s.withdraws ∧ s'.SDF_SHUTDOWN = s.SDF_SHUTDOWN ∧
      (∀ g', g' ≠ g → s'.gl g' = s.gl g') ∧
      (s'.gl g).i_writecount = (s.gl g).i_writecount ∧
      (s'.gl g).gl_ail_count = (s.gl g).gl_ail_count ∧
      (s'.gl g).gl_ail_list = (s.gl g).gl_ail_list ∧
      (∀ x ∈ p, s'.bd x = none ∧ (s'.bh x).b_count = 0 ∧ (s'.bh x).BH_Lock = false ∧
        (s'.bh x).BH_Dirty = false ∧ (s'.bh x).BH_Mapped = false) ∧
      (∀ x, x ∉ p → s'.bh x = s.bh x ∧ s'.bd x = s.bd x) := by
  obtain ⟨d1, d2, d3, d4, d5⟩ := discard_all_frame sto p s
  obtain ⟨f1, f2, f3, f4, f5⟩ :=
    free_all_frame p (p.foldl (discard_buffer sto) s)
  have hz : ∀ b ∈ p, ((p.foldl (discard_buffer sto) s).bh b).b_count = 0 := by
    intro b hb
    rw [((discard_all_bh sto p s b).2 hb).1, h b hb]
    split <;> rfl
  have e : truncate_complete_page sch sto stall fuel s g p =
      .ok (set_gl (p.foldl releasepage_free_bd (p.foldl (discard_buffer sto) s)) g
        { (p.foldl releasepage_free_bd (p.foldl (discard_buffer sto) s)).gl g with
          pages := ((p.foldl releasepage_free_bd
            (p.foldl (discard_buffer sto) s)).gl g).pages.erase p }) := by
    unfold truncate_complete_page
    cases p with
    | nil => rfl
    | cons b rest =>
      simp only [List.isEmpty_cons, Bool.false_eq_true, if_false]
      unfold gfs2_aspace_releasepage
      rw [releasepage_loop_unreferenced sch g stall _ _ fuel 0 _ hz]
  refine ⟨_, e, ?_, ?_, ?_, ?_, ?_, ?_, ?_, ?_, ?_, ?_⟩
  · simp [f2, d1]
  · simp [f3, d3]
  · simp [f4, d4]
  · simp [f5, d5]
  · intro g' hg
    simp [hg, f2, d1]
  · simp [f2, d1]
  · simp [f2, d1]
  · simp [f2, d1]
  · intro x hx
    obtain ⟨_, c2, c3, c4⟩ := (discard_all_bh sto p s x).2 hx
    refine ⟨?_, ?_, ?_, ?_, ?_⟩
    · simp [free_all_bd, hx]
    · simp only [set_gl_bh, f1]; exact hz x hx
    · simp only [set_gl_bh, f1]; exact c2
    · simp only [set_gl_bh, f1]; exact c3
    · simp only [set_gl_bh, f1]; exact c4
  · intro x hx
    constructor
    · simp only [set_gl_bh, f1]; exact (discard_all_bh sto p s x).1 hx
    · simp [free_all_bd, hx, d2]

/-- Truncating every page of an address space on whose buffers no reference is held
but that of a transfer in flight: the loop returns and no page is left. -/
theorem truncate_pages_unreferenced (sch : Sched) (sto : Storage) (stall fuel g : Nat) :
    ∀ (ps : List (List Nat)) (s : gfs2_sbd),
      (s.gl g).pages = ps →
      (∀ p ∈ ps, ∀ b ∈ p, (s.bh b).b_count = if (s.bh b).BH_Lock then 1 else 0) →
      ∃ s', truncate_pages sch sto stall fuel g ps s = .ok s' ∧
        (s'.gl g).pages = [] ∧
        s'.ai = s.ai ∧ s'.withdraws = s.withdraws ∧ s'.SDF_SHUTDOWN = s.SDF_SHUTDOWN ∧
        (∀ g', g' ≠ g → s'.gl g' = s.gl g') ∧
        (s'.gl g).i_writecount = (s.gl g).i_writecount ∧
        (s'.gl g).gl_ail_count = (s.gl g).gl_ail_count ∧
        (s'.gl g).gl_ail_list = (s.gl g).gl_ail_list ∧
        (∀ p ∈ ps, ∀ x ∈ p, s'.bd x = none ∧ (s'.bh x).b_count = 0 ∧
          (s'.bh x).BH_Lock = false ∧ (s'.bh x).BH_Dirty = false ∧
          (s'.bh x).BH_Mapped = false) ∧
        (∀ x, (∀ p ∈ ps, x ∉ p) → s'.bh x = s.bh x ∧ s'.bd x = s.bd x) := by
  intro ps
  induction ps with
  | nil =>
    intro s hp _
    refine ⟨s, rfl, hp, rfl, rfl, rfl, fun _ _ => rfl, rfl, rfl, rfl, ?_, ?_⟩
    · intro p hp'; simp at hp'
    · intro x _; exact ⟨rfl, rfl⟩
  | cons p rest ih =>
    intro s hp h
    obtain ⟨s1, e1, a1, a2, a3, a4, a5, a6, a7, a8, a9, a10⟩ :=
      truncate_complete_page_unreferenced sch sto stall fuel s g p
        (h p (by simp))
    have hp1 : (s1.gl g).pages = rest := by
      rw [a1, hp]; simp
    have h1 : ∀ q ∈ rest, ∀ b ∈ q,
        (s1.bh b).b_count = if (s1.bh b).BH_Lock then 1 else 0 := by
      intro q hq b hb
      by_cases hbp : b ∈ p
      · obtain ⟨_, c1, c2, _, _⟩ := a9 b hbp
        rw [c1, c2]; rfl
      · rw [(a10 b hbp).1]
        exact h q (by simp [hq]) b hb
    obtain ⟨s2, e2, b1, b2, b3, b4, b5, b6, b7, b8, b9, b10⟩ := ih s1 hp1 h1
    refine ⟨s2, ?_, b1, b2.trans a2, b3.trans a3, b4.trans a4, ?_, b6.trans a6,
      b7.trans a7, b8.trans a8, ?_, ?_⟩
    · unfold truncate_pages
      rw [if_pos (by rw [hp]; simp), e1]
      exact e2
    · intro g' hg
      rw [b5 g' hg, a5 g' hg]
    · intro q hq x hx
      by_cases hxr : ∃ r ∈ rest, x ∈ r
      · obtain ⟨r, hr, hxr'⟩ := hxr
        exact b9 r hr x hxr'
      · have hq' : q = p := by
          rcases List.mem_cons.mp hq with e | e
          · exact e
          · exact absurd ⟨q, e, hx⟩ hxr
        subst hq'
        have hn : ∀ r ∈ rest, x ∉ r := fun r hr hxr' => hxr ⟨r, hr, hxr'⟩
        obtain ⟨n1, n2⟩ := b10 x hn
        rw [n1, n2]
        exact a9 x hx
    · intro x hx
      have hxp : x ∉ p := hx p (by simp)
      have hn : ∀ r ∈ rest, x ∉ r := fun r hr => hx r (by simp [hr])
      obtain ⟨n1, n2⟩ := b10 x hn
      obtain ⟨m1, m2⟩ := a10 x hxp
      exact ⟨n1.trans m1, n2.trans m2⟩

/-- With nothing else running, truncating the pages of an address space that is
being written to does not return when a buffer of a page holds a reference other
than that of a transfer in flight. -/
theorem truncate_pages_idle (sch : Sched) (hidle : ∀ k t, sch.yield k t = t)
    (sto : Storage) (stall fuel g : Nat) :
    ∀ (ps : List (List Nat)) (s : gfs2_sbd),
      (s.gl g).pages = ps → (s.gl g).i_writecount ≠ 0 →
      (∃ p ∈ ps, ∃ b ∈ p, (s.bh b).b_count ≠ if (s.bh b).BH_Lock then 1 else 0) →
      truncate_pages sch sto stall fuel g ps s = .error .no_fuel := by
  intro ps
  induction ps with
  | nil => intro s _ _ h; simp at h
  | cons p rest ih =>
    intro s hp hw h
    unfold truncate_pages
    rw [if_pos (by rw [hp]; simp)]
    by_cases hbad : ∃ b ∈ p, (s.bh b).b_count ≠ if (s.bh b).BH_Lock then 1 else 0
    · obtain ⟨b, hb, hc⟩ := hbad
      have e : truncate_complete_page sch sto stall fuel s g p = .error .no_fuel := by
        unfold truncate_complete_page
        have hne : p.isEmpty = false := by
          cases p with
          | nil => simp at hb
          | cons _ _ => rfl
        simp only [hne, Bool.false_eq_true, if_false]
        unfold gfs2_aspace_releasepage
        rw [releasepage_loop_idle sch hidle g stall p p fuel 0 _ ?_ ?_]
        · rw [(discard_all_frame sto p s).1]; exact hw
        · refine ⟨b, hb, ?_⟩
          rw [((discard_all_bh sto p s b).2 hb).1]
          intro hz
          apply hc
          split at hz <;> split <;> first | omega | simp_all
      rw [e]
    · have hgood : ∀ b ∈ p, (s.bh b).b_count = if (s.bh b).BH_Lock then 1 else 0 := by
        intro b hb
        by_contra hc
        exact hbad ⟨b, hb, hc⟩
      obtain ⟨s1, e1, a1, _, _, _, _, a6, _, _, _, a10⟩ :=
        truncate_complete_page_unreferenced sch sto stall fuel s g p hgood
      rw [e1]
      apply ih s1
      · rw [a1, hp]; simp
      · rw [a6]; exact hw
      · obtain ⟨q, hq, b, hb, hc⟩ := h
        have hqr : q ∈ rest := by
          rcases List.mem_cons.mp hq with e | e
          · subst e; exact absurd ⟨b, hb, hc⟩ hbad
          · exact e
        have hbp : b ∉ p := fun hbp => hc (hgood b hbp)
        refine ⟨q, hqr, b, hb, ?_⟩
        rw [(a10 b hbp).1]
        exact hc

/-- The page list of the address space as `gfs2_inval_buf` hands it to
`truncate_inode_pages`. -/
theorem inval_buf_pages (sdp : gfs2_sbd) (g : Nat) :
    ((set_gl (gfs2_assert_withdraw sdp (decide ((sdp.gl g).gl_ail_count = 0))) g
      { (gfs2_assert_withdraw sdp (decide ((sdp.gl g).gl_ail_count = 0))).gl g with
        i_writecount := ((gfs2_assert_withdraw sdp
          (decide ((sdp.gl g).gl_ail_count = 0))).gl g).i_writecount + 1 }).gl g).pages =
      (sdp.gl g).pages := by simp

theorem inval_buf_unreferenced (sch : Sched) (sto : Storage) (stall fuel : Nat)
    (sdp : gfs2_sbd) (g : Nat)
    (h : ∀ p ∈ (sdp.gl g).pages, ∀ b ∈ p,
        (sdp.bh b).b_count = if (sdp.bh b).BH_Lock then 1 else 0) :
    ∃ s', gfs2_inval_buf sch sto stall fuel sdp g = .ok s' ∧
      s'.withdraws = sdp.withdraws + (if (sdp.gl g).gl_ail_count = 0 then 0 else 1) ∧
      s'.SDF_SHUTDOWN = (sdp.SDF_SHUTDOWN || decide ((sdp.gl g).gl_ail_count ≠ 0)) ∧
      (s'.gl g).pages = [] ∧ (s'.gl g).nrpages = 0 ∧
      (s'.gl g).i_writecount = (sdp.gl g).i_writecount ∧
      (s'.gl g).gl_ail_count = (sdp.gl g).gl_ail_count ∧
      (s'.gl g).gl_ail_list = (sdp.gl g).gl_ail_list ∧
      s'.ai = sdp.ai ∧
      (∀ p ∈ (sdp.gl g).pages, ∀ x ∈ p, s'.bd x = none ∧ (s'.bh x).b_count = 0 ∧
        (s'.bh x).BH_Lock = false ∧ (s'.bh x).BH_Dirty = false ∧
        (s'.bh x).BH_Mapped = false) ∧
      (∀ x, (∀ p ∈ (sdp.gl g).pages, x ∉ p) →
        s'.bh x = sdp.bh x ∧ s'.bd x = sdp.bd x) := by
  have hpg := inval_buf_pages sdp g
  obtain ⟨s1, e1, b1, b2, b3, b4, b5, b6, b7, b8, b9, b10⟩ :=
    truncate_pages_unreferenced sch sto stall fuel g (sdp.gl g).pages _ hpg
      (by simpa using h)
  have e : gfs2_inval_buf sch sto stall fuel sdp g =
      .ok (set_gl s1 g { s1.gl g with i_writecount := (s1.gl g).i_writecount - 1 }) := by
    unfold gfs2_inval_buf truncate_inode_pages
    simp only [hpg, e1]
    simp [gfs2_assert_withdraw, gfs2_glock.nrpages, b1]
  refine ⟨_, e, ?_, ?_, ?_, ?_, ?_, ?_, ?_, ?_, ?_, ?_⟩
  · simp only [set_gl_withdraws, b3, gfs2_assert_withdraw_withdraws]
    by_cases hc : (sdp.gl g).gl_ail_count = 0 <;> simp [hc]
  · simp only [set_gl_SDF_SHUTDOWN, b4, gfs2_assert_withdraw_SDF_SHUTDOWN]
    by_cases hc : (sdp.gl g).gl_ail_count = 0 <;> simp [hc]
  · simp [b1]
  · simp [gfs2_glock.nrpages, b1]
  · simp [b6]
  · simp [b7]
  · simp [b8]
  · simp [b2]
  · intro p hp x hx
    simpa using b9 p hp x hx
  · intro x hx
    simpa using b10 x hx

theorem inval_buf_idle (sch : Sched) (sto : Storage) (stall fuel : Nat)
    (sdp : gfs2_sbd) (g : Nat) (hw : 0 ≤ (sdp.gl g).i_writecount)
    (hidle : ∀ k t, sch.yield k t = t)
    (h : ∃ p ∈ (sdp.gl g).pages, ∃ b ∈ p,
      (sdp.bh b).b_count ≠ if (sdp.bh b).BH_Lock then 1 else 0) :
    gfs2_inval_buf sch sto stall fuel sdp g = .error .no_fuel := by
  have hpg := inval_buf_pages sdp g
  unfold gfs2_inval_buf truncate_inode_pages
  simp only [hpg]
  rw [truncate_pages_idle sch hidle sto stall fuel g (sdp.gl g).pages _ hpg ?_
    (by simpa using h)]
  simp
  omega

/-- Example: on glock 0 of `sample_ail_count_3`, three buffers in the AIL and one
cached page, the call with nothing else running uses up whatever rounds it is
given; the buffers were discarded before the wait began. -/
theorem inval_buf_spins_example :
    (∀ fuel, gfs2_inval_buf sched_idle storage_sync_ok 5 fuel sample_ail_count_3 0 =
      .error .no_fuel) ∧
    [10, 11, 12].map (fun x =>
      (([10, 11, 12].foldl (discard_buffer storage_sync_ok) sample_ail_count_3).bh x).BH_Mapped)
      = [false, false, false] ∧
    [10, 11, 12].map (fun x =>
      (([10, 11, 12].foldl (discard_buffer storage_sync_ok) sample_ail_count_3).bh x).b_count)
      = [1, 1, 1] := by
  exact ⟨fun fuel => inval_buf_idle sched_idle storage_sync_ok 5 fuel sample_ail_count_3 0
    (by decide) (fun _ _ => rfl) ⟨[10, 11, 12], by decide, 10, by decide, by decide⟩,
    by decide, by decide⟩

/-! ## Invariants of the AIL over the reachable states -/

/-- C12: in every state reached from an empty AIL by any sequence of returning calls
of `gfs2_dpin`, `gfs2_dunpin` (with an AIL entry), `gfs2_ail1_start_one`,
`gfs2_ail1_empty_one`, `gfs2_ail2_empty_one`, `gfs2_ail_empty_gl` and
`gfs2_buf_wipe`, with transfers in flight coming to their end in between, the
`gl_ail_count` of every glock is the length of its `gl_ail_list`, no bufdata is on
that list twice, and a bufdata of the glock is on the list exactly when its `bd_ail`
is not NULL. -/
theorem ail_count_is_list_length (s0 s : gfs2_sbd) (h0 : ail_empty s0)
    (hr : reachable s0 s) :
    (∀ g, (s.gl g).gl_ail_count = ((s.gl g).gl_ail_list.length : Nat)) ∧
    (∀ g, (s.gl g).gl_ail_list.Nodup) ∧
    (∀ g b, gl_of s b = some g → (b ∈ (s.gl g).gl_ail_list ↔ ail_of s b ≠ none)) ∧
    (∀ g b, b ∈ (s.gl g).gl_ail_list → gl_of s b = some g) := by
  have h := reachable_inv (ail_inv_of_empty h0) hr
  refine ⟨h.gl_count, h.gl_nodup, ?_, ?_⟩
  · intro g b hg
    rw [h.gl_mem g b]
    simp [hg]
  · intro g b hb
    exact ((h.gl_mem g b).mp hb).1

/-- C12 at the example: after buffer 10 was pinned and unpinned into entry 1, glock 0
counts the one bufdata on its list. -/
theorem ail_count_is_list_length_witness :
    (∀ g, (sample_fresh_logged.gl g).gl_ail_count =
      ((sample_fresh_logged.gl g).gl_ail_list.length : Nat)) ∧
    (∀ g, (sample_fresh_logged.gl g).gl_ail_list.Nodup) ∧
    (∀ g b, gl_of sample_fresh_logged b = some g →
      (b ∈ (sample_fresh_logged.gl g).gl_ail_list ↔ ail_of sample_fresh_logged b ≠ none)) ∧
    (∀ g b, b ∈ (sample_fresh_logged.gl g).gl_ail_list →
      gl_of sample_fresh_logged b = some g) :=
  ail_count_is_list_length sample_fresh sample_fresh_logged
    ⟨fun _ => ⟨rfl, rfl⟩, fun _ => ⟨rfl, rfl⟩, fun b => by
      unfold ail_of sample_fresh
      by_cases hb : b = 10 <;> simp [hb]⟩
    (reachable.step
      (reachable.step reachable.start
        (ail_step.dpin storage_sync_ok 10
          (show gfs2_dpin storage_sync_ok sample_fresh 10 = .ok sample_fresh_pinned from rfl)))
      (ail_step.dunpin 10 1
        (show gfs2_dunpin sample_fresh_pinned 10 (some 1) = .ok sample_fresh_logged from rfl)))

/-- The example of C12 in figures: glock 0 has count 1 and list `[10]`, entry 1 has
buffer 10 pending, and the buffer points back to entry 1. -/
theorem ail_count_example :
    (sample_fresh_logged.gl 0).gl_ail_count = 1 ∧
    (sample_fresh_logged.gl 0).gl_ail_list = [10] ∧
    (sample_fresh_logged.ai 1).ai_ail1_list = [10] ∧
    ail_of sample_fresh_logged 10 = some 1 := by
  refine ⟨?_, ?_, ?_, ?_⟩ <;> decide

/-! ## Bounded retry of `gfs2_ail1_start_one` -/

theorem scan_post_refl (a : Nat) (xs : List Nat) (s : gfs2_sbd) (h : ail_inv s)
    (hxs : ∀ x ∈ xs, x ∈ (s.ai a).ai_ail1_list) : scan_post a xs s s where
  inv := h
  bd_eq := rfl
  ail1_sub := fun _ k => k
  ail1_keep := fun _ _ k => k
  bh_frame := fun _ _ => rfl
  bh_static := fun _ => ⟨rfl, rfl⟩
  errs := ⟨[], by simp⟩
  fault := by
    intro x hx h2
    have hnd := h.st_nodup a
    exact absurd h2 ((List.nodup_append.mp hnd).2.2 (hxs x hx))

theorem scan_post_trans {a : Nat} {xs ys : List Nat} {s s1 s2 : gfs2_sbd}
    (h1 : scan_post a xs s s1) (h2 : scan_post a ys s1 s2)
    (hys : ∀ x ∈ ys, x ∈ xs)
    (hcover : ∀ x ∈ xs, x ∈ (s1.ai a).ai_ail1_list → x ∈ ys) : scan_post a xs s s2 where
  inv := h2.inv
  bd_eq := by rw [h2.bd_eq, h1.bd_eq]
  ail1_sub := fun x k => h1.ail1_sub x (h2.ail1_sub x k)
  ail1_keep := fun x hx k =>
    h2.ail1_keep x (fun hy => hx (hys x hy)) (h1.ail1_keep x hx k)
  bh_frame := fun x hx => by
    rw [h2.bh_frame x (fun hy => hx (hys x hy)), h1.bh_frame x hx]
  bh_static := fun x => by
    rw [(h2.bh_static x).1, (h2.bh_static x).2, (h1.bh_static x).1, (h1.bh_static x).2]
    exact ⟨rfl, rfl⟩
  errs := by
    obtain ⟨e1, he1⟩ := h1.errs
    obtain ⟨e2, he2⟩ := h2.errs
    exact ⟨e1 ++ e2, by rw [he2, he1, List.append_assoc]⟩
  fault := by
    intro x hx hx2 hup
    by_cases hy : x ∈ ys
    · exact h2.fault x hy hx2 hup
    · have hbh := h2.bh_frame x hy
      have hn1 : x ∉ (s1.ai a).ai_ail1_list := fun k => hy (hcover x hx k)
      have ha2 : ail_of s2 x = some a := (h2.inv.st_mem a x).mp (Or.inr hx2)
      have ha1 : ail_of s1 x = some a := by
        rw [← ail_of_congr h2.bd_eq x]; exact ha2
      have hm : x ∈ (s1.ai a).ai_ail2_list := by
        rcases (h1.inv.st_mem a x).mpr ha1 with k | k
        · exact absurd k hn1
        · exact k
      rw [hbh] at hup ⊢
      obtain ⟨e2, he2⟩ := h2.errs
      rw [he2]
      exact List.mem_append_left _ (h1.fault x hx hm hup)

theorem promote_one_io_errors (a : Nat) (s : gfs2_sbd) (x : Nat) :
    (promote_one a s x).io_errors =
      s.io_errors ++ (if (s.bh x).BH_Uptodate then [] else [(s.bh x).b_blocknr]) := by
  unfold promote_one
  cases h : (s.bh x).BH_Uptodate <;> simp

theorem promote_one_io_log (a : Nat) (s : gfs2_sbd) (x : Nat) :
    (promote_one a s x).io_log = s.io_log := by
  unfold promote_one
  cases h : (s.bh x).BH_Uptodate <;> simp

theorem promote_one_post (a : Nat) (xs : List Nat) (s : gfs2_sbd) (x : Nat) (h : ail_inv s)
    (hx : ail_of s x = some a) (hxs : x ∈ xs)
    (hsub : ∀ y ∈ xs, y ∈ (s.ai a).ai_ail1_list) : scan_post a xs s (promote_one a s x) where
  inv := promote_one_inv a s x h hx
  bd_eq := promote_one_bd a s x
  ail1_sub := by
    intro y hy
    rw [promote_one_ai] at hy
    exact (List.mem_filter.mp hy).1
  ail1_keep := by
    intro y hy k
    rw [promote_one_ai]
    have : y ≠ x := fun e => hy (e ▸ hxs)
    simp [List.mem_filter, k, this]
  bh_frame := fun y _ => by rw [promote_one_bh]
  bh_static := fun y => by rw [promote_one_bh]; exact ⟨rfl, rfl⟩
  errs := ⟨_, promote_one_io_errors a s x⟩
  fault := by
    intro y hy hy2 hup
    rw [promote_one_ai] at hy2
    rw [promote_one_bh] at hup ⊢
    simp only [if_true, List.mem_cons, List.mem_filter] at hy2
    rcases hy2 with e | ⟨k, _⟩
    · subst e
      rw [promote_one_io_errors, hup]
      simp
    · exact absurd k ((List.nodup_append.mp (h.st_nodup a)).2.2 (hsub y hy))

theorem write_back_io_log (sto : Storage) (a : Nat) (s : gfs2_sbd) (d : Nat)
    (hdirty : (s.bh d).BH_Dirty = true) :
    (write_back sto a s d).io_log = s.io_log ++ [io_request.write d] := by
  simp [write_back, hdirty]

theorem write_back_bh (sto : Storage) (a : Nat) (s : gfs2_sbd) (d : Nat)
    (hdirty : (s.bh d).BH_Dirty = true) :
    ((write_back sto a s d).bh d).BH_Dirty = false ∧
    (∀ x, x ≠ d → (write_back sto a s d).bh x = s.bh x) ∧
    (∀ x, ((write_back sto a s d).bh x).b_blocknr = (s.bh x).b_blocknr ∧
      ((write_back sto a s d).bh x).BH_Pinned = (s.bh x).BH_Pinned) ∧
    (write_back sto a s d).io_errors = s.io_errors := by
  refine ⟨?_, ?_, ?_, ?_⟩
  · simp only [write_back, ll_rw_block_write_bh, wait_on_buffer_bh, list_move_ail1,
      list_add_ail1, set_ai_bh, list_del_st_bh, if_true, hdirty, and_self]
    unfold submitted
    split <;> rfl
  · intro x hx
    simp [write_back, hx]
  · intro x
    by_cases hx : x = d
    · subst hx
      simp only [write_back, ll_rw_block_write_bh, wait_on_buffer_bh, list_move_ail1,
        list_add_ail1, set_ai_bh, list_del_st_bh, if_true, hdirty, and_self]
      unfold submitted
      split <;> exact ⟨rfl, rfl⟩
    · simp [write_back, hx]
  · simp [write_back]

theorem write_back_post (sto : Storage) (a : Nat) (xs : List Nat) (s : gfs2_sbd) (d : Nat)
    (h : ail_inv s) (hd : ail_of s d = some a) (hdirty : (s.bh d).BH_Dirty = true)
    (hxs : d ∈ xs) (hsub : ∀ y ∈ xs, y ∈ (s.ai a).ai_ail1_list) :
    scan_post a xs s (write_back sto a s d) where
  inv := write_back_inv sto a s d h hd
  bd_eq := write_back_bd sto a s d
  ail1_sub := by
    intro y hy
    rw [write_back_ai] at hy
    simp only [if_true, List.mem_cons, List.mem_filter] at hy
    rcases hy with e | ⟨k, _⟩
    · rw [e]; exact hsub d hxs
    · exact k
  ail1_keep := by
    intro y hy k
    rw [write_back_ai]
    have : y ≠ d := fun e => hy (e ▸ hxs)
    simp [List.mem_filter, k, this]
  bh_frame := fun y hy =>
    (write_back_bh sto a s d hdirty).2.1 y (fun e => hy (e ▸ hxs))
  bh_static := (write_back_bh sto a s d hdirty).2.2.1
  errs := ⟨[], by rw [(write_back_bh sto a s d hdirty).2.2.2]; simp⟩
  fault := by
    intro y hy hy2 _
    rw [write_back_ai] at hy2
    have k := (List.mem_filter.mp hy2).1
    exact absurd k ((List.nodup_append.mp (h.st_nodup a)).2.2 (hsub y hy))

theorem scan_post_skip {a : Nat} {x0 : Nat} {rest : List Nat} {s s1 : gfs2_sbd}
    (h : scan_post a rest s s1) (hx0 : x0 ∉ rest) (hin : x0 ∈ (s.ai a).ai_ail1_list) :
    scan_post a (x0 :: rest) s s1 where
  inv := h.inv
  bd_eq := h.bd_eq
  ail1_sub := h.ail1_sub
  ail1_keep := fun x hx k => h.ail1_keep x (fun e => hx (List.mem_cons_of_mem _ e)) k
  bh_frame := fun x hx => h.bh_frame x (fun e => hx (List.mem_cons_of_mem _ e))
  bh_static := h.bh_static
  errs := h.errs
  fault := by
    intro x hx hx2 hup
    rcases List.mem_cons.mp hx with e | k
    · subst e
      have k1 := h.ail1_keep x hx0 hin
      exact absurd hx2 ((List.nodup_append.mp (h.inv.st_nodup a)).2.2 k1)
    · exact h.fault x k hx2 hup

theorem busy_not_dirty {h : buffer_head} (hb : buffer_busy h = true)
    (hd : h.BH_Dirty = false) : h.BH_Lock = true ∨ h.BH_Pinned = true := by
  unfold buffer_busy at hb
  cases hl : h.BH_Lock <;> cases hp : h.BH_Pinned <;> simp [hd, hl, hp] at hb ⊢

theorem start_scan_post (sto : Storage) (a : Nat) :
    ∀ (xs : List Nat) (s : gfs2_sbd), ail_inv s → xs.Nodup →
      (∀ x ∈ xs, x ∈ (s.ai a).ai_ail1_list) →
      ∃ r s1, ail1_start_scan sto a xs s = .ok (r, s1) ∧ scan_post a xs s s1 ∧
        (r = false → s1.io_log = s.io_log ∧ s1.bh = s.bh ∧
          ∀ x ∈ xs, x ∈ (s1.ai a).ai_ail1_list →
            (s.bh x).BH_Dirty = false ∧
            ((s.bh x).BH_Lock = true ∨ (s.bh x).BH_Pinned = true)) ∧
        (r = true → ∃ d ∈ xs, (s.bh d).BH_Dirty = true ∧
          s1.io_log = s.io_log ++ [io_request.write d] ∧
          (s1.bh d).BH_Dirty = false ∧ (∀ x, x ≠ d → s1.bh x = s.bh x) ∧
          (s1.ai a).ai_ail1_list.head? = some d) := by
  intro xs
  induction xs with
  | nil =>
    intro s h _ hsub
    refine ⟨false, s, rfl, scan_post_refl a [] s h hsub, ?_, ?_⟩
    · intro _
      exact ⟨rfl, rfl, fun x hx => absurd hx (List.not_mem_nil x)⟩
    · intro k; cases k
  | cons x0 rest ih =>
    intro s h hnd hsub
    have hx0in := hsub x0 (List.mem_cons_self _ _)
    have hx0 : ail_of s x0 = some a := (h.st_mem a x0).mp (Or.inl hx0in)
    have hx0rest : x0 ∉ rest := (List.nodup_cons.mp hnd).1
    have hndr : rest.Nodup := (List.nodup_cons.mp hnd).2
    obtain ⟨d0, hd0, hda0⟩ := ail_of_eq_some hx0
    by_cases hbusy : buffer_busy (s.bh x0) = true
    · by_cases hdirty : (s.bh x0).BH_Dirty = true
      · have e : ail1_start_scan sto a (x0 :: rest) s = .ok (true, write_back sto a s x0) := by
          simp [ail1_start_scan, hd0, hda0, hbusy, hdirty, write_back]
        refine ⟨true, _, e,
          write_back_post sto a _ s x0 h hx0 hdirty (List.mem_cons_self _ _) hsub, ?_, ?_⟩
        · intro k; cases k
        · intro _
          have wb := write_back_bh sto a s x0 hdirty
          refine ⟨x0, List.mem_cons_self _ _, hdirty, write_back_io_log sto a s x0 hdirty,
            wb.1, wb.2.1, ?_⟩
          rw [write_back_ai]
          simp
      · have hnd0 : (s.bh x0).BH_Dirty = false := by simpa using hdirty
        have e : ail1_start_scan sto a (x0 :: rest) s = ail1_start_scan sto a rest s := by
          simp [ail1_start_scan, hd0, hda0, hbusy, hdirty]
        obtain ⟨r, s1, hs1, p1, f, t⟩ := ih s h hndr
          (fun x hx => hsub x (List.mem_cons_of_mem _ hx))
        refine ⟨r, s1, by rw [e, hs1], scan_post_skip p1 hx0rest hx0in, ?_, ?_⟩
        · intro hr
          obtain ⟨f1, f2, f3⟩ := f hr
          refine ⟨f1, f2, ?_⟩
          intro x hx hx1
          rcases List.mem_cons.mp hx with e0 | k
          · rw [e0]
            exact ⟨hnd0, busy_not_dirty hbusy hnd0⟩
          · exact f3 x k hx1
        · intro hr
          obtain ⟨d, hd, rest1⟩ := t hr
          exact ⟨d, List.mem_cons_of_mem _ hd, rest1⟩
    · have e : ail1_start_scan sto a (x0 :: rest) s =
          ail1_start_scan sto a rest (promote_one a s x0) := by
        simp [ail1_start_scan, hd0, hda0, hbusy, promote_one]
      have p0 := promote_one_post a (x0 :: rest) s x0 h hx0 (List.mem_cons_self _ _) hsub
      have hx0out : x0 ∉ ((promote_one a s x0).ai a).ai_ail1_list := by
        rw [promote_one_ai]
        simp [List.mem_filter]
      have hsub0 : ∀ x ∈ rest, x ∈ ((promote_one a s x0).ai a).ai_ail1_list := by
        intro x hx
        rw [promote_one_ai]
        have hne : x ≠ x0 := fun e0 => hx0rest (e0 ▸ hx)
        simp [List.mem_filter, hne, hsub x (List.mem_cons_of_mem _ hx)]
      obtain ⟨r, s1, hs1, p1, f, t⟩ := ih (promote_one a s x0) p0.inv hndr hsub0
      have p01 : scan_post a (x0 :: rest) s s1 := by
        apply scan_post_trans p0 p1 (fun x hx => List.mem_cons_of_mem _ hx)
        intro x hx hx1
        rcases List.mem_cons.mp hx with e0 | k
        · rw [e0] at hx1; exact absurd hx1 hx0out
        · exact k
      refine ⟨r, s1, by rw [e, hs1], p01, ?_, ?_⟩
      · intro hr
        obtain ⟨f1, f2, f3⟩ := f hr
        refine ⟨by rw [f1, promote_one_io_log], by rw [f2, promote_one_bh], ?_⟩
        intro x hx hx1
        rcases List.mem_cons.mp hx with e0 | k
        · rw [e0] at hx1
          exact absurd (p1.ail1_sub x0 hx1) hx0out
        · have := f3 x k hx1
          rw [promote_one_bh] at this
          exact this
      · intro hr
        obtain ⟨d, hd, t1, t2, t3, t4, t5⟩ := t hr
        rw [promote_one_bh] at t1
        rw [promote_one_io_log] at t2
        refine ⟨d, List.mem_cons_of_mem _ hd, t1, t2, t3, ?_, t5⟩
        intro x hx
        rw [t4 x hx, promote_one_bh]

theorem scan_post_of_mem {a : Nat} {xs ys : List Nat} {s s1 : gfs2_sbd}
    (h : scan_post a xs s s1) (hm : ∀ x, x ∈ ys ↔ x ∈ xs) : scan_post a ys s s1 where
  inv := h.inv
  bd_eq := h.bd_eq
  ail1_sub := h.ail1_sub
  ail1_keep := fun x hx k => h.ail1_keep x (fun e => hx ((hm x).mpr e)) k
  bh_frame := fun x hx => h.bh_frame x (fun e => hx ((hm x).mpr e))
  bh_static := h.bh_static
  errs := h.errs
  fault := fun x hx => h.fault x ((hm x).mp hx)

theorem pending_dirty_shrinks {a : Nat} {s s1 : gfs2_sbd} {d : Nat} (h1 : ail_inv s1)
    (hsub : ∀ x, x ∈ (s1.ai a).ai_ail1_list → x ∈ (s.ai a).ai_ail1_list)
    (hd : d ∈ (s.ai a).ai_ail1_list) (hdirty : (s.bh d).BH_Dirty = true)
    (hclean : (s1.bh d).BH_Dirty = false) (hframe : ∀ x, x ≠ d → s1.bh x = s.bh x) :
    (∀ x ∈ pending_dirty s1 a, x ∈ pending_dirty s a) ∧
    (pending_dirty s1 a).length + 1 ≤ (pending_dirty s a).length := by
  have hmem : ∀ x ∈ pending_dirty s1 a, x ∈ pending_dirty s a ∧ x ≠ d := by
    intro x hx
    unfold pending_dirty at hx ⊢
    obtain ⟨hx1, hx2⟩ := List.mem_filter.mp hx
    have hne : x ≠ d := by
      intro e
      rw [e, hclean] at hx2
      cases hx2
    rw [hframe x hne] at hx2
    exact ⟨List.mem_filter.mpr ⟨hsub x hx1, hx2⟩, hne⟩
  refine ⟨fun x hx => (hmem x hx).1, ?_⟩
  have hnd1 : (pending_dirty s1 a).Nodup :=
    ((List.nodup_append.mp (h1.st_nodup a)).1).filter _
  have hdin : d ∈ pending_dirty s a := List.mem_filter.mpr ⟨hd, hdirty⟩
  have hss : pending_dirty s1 a ⊆ (pending_dirty s a).erase d := by
    intro x hx
    exact (List.mem_erase_of_ne (hmem x hx).2).mpr (hmem x hx).1
  have hle := (List.subperm_of_subset hnd1 hss).length_le
  rw [List.length_erase_of_mem hdin] at hle
  have hpos : 0 < (pending_dirty s a).length := List.length_pos_of_mem hdin
  omega

theorem start_one_bounded (sto : Storage) (a : Nat) :
    ∀ (k : Nat) (s : gfs2_sbd), ail_inv s → (pending_dirty s a).length ≤ k →
      ∃ s', gfs2_ail1_start_one sto (k + 1) s a = .ok s' ∧
        scan_post a (s.ai a).ai_ail1_list s s' ∧
        (∀ x ∈ (s'.ai a).ai_ail1_list, (s'.bh x).BH_Dirty = false ∧
          ((s'.bh x).BH_Lock = true ∨ (s'.bh x).BH_Pinned = true)) ∧
        ∃ ws : List Nat, s'.io_log = s.io_log ++ ws.map io_request.write ∧
          ws.length ≤ (pending_dirty s a).length ∧ ∀ w ∈ ws, w ∈ pending_dirty s a := by
  intro k
  induction k with
  | zero =>
    intro s h hlen
    have hndL : (s.ai a).ai_ail1_list.reverse.Nodup :=
      List.nodup_reverse.mpr (List.nodup_append.mp (h.st_nodup a)).1
    obtain ⟨r, s1, hs1, p, f, t⟩ := start_scan_post sto a _ s h hndL
      (fun x hx => List.mem_reverse.mp hx)
    have pL := scan_post_of_mem p (fun x => (List.mem_reverse).symm)
    cases r with
    | true =>
      obtain ⟨d, hd, hdirty, _⟩ := t rfl
      have hdin : d ∈ pending_dirty s a :=
        List.mem_filter.mpr ⟨List.mem_reverse.mp hd, hdirty⟩
      have := List.length_pos_of_mem hdin
      omega
    | false =>
      obtain ⟨f1, f2, f3⟩ := f rfl
      refine ⟨s1, by simp [gfs2_ail1_start_one, hs1], pL, ?_, [], by simp [f1], by simp,
        by simp⟩
      intro x hx
      rw [f2]
      exact f3 x (List.mem_reverse.mpr (p.ail1_sub x hx)) hx
  | succ k ih =>
    intro s h hlen
    have hndL : (s.ai a).ai_ail1_list.reverse.Nodup :=
      List.nodup_reverse.mpr (List.nodup_append.mp (h.st_nodup a)).1
    obtain ⟨r, s1, hs1, p, f, t⟩ := start_scan_post sto a _ s h hndL
      (fun x hx => List.mem_reverse.mp hx)
    have pL := scan_post_of_mem p (fun x => (List.mem_reverse).symm)
    cases r with
    | false =>
      obtain ⟨f1, f2, f3⟩ := f rfl
      refine ⟨s1, by simp [gfs2_ail1_start_one, hs1], pL, ?_, [], by simp [f1], by simp,
        by simp⟩
      intro x hx
      rw [f2]
      exact f3 x (List.mem_reverse.mpr (p.ail1_sub x hx)) hx
    | true =>
      obtain ⟨d, hd, hdirty, hio, hclean, hframe, _⟩ := t rfl
      have hsh := pending_dirty_shrinks p.inv p.ail1_sub (List.mem_reverse.mp hd) hdirty
        hclean hframe
      obtain ⟨s', hs', p', q', ws, hws, hwl, hwm⟩ := ih s1 p.inv (by omega)
      have e : gfs2_ail1_start_one sto (k + 1 + 1) s a =
          gfs2_ail1_start_one sto (k + 1) s1 a := by
        rw [gfs2_ail1_start_one]
        simp [hs1]
      refine ⟨s', by rw [e, hs'], ?_, q', d :: ws, ?_, ?_, ?_⟩
      · exact scan_post_trans pL p' (fun x hx => p.ail1_sub x hx) (fun x _ k => k)
      · rw [hws, hio]
        simp
      · simp only [List.length_cons]
        omega
      · intro w hw
        rcases List.mem_cons.mp hw with e0 | k0
        · rw [e0]
          exact List.mem_filter.mpr ⟨List.mem_reverse.mp hd, hdirty⟩
        · exact hsh.1 w (hwm w k0)

/-! ## Single membership in the lists of the AIL entries -/

/-- C13: in every state reached from an empty AIL by any sequence of returning calls
of `gfs2_dpin`, `gfs2_dunpin` (with an AIL entry), `gfs2_ail1_start_one`,
`gfs2_ail1_empty_one`, `gfs2_ail2_empty_one`, `gfs2_ail_empty_gl` and
`gfs2_buf_wipe`, with transfers in flight coming to their end in between, no bufdata
is twice on the pending and awaiting-release lists of an AIL entry, it is on a list
of entry `a` exactly when its `bd_ail` is `a`, and so it is on the lists of at most
one entry.  Hence the assertion `bd->bd_ail == ai` fails
in none of the three drain functions: each of them returns, or (the two with a loop
that must be given a budget) stops only for having been given too small a budget. -/
theorem ail_entry_membership_single (s0 s : gfs2_sbd) (h0 : ail_empty s0)
    (hr : reachable s0 s) :
    (∀ a, ((s.ai a).ai_ail1_list ++ (s.ai a).ai_ail2_list).Nodup) ∧
    (∀ a b, (b ∈ (s.ai a).ai_ail1_list ∨ b ∈ (s.ai a).ai_ail2_list) ↔
      ail_of s b = some a) ∧
    (∀ a a' b, (b ∈ (s.ai a).ai_ail1_list ∨ b ∈ (s.ai a).ai_ail2_list) →
      (b ∈ (s.ai a').ai_ail1_list ∨ b ∈ (s.ai a').ai_ail2_list) → a = a') ∧
    (∀ sto a fuel,
      (gfs2_ail1_start_one sto fuel s a = .error .no_fuel ∧
        fuel ≤ (pending_dirty s a).length) ∨
      ∃ s', gfs2_ail1_start_one sto fuel s a = .ok s') ∧
    (∀ a flags, ∃ r s', gfs2_ail1_empty_one s a flags = .ok (r, s')) ∧
    (∀ a fuel,
      (gfs2_ail2_empty_one fuel s a = .error .no_fuel ∧
        fuel < (s.ai a).ai_ail2_list.length) ∨
      ∃ s', gfs2_ail2_empty_one fuel s a = .ok s') := by
  have h := reachable_inv (ail_inv_of_empty h0) hr
  refine ⟨h.st_nodup, h.st_mem, ?_, ?_, ?_, ?_⟩
  · intro a a' b hb hb'
    have e1 := (h.st_mem a b).mp hb
    have e2 := (h.st_mem a' b).mp hb'
    rw [e1] at e2
    exact Option.some.inj e2
  · intro sto a fuel
    by_cases hf : fuel ≤ (pending_dirty s a).length
    · rcases ail1_start_one_keeps sto a fuel s h with h1 | ⟨s', hs', _⟩
      · exact Or.inl ⟨h1, hf⟩
      · exact Or.inr ⟨s', hs'⟩
    · obtain ⟨k, hk⟩ : ∃ k, fuel = k + 1 := ⟨fuel - 1, by omega⟩
      subst hk
      obtain ⟨s', hs', _⟩ := start_one_bounded sto a k s h (by omega)
      exact Or.inr ⟨s', hs'⟩
  · intro a flags
    obtain ⟨r, s', hs', _⟩ := ail1_empty_one_keeps s a flags h
    exact ⟨r, s', hs'⟩
  · intro a fuel
    by_cases hf : fuel < (s.ai a).ai_ail2_list.length
    · rcases ail2_empty_one_keeps a fuel s h with h1 | ⟨s', hs', _⟩
      · exact Or.inl ⟨h1, hf⟩
      · exact Or.inr ⟨s', hs'⟩
    · right
      refine ⟨_, ail2_empty_one_eq_release a _ s fuel rfl
        (List.nodup_append.mp (h.st_nodup a)).2.1 ?_ (by omega)⟩
      intro x hx
      exact (h.st_mem a x).mp (Or.inr hx)

/-- C13 at the example: buffer 10 was pinned, unpinned into entry 1 and written
back; it awaits release in entry 1 and is on no other list. -/
theorem ail_entry_membership_single_witness :
    (∀ a, ((sample_fresh_written.ai a).ai_ail1_list ++
      (sample_fresh_written.ai a).ai_ail2_list).Nodup) ∧
    (∀ a b, (b ∈ (sample_fresh_written.ai a).ai_ail1_list ∨
        b ∈ (sample_fresh_written.ai a).ai_ail2_list) ↔
      ail_of sample_fresh_written b = some a) ∧
    (∀ a a' b, (b ∈ (sample_fresh_written.ai a).ai_ail1_list ∨
        b ∈ (sample_fresh_written.ai a).ai_ail2_list) →
      (b ∈ (sample_fresh_written.ai a').ai_ail1_list ∨
        b ∈ (sample_fresh_written.ai a').ai_ail2_list) → a = a') ∧
    (∀ sto a fuel,
      (gfs2_ail1_start_one sto fuel sample_fresh_written a = .error .no_fuel ∧
        fuel ≤ (pending_dirty sample_fresh_written a).length) ∨
      ∃ s', gfs2_ail1_start_one sto fuel sample_fresh_written a = .ok s') ∧
    (∀ a flags, ∃ r s', gfs2_ail1_empty_one sample_fresh_written a flags = .ok (r, s')) ∧
    (∀ a fuel,
      (gfs2_ail2_empty_one fuel sample_fresh_written a = .error .no_fuel ∧
        fuel < (sample_fresh_written.ai a).ai_ail2_list.length) ∨
      ∃ s', gfs2_ail2_empty_one fuel sample_fresh_written a = .ok s') :=
  ail_entry_membership_single sample_fresh sample_fresh_written
    ⟨fun _ => ⟨rfl, rfl⟩, fun _ => ⟨rfl, rfl⟩, fun b => by
      unfold ail_of sample_fresh
      by_cases hb : b = 10 <;> simp [hb]⟩
    (reachable.step
      (reachable.step
        (reachable.step reachable.start
          (ail_step.dpin storage_sync_ok 10
            (show gfs2_dpin storage_sync_ok sample_fresh 10 = .ok sample_fresh_pinned
              from rfl)))
        (ail_step.dunpin 10 1
          (show gfs2_dunpin sample_fresh_pinned 10 (some 1) = .ok sample_fresh_logged
            from rfl)))
      (ail_step.ail1_start_one storage_sync_ok 2 1
        (show gfs2_ail1_start_one storage_sync_ok 2 sample_fresh_logged 1 =
          .ok sample_fresh_written from rfl)))

/-- The example of C13 in figures, and a state outside the reachable ones: where
buffer 10 sits on the pending list of entry 1 with `bd_ail` naming entry 2, the
assertion of `gfs2_ail1_empty_one` does fail. -/
theorem ail_entry_example :
    (sample_fresh_written.ai 1).ai_ail1_list = [] ∧
    (sample_fresh_written.ai 1).ai_ail2_list = [10] ∧
    ail_of sample_fresh_written 10 = some 1 ∧
    gfs2_ail1_empty_one sample_foreign_entry 1 { DIO_ALL := true } = .error .panic := by
  refine ⟨by decide, by decide, by decide, rfl⟩

theorem start_scan_retry (sto : Storage) (a : Nat) :
    ∀ (xs : List Nat) (t t1 : gfs2_sbd), ail1_start_scan sto a xs t = .ok (true, t1) →
      ∃ d ∈ xs, ∃ t0, (t0.bh d).BH_Dirty = true ∧
        t1 = ll_rw_block_write sto (wait_on_buffer sto (list_move_ail1 t0 d a) d) d ∧
        (t1.ai a).ai_ail1_list.head? = some d := by
  intro xs
  induction xs with
  | nil => intro t t1 h; simp [ail1_start_scan] at h
  | cons x rest ih =>
    intro t t1 h
    rw [ail1_start_scan] at h
    cases hbd : t.bd x with
    | none => rw [hbd] at h; simp at h
    | some d0 =>
      rw [hbd] at h
      simp only [] at h
      split at h
      · simp at h
      · split at h
        · obtain ⟨d, hd, rest1⟩ := ih _ t1 h
          exact ⟨d, List.mem_cons_of_mem _ hd, rest1⟩
        · split at h
          · obtain ⟨d, hd, rest1⟩ := ih _ t1 h
            exact ⟨d, List.mem_cons_of_mem _ hd, rest1⟩
          · rename_i hdirty
            injection h with h
            injection h with _ h
            refine ⟨x, List.mem_cons_self _ _, t, by simpa using hdirty, h.symm, ?_⟩
            rw [← h]
            have := write_back_ai sto a t x a
            unfold write_back at this
            rw [this]
            simp

/-- C15: let the list discipline of the AIL hold and let `fuel` passes be allowed,
more than there are dirty buffers on the pending list of entry `a` (of which there
are at most as many as the list is long).  Whatever the storage does with the writes
it is handed, `gfs2_ail1_start_one` returns; on return every buffer on the pending
list is not dirty and is locked or pinned; every buffer that was pending is still
pending or awaits release, in the latter case with a fault signalled if it is not
uptodate; the writes issued are of buffers that were dirty and pending, at most one
pass each.  A pass ends with `retry` set only by writing one dirty buffer, moved to
the head of the pending list before it is waited for and written. -/
theorem start_one_retries_bounded (sto : Storage) (s : gfs2_sbd) (a fuel : Nat)
    (h : ail_inv s) (hfuel : (pending_dirty s a).length < fuel) :
    (pending_dirty s a).length ≤ (s.ai a).ai_ail1_list.length ∧
    (∃ s', gfs2_ail1_start_one sto fuel s a = .ok s' ∧
      (∀ x ∈ (s'.ai a).ai_ail1_list, (s'.bh x).BH_Dirty = false ∧
        ((s'.bh x).BH_Lock = true ∨ (s'.bh x).BH_Pinned = true)) ∧
      (∀ x ∈ (s.ai a).ai_ail1_list, x ∈ (s'.ai a).ai_ail1_list ∨
        (x ∈ (s'.ai a).ai_ail2_list ∧
          ((s'.bh x).BH_Uptodate = false → (s'.bh x).b_blocknr ∈ s'.io_errors))) ∧
      (∃ ws : List Nat, s'.io_log = s.io_log ++ ws.map io_request.write ∧
        ws.length ≤ (pending_dirty s a).length ∧ ∀ w ∈ ws, w ∈ pending_dirty s a)) ∧
    (∀ xs t t1, ail1_start_scan sto a xs t = .ok (true, t1) →
      ∃ d ∈ xs, ∃ t0, (t0.bh d).BH_Dirty = true ∧
        t1 = ll_rw_block_write sto (wait_on_buffer sto (list_move_ail1 t0 d a) d) d ∧
        (t1.ai a).ai_ail1_list.head? = some d) := by
  refine ⟨List.length_filter_le _ _, ?_, start_scan_retry sto a⟩
  obtain ⟨k, hk⟩ : ∃ k, fuel = k + 1 := ⟨fuel - 1, by omega⟩
  subst hk
  obtain ⟨s', hs', p, q, w⟩ := start_one_bounded sto a k s h (by omega)
  refine ⟨s', hs', q, ?_, w⟩
  intro x hx
  have ha : ail_of s' x = some a := by
    rw [ail_of_congr p.bd_eq x]
    exact (h.st_mem a x).mp (Or.inl hx)
  rcases (p.inv.st_mem a x).mpr ha with k1 | k2
  · exact Or.inl k1
  · exact Or.inr ⟨k2, p.fault x hx k2⟩

/-- C15 at the example: entry 1 has three pending buffers, two of them dirty and one
pinned; three passes are enough, with the writes left in flight. -/
theorem start_one_retries_bounded_witness :
    (pending_dirty sample_three_repinned 1).length ≤
      (sample_three_repinned.ai 1).ai_ail1_list.length ∧
    (∃ s', gfs2_ail1_start_one storage_async_ok 3 sample_three_repinned 1 = .ok s' ∧
      (∀ x ∈ (s'.ai 1).ai_ail1_list, (s'.bh x).BH_Dirty = false ∧
        ((s'.bh x).BH_Lock = true ∨ (s'.bh x).BH_Pinned = true)) ∧
      (∀ x ∈ (sample_three_repinned.ai 1).ai_ail1_list, x ∈ (s'.ai 1).ai_ail1_list ∨
        (x ∈ (s'.ai 1).ai_ail2_list ∧
          ((s'.bh x).BH_Uptodate = false → (s'.bh x).b_blocknr ∈ s'.io_errors))) ∧
      (∃ ws : List Nat, s'.io_log = sample_three_repinned.io_log ++ ws.map io_request.write ∧
        ws.length ≤ (pending_dirty sample_three_repinned 1).length ∧
        ∀ w ∈ ws, w ∈ pending_dirty sample_three_repinned 1)) ∧
    (∀ xs t t1, ail1_start_scan storage_async_ok 1 xs t = .ok (true, t1) →
      ∃ d ∈ xs, ∃ t0, (t0.bh d).BH_Dirty = true ∧
        t1 = ll_rw_block_write storage_async_ok
          (wait_on_buffer storage_async_ok (list_move_ail1 t0 d 1) d) d ∧
        (t1.ai 1).ai_ail1_list.head? = some d) :=
  start_one_retries_bounded storage_async_ok sample_three_repinned 1 3
    (reachable_inv
      (ail_inv_of_empty ⟨fun _ => ⟨rfl, rfl⟩, fun _ => ⟨rfl, rfl⟩, fun b => by
        unfold ail_of sample_three
        by_cases hb : b = 10 ∨ b = 11 ∨ b = 12 <;> simp [hb]⟩)
      (reachable.step (reachable.step (reachable.step (reachable.step (reachable.step
        (reachable.step (reachable.step reachable.start
          (ail_step.dpin storage_sync_ok 10
            (show gfs2_dpin storage_sync_ok sample_three 10 = .ok sample_three_p10 from rfl)))
          (ail_step.dunpin 10 1
            (show gfs2_dunpin sample_three_p10 10 (some 1) = .ok sample_three_u10 from rfl)))
          (ail_step.dpin storage_sync_ok 11
            (show gfs2_dpin storage_sync_ok sample_three_u10 11 = .ok sample_three_p11
              from rfl)))
          (ail_step.dunpin 11 1
            (show gfs2_dunpin sample_three_p11 11 (some 1) = .ok sample_three_u11 from rfl)))
          (ail_step.dpin storage_sync_ok 12
            (show gfs2_dpin storage_sync_ok sample_three_u11 12 = .ok sample_three_p12
              from rfl)))
          (ail_step.dunpin 12 1
            (show gfs2_dunpin sample_three_p12 12 (some 1) = .ok sample_three_u12 from rfl)))
          (ail_step.dpin storage_sync_ok 11
            (show gfs2_dpin storage_sync_ok sample_three_u12 11 = .ok sample_three_repinned
              from rfl))))
    (by decide)

/-- The example of C15 in figures.  The pending list is 12, 11, 10 with 10 and 12
dirty.  Two passes are not enough and three are.  With the writes in flight the
list ends as 12, 10, 11, each buffer locked or pinned and none dirty; with the
writes ended at once 10 and 12 await release and the pinned 11 stays pending.
Either way two writes were issued, the older buffer first. -/
theorem start_one_example :
    (sample_three_repinned.ai 1).ai_ail1_list = [12, 11, 10] ∧
    pending_dirty sample_three_repinned 1 = [12, 10] ∧
    gfs2_ail1_start_one storage_async_ok 2 sample_three_repinned 1 = .error .no_fuel ∧
    (sample_three_started.ai 1).ai_ail1_list = [12, 10, 11] ∧
    (sample_three_started.ai 1).ai_ail2_list = [] ∧
    sample_three_started.io_log = [io_request.write 10, io_request.write 12] ∧
    (sample_three_synced.ai 1).ai_ail1_list = [11] ∧
    (sample_three_synced.ai 1).ai_ail2_list = [12, 10] ∧
    sample_three_synced.io_log = [io_request.write 10, io_request.write 12] := by
  refine ⟨by decide, by decide, rfl, by decide, by decide, by decide, by decide, by decide,
    by decide⟩

/-! ## Reference accounting -/

/-- The example of C16 in figures: the references held on buffer 10 along its way
through the AIL are 1 while pinned, 1 while pending, 2 while its write is in flight,
1 once the write has ended, 1 while awaiting release, and 0 after the release or
after a wipe of the block. -/
theorem refs_example :
    refs_held sample_fresh sample_fresh_pinned 10 = 1 ∧
    refs_held sample_fresh sample_fresh_logged 10 = 1 ∧
    refs_held sample_fresh sample_fresh_inflight 10 = 2 ∧
    refs_held sample_fresh (end_buffer_io sample_fresh_inflight 10 true) 10 = 1 ∧
    refs_held sample_fresh sample_fresh_written 10 = 1 ∧
    (sample_fresh_written.ai 1).ai_ail2_list = [10] ∧
    refs_held sample_fresh sample_fresh_released 10 = 0 ∧
    refs_held sample_fresh sample_fresh_wiped 10 = 0 ∧
    ail_of sample_fresh_wiped 10 = none := by
  refine ⟨?_, ?_, ?_, ?_, ?_, ?_, ?_, ?_, ?_⟩ <;> decide

/-- A call that raises a withdraw is left out of C16 for a reason: `gfs2_dpin` of a
buffer that is pinned already returns with a second reference taken for the one
pin. -/
theorem refs_after_failed_pin :
    refs_held sample_fresh
      (state_of (gfs2_dpin storage_sync_ok sample_fresh_pinned 10) sample_fresh) 10 = 2 ∧
    ((state_of (gfs2_dpin storage_sync_ok sample_fresh_pinned 10) sample_fresh).bh 10).BH_Pinned
      = true ∧
    ail_of (state_of (gfs2_dpin storage_sync_ok sample_fresh_pinned 10) sample_fresh) 10
      = none := by
  refine ⟨?_, ?_, ?_⟩ <;> decide

/-! ## C9: end-to-end drain of newly allocated blocks -/

theorem quiet_refl (s : gfs2_sbd) : quiet s s := ⟨rfl, rfl, rfl, rfl⟩

theorem quiet_trans {s1 s2 s3 : gfs2_sbd} (h1 : quiet s1 s2) (h2 : quiet s2 s3) :
    quiet s1 s3 :=
  ⟨h2.1.trans h1.1, h2.2.1.trans h1.2.1, h2.2.2.1.trans h1.2.2.1,
    h2.2.2.2.trans h1.2.2.2⟩

theorem wait_on_buffer_unlocked (sto : Storage) (s : gfs2_sbd) (b : Nat)
    (h : (s.bh b).BH_Lock = false) : wait_on_buffer sto s b = s := by
  unfold wait_on_buffer
  simp [h]

/-- Preparing an idle buffer as new: the buffer becomes uptodate and clean, nothing
else changes but the header stamped on the block. -/
theorem prep_new_buffer_spec (sto : Storage) (s : gfs2_sbd) (b : Nat)
    (hlock : (s.bh b).BH_Lock = false) :
    (gfs2_prep_new_buffer sto s b).bd = s.bd ∧
    (gfs2_prep_new_buffer sto s b).ai = s.ai ∧
    (gfs2_prep_new_buffer sto s b).gl = s.gl ∧
    quiet s (gfs2_prep_new_buffer sto s b) ∧
    (gfs2_prep_new_buffer sto s b).io_log = s.io_log ∧
    (∀ x, x ≠ b → (gfs2_prep_new_buffer sto s b).bh x = s.bh x) ∧
    ((gfs2_prep_new_buffer sto s b).bh b).BH_Uptodate = true ∧
    ((gfs2_prep_new_buffer sto s b).bh b).BH_Dirty = false ∧
    ((gfs2_prep_new_buffer sto s b).bh b).BH_Lock = false ∧
    ((gfs2_prep_new_buffer sto s b).bh b).BH_Pinned = (s.bh b).BH_Pinned ∧
    ((gfs2_prep_new_buffer sto s b).bh b).b_count = (s.bh b).b_count := by
  refine ⟨?_, ?_, ?_, ?_, ?_, ?_, ?_, ?_, ?_, ?_, ?_⟩
  · simp
  · simp
  · simp
  · unfold quiet; simp
  · simp
  · intro x hx; simp [hx]
  · simp
  · simp
  · simp
  · simp
  · simp [hlock]

/-- Pinning an uptodate, idle, unpinned buffer outside the AIL on a writable
filesystem: the buffer is pinned and clean and holds one more reference; no
withdraw, no I/O fault. -/
theorem dpin_fresh_spec (sto : Storage) (s : gfs2_sbd) (b : Nat) (d : gfs2_bufdata)
    (hbd : s.bd b = some d) (hail : d.bd_ail = none)
    (hup : (s.bh b).BH_Uptodate = true) (hlock : (s.bh b).BH_Lock = false)
    (hpin : (s.bh b).BH_Pinned = false) (hrw : s.SDF_ROFS = false) :
    ∃ s', gfs2_dpin sto s b = .ok s' ∧
      s'.bd = s.bd ∧ s'.ai = s.ai ∧ s'.gl = s.gl ∧ quiet s s' ∧ s'.io_log = s.io_log ∧
      (∀ x, x ≠ b → s'.bh x = s.bh x) ∧
      (s'.bh b).BH_Pinned = true ∧ (s'.bh b).BH_Uptodate = true ∧
      (s'.bh b).BH_Lock = false ∧ (s'.bh b).b_count = (s.bh b).b_count + 1 := by
  have e : gfs2_dpin sto s b =
      .ok (get_bh (clear_buffer_dirty (set_buffer_pinned s b) b) b) := by
    unfold gfs2_dpin
    have w1 : gfs2_assert_withdraw s (!s.SDF_ROFS) = s := by
      simp [gfs2_assert_withdraw, hrw]
    simp only [w1, hpin, Bool.false_eq_true, if_false]
    have w2 : wait_on_buffer sto (set_buffer_pinned s b) b = set_buffer_pinned s b :=
      wait_on_buffer_unlocked sto _ b (by simp [hlock])
    simp only [w2]
    have hb : (set_buffer_pinned s b).bd b = some d := by simp [hbd]
    simp only [hb, hail]
    have w3 : wait_on_buffer sto (clear_buffer_dirty (set_buffer_pinned s b) b) b =
        clear_buffer_dirty (set_buffer_pinned s b) b :=
      wait_on_buffer_unlocked sto _ b (by simp [hlock])
    simp only [w3]
    have hu : ((clear_buffer_dirty (set_buffer_pinned s b) b).bh b).BH_Uptodate = true := by
      simp [hup]
    simp only [hu, Bool.not_true, Bool.false_eq_true, if_false]
  refine ⟨_, e, ?_, ?_, ?_, ?_, ?_, ?_, ?_, ?_, ?_, ?_⟩
  · simp
  · simp
  · simp
  · unfold quiet; simp
  · simp
  · intro x hx; simp [hx]
  · simp
  · simp [hup]
  · simp [hlock]
  · simp

/-- Unpinning an uptodate, pinned buffer outside the AIL into AIL entry `a`: the
buffer is dirty and unpinned, heads the pending list of `a` and the AIL list of its
glock, whose count goes up by one; no reference is taken or dropped, no withdraw is
raised. -/
theorem dunpin_fresh_spec (s : gfs2_sbd) (b a : Nat) (d : gfs2_bufdata)
    (hbd : s.bd b = some d) (hail : d.bd_ail = none)
    (hup : (s.bh b).BH_Uptodate = true) (hpin : (s.bh b).BH_Pinned = true) :
    ∃ s', gfs2_dunpin s b (some a) = .ok s' ∧
      (∀ x, s'.bd x = if x = b then some { d with bd_ail := some a } else s.bd x) ∧
      (∀ x, s'.ai x = if x = a then
          { s.ai a with ai_ail1_list := b :: (s.ai a).ai_ail1_list } else s.ai x) ∧
      (∀ x, s'.gl x = if x = d.bd_gl then
          { s.gl d.bd_gl with gl_ail_list := b :: (s.gl d.bd_gl).gl_ail_list,
                              gl_ail_count := (s.gl d.bd_gl).gl_ail_count + 1 } else s.gl x) ∧
      quiet s s' ∧ s'.io_log = s.io_log ∧
      (∀ x, x ≠ b → s'.bh x = s.bh x) ∧
      (s'.bh b).BH_Dirty = true ∧ (s'.bh b).BH_Pinned = false ∧
      (s'.bh b).BH_Uptodate = true ∧
      (s'.bh b).BH_Lock = (s.bh b).BH_Lock ∧
      (s'.bh b).b_count = (s.bh b).b_count := by
  have e : gfs2_dunpin s b (some a) =
      .ok (list_add_ail1 (set_bd (ail_count_inc (list_add_gl
        (clear_buffer_pinned (mark_buffer_dirty s b) b) b d.bd_gl) d.bd_gl) b
        { d with bd_ail := some a }) b a) := by
    unfold gfs2_dunpin
    have w1 : gfs2_assert_withdraw s (s.bh b).BH_Uptodate = s := by
      simp [gfs2_assert_withdraw, hup]
    simp only [w1, hpin, Bool.not_true, Bool.false_eq_true, if_false]
    have hb : (clear_buffer_pinned (mark_buffer_dirty s b) b).bd b = some d := by
      simp [hbd]
    simp only [hb, hail]
  refine ⟨_, e, ?_, ?_, ?_, ?_, ?_, ?_, ?_, ?_, ?_, ?_, ?_⟩
  · intro x
    by_cases hx : x = b <;> simp [hx]
  · intro x
    by_cases hx : x = a <;> simp [hx]
  · intro x
    by_cases hx : x = d.bd_gl <;> simp [hx]
  · unfold quiet; simp
  · simp
  · intro x hx
    simp [hx]
  · simp
  · simp
  · simp [hup]
  · simp
  · simp

theorem pin_unpin_one_spec (sto : Storage) (a D : Nat) (s : gfs2_sbd) (b : Nat)
    (hbd : s.bd b = some { bd_gl := D, bd_ail := none })
    (hlock : (s.bh b).BH_Lock = false) (hpin : (s.bh b).BH_Pinned = false)
    (hrw : s.SDF_ROFS = false) :
    ∃ s', pin_unpin_one sto a s b = .ok s' ∧
      (∀ x, s'.bd x = if x = b then some { bd_gl := D, bd_ail := some a } else s.bd x) ∧
      (∀ x, s'.ai x = if x = a then
          { s.ai a with ai_ail1_list := b :: (s.ai a).ai_ail1_list } else s.ai x) ∧
      (∀ x, s'.gl x = if x = D then
          { s.gl D with gl_ail_list := b :: (s.gl D).gl_ail_list,
                        gl_ail_count := (s.gl D).gl_ail_count + 1 } else s.gl x) ∧
      quiet s s' ∧ s'.io_log = s.io_log ∧
      (∀ x, x ≠ b → s'.bh x = s.bh x) ∧
      (s'.bh b).BH_Uptodate = true ∧ (s'.bh b).BH_Dirty = true ∧
      (s'.bh b).BH_Lock = false ∧ (s'.bh b).BH_Pinned = false ∧
      (s'.bh b).b_count = (s.bh b).b_count + 1 := by
  obtain ⟨p1, p2, p3, p4, p5, p6, p7, _, p9, p10, p11⟩ := prep_new_buffer_spec sto s b hlock
  obtain ⟨s1, h1, q1, q2, q3, q4, q5, q6, q7, q8, q9, q10⟩ :=
    dpin_fresh_spec sto (gfs2_prep_new_buffer sto s b) b _ (by rw [p1]; exact hbd) rfl p7 p9
      (by rw [p10]; exact hpin) (by rw [p4.2.2.2]; exact hrw)
  obtain ⟨s2, h2, r1, r2, r3, r4, r5, r6, r7, r8, r9, r10, r11⟩ :=
    dunpin_fresh_spec s1 b a _ (by rw [q1, p1]; exact hbd) rfl q8 q7
  refine ⟨s2, ?_, ?_, ?_, ?_, quiet_trans (quiet_trans p4 q4) r4, ?_, ?_, r9, r7, ?_, r8, ?_⟩
  · unfold pin_unpin_one
    rw [h1]
    exact h2
  · intro x; rw [r1, q1, p1]
  · intro x; rw [r2, q2, p2]
  · intro x; rw [r3, q3, p3]
  · rw [r5, q5, p5]
  · intro x hx; rw [r6 x hx, q6 x hx, p6 x hx]
  · rw [r10, q9]
  · rw [r11, q10, p11]

/-- The new blocks `bs` of glock `D`, idle and unpinned, taken through a transaction
into AIL entry `E` on a writable filesystem: they line up on the pending list of `E`
and on the AIL list of `D`, newest first, uptodate and dirty, each with one more
reference, that of the AIL; no withdraw, no I/O fault, no transfer. -/
theorem pin_unpin_all_spec (sto : Storage) (E D : Nat) (bs : List Nat) :
    ∀ s : gfs2_sbd, bs.Nodup → s.SDF_ROFS = false →
      (∀ b ∈ bs, s.bd b = some { bd_gl := D, bd_ail := none } ∧
        (s.bh b).BH_Lock = false ∧ (s.bh b).BH_Pinned = false) →
      ∃ s', pin_unpin_all sto E bs s = .ok s' ∧
        (s'.ai E).ai_ail1_list = bs.reverse ++ (s.ai E).ai_ail1_list ∧
        (s'.ai E).ai_ail2_list = (s.ai E).ai_ail2_list ∧
        (s'.gl D).gl_ail_list = bs.reverse ++ (s.gl D).gl_ail_list ∧
        (s'.gl D).gl_ail_count = (s.gl D).gl_ail_count + (bs.length : Nat) ∧
        quiet s s' ∧ s'.io_log = s.io_log ∧
        (∀ b ∈ bs, s'.bd b = some { bd_gl := D, bd_ail := some E } ∧
          (s'.bh b).BH_Uptodate = true ∧ (s'.bh b).BH_Dirty = true ∧
          (s'.bh b).BH_Lock = false ∧ (s'.bh b).BH_Pinned = false ∧
          (s'.bh b).b_count = (s.bh b).b_count + 1) ∧
        (∀ x, x ∉ bs → s'.bd x = s.bd x ∧ s'.bh x = s.bh x) := by
  induction bs with
  | nil =>
    intro s _ _ _
    exact ⟨s, rfl, by simp, rfl, by simp, by simp, quiet_refl s, rfl, by simp, by simp⟩
  | cons b bs ih =>
    intro s hnd hrw hbd
    have hb : b ∉ bs := (List.nodup_cons.mp hnd).1
    obtain ⟨hb1, hb2, hb3⟩ := hbd b (List.mem_cons_self _ _)
    obtain ⟨s1, h1, a1, a2, a3, a4, a4', a5, a6, a7, a8, a9, a10⟩ :=
      pin_unpin_one_spec sto E D s b hb1 hb2 hb3 hrw
    have hbd1 : ∀ x ∈ bs, s1.bd x = some { bd_gl := D, bd_ail := none } ∧
        (s1.bh x).BH_Lock = false ∧ (s1.bh x).BH_Pinned = false := by
      intro x hx
      have hxb : x ≠ b := fun e => hb (e ▸ hx)
      rw [a1, if_neg hxb, a5 x hxb]
      exact hbd x (List.mem_cons_of_mem _ hx)
    obtain ⟨s2, h2, c1, c2, c3, c4, c4', c4'', c5, c6⟩ :=
      ih s1 (List.nodup_cons.mp hnd).2 (by rw [a4.2.2.2]; exact hrw) hbd1
    refine ⟨s2, ?_, ?_, ?_, ?_, ?_, quiet_trans a4 c4', by rw [c4'', a4'], ?_, ?_⟩
    · unfold pin_unpin_all
      rw [h1]
      exact h2
    · rw [c1, a2]; simp
    · rw [c2, a2]; simp
    · rw [c3, a3]; simp
    · rw [c4, a3]; simp; omega
    · intro x hx
      rcases List.mem_cons.mp hx with rfl | hx'
      · obtain ⟨e1, e2⟩ := c6 x hb
        rw [e1, e2, a1]
        simp [a6, a7, a8, a9, a10]
      · have hxb : x ≠ b := fun e => hb (e ▸ hx')
        obtain ⟨g1, g2, g3, g4, g5, g6⟩ := c5 x hx'
        refine ⟨g1, g2, g3, g4, g5, ?_⟩
        rw [g6, a5 x hxb]
    · intro x hx
      have hxb : x ≠ b := fun e => hx (e ▸ List.mem_cons_self _ _)
      have hxs : x ∉ bs := fun e => hx (List.mem_cons_of_mem _ e)
      obtain ⟨e1, e2⟩ := c6 x hxs
      rw [e1, e2, a1, if_neg hxb, a5 x hxb]
      exact ⟨rfl, rfl⟩

theorem promote_quiet (a : Nat) (xs : List Nat) :
    ∀ s : gfs2_sbd, (∀ x ∈ xs, (s.bh x).BH_Uptodate = true) →
      quiet s (promote a xs s) ∧ (promote a xs s).io_log = s.io_log := by
  induction xs with
  | nil => intro s _; exact ⟨quiet_refl s, rfl⟩
  | cons x xs ih =>
    intro s h
    have hx := h x (List.mem_cons_self _ _)
    have e : promote_one a s x = list_move_ail2 s x a := by
      unfold promote_one
      simp [hx]
    obtain ⟨q, l⟩ := ih (promote_one a s x) (by
      intro y hy
      rw [promote_one_bh]
      exact h y (List.mem_cons_of_mem _ hy))
    have q0 : quiet s (promote_one a s x) := by
      rw [e]; unfold quiet; simp
    have l0 : (promote_one a s x).io_log = s.io_log := by
      rw [e]; simp
    exact ⟨quiet_trans q0 q, l.trans l0⟩

/-- The last pass of `gfs2_ail1_start_one`: over clean, unpinned buffers of `a` the
scan promotes the idle ones, passes over those with a transfer in flight, and leaves
`retry` unset. -/
theorem ail1_start_scan_settle (sto : Storage) (a : Nat) (xs : List Nat) :
    ∀ s : gfs2_sbd,
      (∀ x ∈ xs, ail_of s x = some a) →
      (∀ x ∈ xs, (s.bh x).BH_Dirty = false ∧ (s.bh x).BH_Pinned = false) →
      ail1_start_scan sto a xs s =
        .ok (false, promote a (xs.filter (fun x => !(s.bh x).BH_Lock)) s) := by
  induction xs with
  | nil => intro s _ _; rfl
  | cons x xs ih =>
    intro s hwf hcl
    obtain ⟨d, hd, hda⟩ := ail_of_eq_some (hwf x (List.mem_cons_self _ _))
    obtain ⟨hx1, hx2⟩ := hcl x (List.mem_cons_self _ _)
    cases hl : (s.bh x).BH_Lock
    · have step : ail1_start_scan sto a (x :: xs) s =
          ail1_start_scan sto a xs (promote_one a s x) := by
        simp [ail1_start_scan, hd, hda, buffer_busy, hx1, hx2, hl, promote_one]
      rw [step, ih (promote_one a s x)]
      · simp only [List.filter_cons, hl, Bool.not_false, if_true, promote, promote_one_bh]
      · intro y hy
        have : ail_of (promote_one a s x) y = ail_of s y := by
          unfold ail_of; rw [promote_one_bd]
        rw [this]
        exact hwf y (List.mem_cons_of_mem _ hy)
      · intro y hy
        rw [promote_one_bh]
        exact hcl y (List.mem_cons_of_mem _ hy)
    · have step : ail1_start_scan sto a (x :: xs) s = ail1_start_scan sto a xs s := by
        simp [ail1_start_scan, hd, hda, buffer_busy, hx1, hx2, hl]
      rw [step, ih s (fun y hy => hwf y (List.mem_cons_of_mem _ hy))
        (fun y hy => hcl y (List.mem_cons_of_mem _ hy))]
      simp [List.filter_cons, hl]

/-- A dirty buffer of `a` at the front of the scan is written back and ends the
pass with `retry` set. -/
theorem ail1_start_scan_dirty (sto : Storage) (a : Nat) (d : Nat) (rest : List Nat)
    (s : gfs2_sbd) (hwf : ail_of s d = some a) (hdirty : (s.bh d).BH_Dirty = true) :
    ail1_start_scan sto a (d :: rest) s = .ok (true, write_back sto a s d) := by
  obtain ⟨bd, hd, hda⟩ := ail_of_eq_some hwf
  simp [ail1_start_scan, hd, hda, buffer_busy, hdirty, write_back]

/-- Writing back a dirty, idle, uptodate buffer on a storage on which no write
fails: the buffer is clean and uptodate, and while the write is in flight it is
locked and holds the reference of the block layer. -/
theorem write_back_fresh (sto : Storage) (a : Nat) (s : gfs2_sbd) (d : Nat)
    (hsto : ∀ n b, sto.submit n b ≠ .done false)
    (hdirty : (s.bh d).BH_Dirty = true) (hlock : (s.bh d).BH_Lock = false)
    (hup : (s.bh d).BH_Uptodate = true) :
    ((write_back sto a s d).bh d).BH_Dirty = false ∧
    ((write_back sto a s d).bh d).BH_Uptodate = true ∧
    ((write_back sto a s d).bh d).BH_Pinned = (s.bh d).BH_Pinned ∧
    ((write_back sto a s d).bh d).b_count =
      (s.bh d).b_count + (if ((write_back sto a s d).bh d).BH_Lock then 1 else 0) ∧
    quiet s (write_back sto a s d) := by
  have hb : (write_back sto a s d).bh d =
      submitted (sto.submit s.io_log.length d) { s.bh d with BH_Dirty := false } := by
    unfold write_back
    rw [wait_on_buffer_unlocked sto _ d (by simpa using hlock)]
    simp [hdirty, hlock]
  have hs := hsto s.io_log.length d
  refine ⟨?_, ?_, ?_, ?_, ?_⟩
  · rw [hb]; unfold submitted; split <;> rfl
  · rw [hb]; unfold submitted
    cases hr : sto.submit s.io_log.length d with
    | inflight => exact hup
    | done ok =>
      cases ok
      · exact absurd hr hs
      · rfl
  · rw [hb]; unfold submitted; split <;> rfl
  · rw [hb]; unfold submitted
    cases hr : sto.submit s.io_log.length d with
    | inflight => simp
    | done ok => simp [hlock]
  · unfold quiet
    refine ⟨?_, (write_back_bh sto a s d hdirty).2.2.2, ?_, ?_⟩ <;> simp [write_back]

/-- On a storage on which no write fails, with the pending list of `a` made of
clean, unpinned buffers (`C`, at the head) followed by dirty, idle, unpinned ones
(`Dd`, towards the tail), all uptodate, and nothing awaiting release,
`gfs2_ail1_start_one` ends after one pass per dirty buffer and one more: each dirty
buffer has been written, oldest first; the buffers whose transfer is in flight are
the pending list, the others await release. -/
theorem start_one_settles (sto : Storage) (a : Nat)
    (hsto : ∀ n b, sto.submit n b ≠ .done false) (Dd : List Nat) :
    ∀ (C : List Nat) (s : gfs2_sbd) (fuel : Nat),
      (s.ai a).ai_ail1_list = C ++ Dd → (s.ai a).ai_ail2_list = [] → (C ++ Dd).Nodup →
      (∀ x ∈ C ++ Dd, ail_of s x = some a ∧ (s.bh x).BH_Uptodate = true ∧
        (s.bh x).BH_Pinned = false) →
      (∀ x ∈ C, (s.bh x).BH_Dirty = false) →
      (∀ x ∈ Dd, (s.bh x).BH_Dirty = true ∧ (s.bh x).BH_Lock = false) →
      Dd.length + 1 ≤ fuel →
      ∃ s', gfs2_ail1_start_one sto fuel s a = .ok s' ∧
        (s'.ai a).ai_ail1_list.Nodup ∧ (s'.ai a).ai_ail2_list.Nodup ∧
        (∀ x, x ∈ (s'.ai a).ai_ail1_list ↔ (x ∈ C ++ Dd ∧ (s'.bh x).BH_Lock = true)) ∧
        (∀ x, x ∈ (s'.ai a).ai_ail2_list ↔ (x ∈ C ++ Dd ∧ (s'.bh x).BH_Lock = false)) ∧
        s'.bd = s.bd ∧ s'.gl = s.gl ∧
        (∀ x ∈ C, s'.bh x = s.bh x) ∧
        (∀ x ∈ Dd, (s'.bh x).BH_Dirty = false ∧ (s'.bh x).BH_Uptodate = true ∧
          (s'.bh x).BH_Pinned = false ∧
          (s'.bh x).b_count = (s.bh x).b_count + (if (s'.bh x).BH_Lock then 1 else 0)) ∧
        quiet s s' ∧
        s'.io_log = s.io_log ++ Dd.reverse.map io_request.write := by
  induction Dd using List.reverseRecOn with
  | nil =>
    intro C s fuel hL hL2 hnd hwf hclean _ hfuel
    simp only [List.append_nil] at hL hnd hwf
    cases fuel with
    | zero => simp at hfuel
    | succ f =>
      have hscan : ail1_start_scan sto a (s.ai a).ai_ail1_list.reverse s =
          .ok (false, promote a (C.reverse.filter (fun x => !(s.bh x).BH_Lock)) s) := by
        rw [hL]
        exact ail1_start_scan_settle sto a C.reverse s
          (fun x hx => (hwf x (List.mem_reverse.mp hx)).1)
          (fun x hx => ⟨hclean x (List.mem_reverse.mp hx),
            (hwf x (List.mem_reverse.mp hx)).2.2⟩)
      have hPnd : (C.reverse.filter (fun x => !(s.bh x).BH_Lock)).Nodup :=
        (List.nodup_reverse.mpr hnd).filter _
      obtain ⟨pq, pl⟩ := promote_quiet a (C.reverse.filter (fun x => !(s.bh x).BH_Lock)) s
        (fun x hx => (hwf x (List.mem_reverse.mp (List.mem_filter.mp hx).1)).2.1)
      refine ⟨_, ?_, ?_, ?_, ?_, ?_, promote_bd _ _ _, promote_gl _ _ _, ?_, ?_, pq, ?_⟩
      · unfold gfs2_ail1_start_one
        simp only [hscan]
      · rw [promote_ail1, hL]
        exact hnd.filter _
      · rw [promote_ail2 _ _ _ hPnd, hL2]
        simpa using hPnd
      · intro x
        have hP : x ∈ C.reverse.filter (fun x => !(s.bh x).BH_Lock) ↔
            (x ∈ C ∧ (s.bh x).BH_Lock = false) := by
          rw [List.mem_filter, List.mem_reverse]; simp
        rw [promote_ail1, hL, promote_bh, List.mem_filter]
        simp only [decide_eq_true_eq, hP, List.append_nil]
        constructor
        · rintro ⟨h1, h2⟩
          refine ⟨h1, ?_⟩
          cases hl : (s.bh x).BH_Lock
          · exact absurd ⟨h1, hl⟩ h2
          · rfl
        · rintro ⟨h1, h2⟩
          exact ⟨h1, fun k => by rw [h2] at k; exact Bool.noConfusion k.2⟩
      · intro x
        rw [promote_ail2 _ _ _ hPnd, hL2, promote_bh]
        simp
      · intro x _; rw [promote_bh]
      · intro x hx; simp at hx
      · rw [pl]; simp
  | append_singleton Dd' d ih =>
    intro C s fuel hL hL2 hnd hwf hclean hdirty hfuel
    cases fuel with
    | zero => simp at hfuel
    | succ f =>
      have hd := hdirty d (by simp)
      have hdw := hwf d (by simp)
      have hdC : d ∉ C := by
        intro h
        have := (List.nodup_append.mp hnd).2.2 h (show d ∈ Dd' ++ [d] by simp)
        exact this
      have hdD : d ∉ Dd' := by
        intro h
        have h2 := (List.nodup_append.mp hnd).2.1
        exact (List.nodup_append.mp h2).2.2 h (List.mem_singleton_self d)
      obtain ⟨w1, w2, w3, w4, wq⟩ := write_back_fresh sto a s d hsto hd.1 hd.2 hdw.2.1
      have w5 := (write_back_bh sto a s d hd.1).2.1
      have hscan : ail1_start_scan sto a (s.ai a).ai_ail1_list.reverse s =
          .ok (true, write_back sto a s d) := by
        rw [hL]
        simp only [List.reverse_append, List.reverse_singleton, List.singleton_append,
          List.cons_append]
        exact ail1_start_scan_dirty sto a d _ s hdw.1 hd.1
      have hfilt : (C ++ (Dd' ++ [d])).filter (fun x => decide (x ≠ d)) = C ++ Dd' := by
        simp only [List.filter_append, ne_eq, decide_not, List.filter_cons, decide_True,
          Bool.not_true, Bool.false_eq_true, if_false, List.filter_nil, List.append_nil]
        congr 1 <;>
        · apply List.filter_eq_self.mpr
          intro x hx
          have : x ≠ d := by
            intro e; subst e
            first | exact hdC hx | exact hdD hx
          simpa using this
      have hnd' : ((d :: C) ++ Dd').Nodup := by
        have hp : (C ++ (Dd' ++ [d])).Perm ((d :: C) ++ Dd') := by
          rw [← List.append_assoc]
          exact (List.perm_append_singleton d (C ++ Dd')).trans (by simp)
        exact hp.nodup_iff.mp hnd
      have hmem : ∀ x, x ∈ (d :: C) ++ Dd' ↔ x ∈ C ++ (Dd' ++ [d]) := by
        intro x
        simp only [List.cons_append, List.mem_cons, List.mem_append, List.mem_singleton]
        tauto
      obtain ⟨s', h1, h2, h3, h4, h5, h6, h7, h8, h9, hq, hl⟩ :=
        ih (d :: C) (write_back sto a s d) f
        (by rw [write_back_ai, hL, hfilt]; simp)
        (by rw [write_back_ai, hL2]; rfl)
        hnd'
        (by
          intro x hx
          have hx' := (hmem x).mp hx
          have : ail_of (write_back sto a s d) x = ail_of s x := by
            unfold ail_of; rw [write_back_bd]
          rw [this]
          by_cases hxd : x = d
          · subst hxd
            exact ⟨hdw.1, w2, by rw [w3]; exact hdw.2.2⟩
          · rw [w5 x hxd]
            exact hwf x hx')
        (by
          intro x hx
          rcases List.mem_cons.mp hx with rfl | hx'
          · exact w1
          · have hxd : x ≠ d := fun e => hdC (e ▸ hx')
            rw [w5 x hxd]
            exact hclean x hx')
        (by
          intro x hx
          have hxd : x ≠ d := fun e => hdD (e ▸ hx)
          rw [w5 x hxd]
          exact hdirty x (by simp [hx]))
        (by simp at hfuel; omega)
      refine ⟨s', ?_, h2, h3, ?_, ?_, by rw [h6, write_back_bd], by rw [h7, write_back_gl],
        ?_, ?_, quiet_trans wq hq, ?_⟩
      · unfold gfs2_ail1_start_one
        simp only [hscan]
        exact h1
      · intro x
        rw [h4 x, hmem x]
      · intro x
        rw [h5 x, hmem x]
      · intro x hx
        have hxd : x ≠ d := fun e => hdC (e ▸ hx)
        rw [h8 x (List.mem_cons_of_mem _ hx), w5 x hxd]
      · intro x hx
        rcases List.mem_append.mp hx with hx' | hx'
        · have hxd : x ≠ d := fun e => hdD (e ▸ hx')
          have := h9 x hx'
          rw [w5 x hxd] at this
          exact this
        · have e := List.mem_singleton.mp hx'
          subst e
          have hk := h8 x (List.mem_cons_self _ _)
          rw [hk]
          exact ⟨w1, w2, by rw [w3]; exact hdw.2.2, w4⟩
      · rw [hl, write_back_io_log sto a s d hd.1]
        simp

theorem filter_not_mem_self (l : List Nat) : l.filter (fun y => y ∉ l.reverse) = [] := by
  apply List.filter_eq_nil_iff.mpr
  intro x hx
  simpa using hx

theorem release_one_quiet (s : gfs2_sbd) (b : Nat) :
    quiet s (release_one s b) ∧ (release_one s b).io_log = s.io_log := by
  unfold release_one quiet
  cases s.bd b <;> simp

theorem release_quiet (xs : List Nat) :
    ∀ s : gfs2_sbd, quiet s (release xs s) ∧ (release xs s).io_log = s.io_log := by
  induction xs with
  | nil => intro s; exact ⟨quiet_refl s, rfl⟩
  | cons x xs ih =>
    intro s
    obtain ⟨q0, l0⟩ := release_one_quiet s x
    obtain ⟨q, l⟩ := ih (release_one s x)
    exact ⟨quiet_trans q0 q, l.trans l0⟩

theorem transfers_end_frame (sto : Storage) (bs : List Nat) :
    ∀ s : gfs2_sbd,
      (transfers_end sto bs s).bd = s.bd ∧ (transfers_end sto bs s).gl = s.gl ∧
      (transfers_end sto bs s).ai = s.ai ∧ quiet s (transfers_end sto bs s) ∧
      (transfers_end sto bs s).io_log = s.io_log := by
  induction bs with
  | nil => intro s; exact ⟨rfl, rfl, rfl, quiet_refl s, rfl⟩
  | cons b rest ih =>
    intro s
    obtain ⟨h1, h2, h3, h4, h5⟩ := ih (wait_on_buffer sto s b)
    have q0 : quiet s (wait_on_buffer sto s b) := by unfold quiet; simp
    refine ⟨?_, ?_, ?_, quiet_trans q0 h4, ?_⟩
    · exact h1.trans (by simp)
    · exact h2.trans (by simp)
    · exact h3.trans (by simp)
    · exact h5.trans (by simp)

/-- The buffers after the transfers in flight on `bs` have ended well: a buffer of
`bs` is unlocked, stays uptodate, and has given back the reference of the block
layer if a transfer was in flight on it; the other buffers are as they were. -/
theorem transfers_end_bh (sto : Storage) (hfin : ∀ n b, sto.finish n b = true)
    (bs : List Nat) :
    ∀ (s : gfs2_sbd) (x : Nat),
      (x ∉ bs → (transfers_end sto bs s).bh x = s.bh x) ∧
      (x ∈ bs →
        ((transfers_end sto bs s).bh x).BH_Lock = false ∧
        ((s.bh x).BH_Uptodate = true →
          ((transfers_end sto bs s).bh x).BH_Uptodate = true) ∧
        ((transfers_end sto bs s).bh x).BH_Dirty = (s.bh x).BH_Dirty ∧
        ((transfers_end sto bs s).bh x).BH_Pinned = (s.bh x).BH_Pinned ∧
        ((transfers_end sto bs s).bh x).b_count =
          (s.bh x).b_count - (if (s.bh x).BH_Lock then 1 else 0)) := by
  induction bs with
  | nil => intro s x; simp [transfers_end]
  | cons b rest ih =>
    intro s x
    have e : transfers_end sto (b :: rest) s =
        transfers_end sto rest (wait_on_buffer sto s b) := rfl
    rw [e]
    obtain ⟨i1, i2⟩ := ih (wait_on_buffer sto s b) x
    constructor
    · intro hx
      have hxb : x ≠ b := fun e => hx (by simp [e])
      have hxr : x ∉ rest := fun e => hx (by simp [e])
      rw [i1 hxr, wait_on_buffer_bh, if_neg hxb]
    · intro hx
      by_cases hxb : x = b
      · subst hxb
        have w : (wait_on_buffer sto s x).bh x =
            { s.bh x with
              BH_Lock := false,
              BH_Uptodate := if (s.bh x).BH_Lock then sto.finish s.io_log.length x
                else (s.bh x).BH_Uptodate,
              b_count := (s.bh x).b_count - (if (s.bh x).BH_Lock then 1 else 0) } := by
          rw [wait_on_buffer_bh, if_pos rfl]
        have wu : (s.bh x).BH_Uptodate = true →
            ((wait_on_buffer sto s x).bh x).BH_Uptodate = true := by
          intro hu
          rw [w]
          show (if (s.bh x).BH_Lock then sto.finish s.io_log.length x
            else (s.bh x).BH_Uptodate) = true
          split
          · exact hfin _ _
          · exact hu
        by_cases hxr : x ∈ rest
        · obtain ⟨c1, c2, c3, c4, c5⟩ := i2 hxr
          refine ⟨c1, fun hu => c2 (wu hu), ?_, ?_, ?_⟩
          · rw [c3, w]
          · rw [c4, w]
          · rw [c5, w]
            simp
        · rw [i1 hxr]
          refine ⟨?_, wu, ?_, ?_, ?_⟩ <;> rw [w]
      · have hxr : x ∈ rest := by
          rcases List.mem_cons.mp hx with e | e
          · exact absurd e hxb
          · exact e
        have w : (wait_on_buffer sto s b).bh x = s.bh x := by
          rw [wait_on_buffer_bh, if_neg hxb]
        rw [← w]
        exact i2 hxr

theorem transfers_end_idle (sto : Storage) (bs : List Nat) :
    ∀ s : gfs2_sbd, (∀ b ∈ bs, (s.bh b).BH_Lock = false) → transfers_end sto bs s = s := by
  induction bs with
  | nil => intro s _; rfl
  | cons b rest ih =>
    intro s h
    have e : transfers_end sto (b :: rest) s =
        transfers_end sto rest (wait_on_buffer sto s b) := rfl
    rw [e, wait_on_buffer_unlocked sto s b (h b (List.mem_cons_self _ _))]
    exact ih s (fun x hx => h x (List.mem_cons_of_mem _ hx))

/-- Once every buffer of the pending list of `a` is idle, clean, unpinned and
uptodate, `gfs2_ail1_empty_one` moves each of them to the awaiting-release list and
reports the pending list empty. -/
theorem ail1_empty_one_all_idle (a : Nat) (s : gfs2_sbd) (flags : dio_flags)
    (hwf : ∀ x ∈ (s.ai a).ai_ail1_list, ail_of s x = some a)
    (hfree : ∀ x ∈ (s.ai a).ai_ail1_list, buffer_busy (s.bh x) = false) :
    gfs2_ail1_empty_one s a flags =
      .ok (true, promote a (s.ai a).ai_ail1_list.reverse s) := by
  have h := ail1_empty_scan_promote a flags (s.ai a).ai_ail1_list.reverse [] s
    (fun x hx => ail_of_eq_some (hwf x (List.mem_reverse.mp hx)))
    (fun x hx => hfree x (List.mem_reverse.mp hx))
  rw [List.append_nil] at h
  unfold gfs2_ail1_empty_one
  rw [h]
  simp only [ail1_empty_scan]
  rw [promote_ail1, filter_not_mem_self]
  rfl

/-- C9: on a writable filesystem, for a glock `D` with `gl_ail_count = 0` and an
empty AIL list, a fresh AIL entry `E` and distinct new blocks `bs` of `D` whose
buffers are idle and unpinned, under a storage on which no write fails and every
transfer in flight ends well: preparing each buffer as new, pinning it and
unpinning it into `E` leaves the buffers uptodate and dirty on the pending list of
`E`, newest first, with the count of `D` at their number; `gfs2_ail1_start_one`
then returns, having issued one write per buffer, oldest first, and leaves pending
exactly the buffers whose write is in flight; once these transfers have ended,
`gfs2_ail1_empty_one` with no flag reports the pending list empty, and after
`gfs2_ail2_empty_one` the count of `D` is 0 again, its AIL list and both lists of
`E` are empty, and every buffer is uptodate, clean, idle, outside the AIL and holds
the references it started with.  No withdraw is raised and no I/O fault signalled on
the way. -/
theorem new_blocks_drain_end_to_end (sto : Storage) (sdp : gfs2_sbd) (D E : Nat)
    (bs : List Nat) (fuel : Nat)
    (hsto : ∀ n b, sto.submit n b ≠ .done false)
    (hfin : ∀ n b, sto.finish n b = true)
    (hrw : sdp.SDF_ROFS = false)
    (hnd : bs.Nodup)
    (hbd : ∀ b ∈ bs, sdp.bd b = some { bd_gl := D, bd_ail := none })
    (hnew : ∀ b ∈ bs, (sdp.bh b).BH_Lock = false ∧ (sdp.bh b).BH_Pinned = false ∧
      0 ≤ (sdp.bh b).b_count)
    (hcount : (sdp.gl D).gl_ail_count = 0)
    (hlist : (sdp.gl D).gl_ail_list = [])
    (hE1 : (sdp.ai E).ai_ail1_list = [])
    (hE2 : (sdp.ai E).ai_ail2_list = [])
    (hfuel : bs.length + 1 ≤ fuel) :
    ∃ s1 s2 s3 s4,
      pin_unpin_all sto E bs sdp = .ok s1 ∧
      (s1.gl D).gl_ail_count = (bs.length : Nat) ∧
      (s1.ai E).ai_ail1_list = bs.reverse ∧
      (∀ b ∈ bs, (s1.bh b).BH_Uptodate = true ∧ (s1.bh b).BH_Dirty = true) ∧
      s1.withdraws = sdp.withdraws ∧ s1.io_errors = sdp.io_errors ∧
      gfs2_ail1_start_one sto fuel s1 E = .ok s2 ∧
      s2.io_log = sdp.io_log ++ bs.map io_request.write ∧
      (∀ x, x ∈ (s2.ai E).ai_ail1_list ↔ (x ∈ bs ∧ (s2.bh x).BH_Lock = true)) ∧
      ((∀ b ∈ bs, (s2.bh b).BH_Lock = false) → transfers_end sto bs s2 = s2) ∧
      gfs2_ail1_empty_one (transfers_end sto bs s2) E {} = .ok (true, s3) ∧
      gfs2_ail2_empty_one fuel s3 E = .ok s4 ∧
      (s4.gl D).gl_ail_count = 0 ∧ (s4.gl D).gl_ail_list = [] ∧
      (s4.ai E).ai_ail1_list = [] ∧ (s4.ai E).ai_ail2_list = [] ∧
      (∀ b ∈ bs, (s4.bh b).BH_Uptodate = true ∧ (s4.bh b).BH_Dirty = false ∧
        (s4.bh b).BH_Lock = false ∧ (s4.bh b).BH_Pinned = false ∧
        (s4.bh b).b_count = (sdp.bh b).b_count ∧ ail_of s4 b = none) ∧
      s4.withdraws = sdp.withdraws ∧ s4.io_errors = sdp.io_errors ∧
      s4.SDF_SHUTDOWN = sdp.SDF_SHUTDOWN ∧ s4.io_log = s2.io_log := by
  -- the transaction
  obtain ⟨s1, hA, a1, a2, a3, a4, aq, al, a5, _⟩ := pin_unpin_all_spec sto E D bs sdp hnd hrw
    (fun b hb => ⟨hbd b hb, (hnew b hb).1, (hnew b hb).2.1⟩)
  rw [hE1, List.append_nil] at a1
  rw [hE2] at a2
  rw [hlist, List.append_nil] at a3
  rw [hcount, zero_add] at a4
  have hwf1 : ∀ x ∈ bs, ail_of s1 x = some E := by
    intro x hx
    unfold ail_of
    rw [(a5 x hx).1]
    rfl
  -- the write-back
  obtain ⟨s2, hB, b1, b2, b3, b4, b5, b6, _, b8, bq, bl⟩ :=
    start_one_settles sto E hsto bs.reverse [] s1 fuel
      (by rw [a1]; rfl) a2 (by simpa using hnd)
      (by
        intro x hx
        have hx' : x ∈ bs := by simpa using hx
        obtain ⟨_, u, _, _, p, _⟩ := a5 x hx'
        exact ⟨hwf1 x hx', u, p⟩)
      (by intro x hx; simp at hx)
      (by
        intro x hx
        have h := a5 x (List.mem_reverse.mp hx)
        exact ⟨h.2.2.1, h.2.2.2.1⟩)
      (by simpa using hfuel)
  have hm1 : ∀ x, x ∈ (s2.ai E).ai_ail1_list ↔ (x ∈ bs ∧ (s2.bh x).BH_Lock = true) := by
    intro x; rw [b3]; simp
  have hm2 : ∀ x, x ∈ (s2.ai E).ai_ail2_list ↔ (x ∈ bs ∧ (s2.bh x).BH_Lock = false) := by
    intro x; rw [b4]; simp
  have hlog : s2.io_log = sdp.io_log ++ bs.map io_request.write := by
    rw [bl, al, List.reverse_reverse]
  -- the transfers in flight end
  obtain ⟨t1, t2, t3, tq, tl⟩ := transfers_end_frame sto bs s2
  have hT : ∀ x ∈ bs,
      ((transfers_end sto bs s2).bh x).BH_Lock = false ∧
      ((transfers_end sto bs s2).bh x).BH_Uptodate = true ∧
      ((transfers_end sto bs s2).bh x).BH_Dirty = false ∧
      ((transfers_end sto bs s2).bh x).BH_Pinned = false ∧
      ((transfers_end sto bs s2).bh x).b_count = (sdp.bh x).b_count + 1 := by
    intro x hx
    obtain ⟨c1, c2, c3, c4, c5⟩ := (transfers_end_bh sto hfin bs s2 x).2 hx
    obtain ⟨d1, d2, d3, d4⟩ := b8 x (List.mem_reverse.mpr hx)
    refine ⟨c1, c2 d2, by rw [c3, d1], by rw [c4, d3], ?_⟩
    rw [c5, d4, (a5 x hx).2.2.2.2.2]
    split <;> omega
  have hTbd : ∀ x ∈ bs, (transfers_end sto bs s2).bd x =
      some { bd_gl := D, bd_ail := some E } := by
    intro x hx
    rw [t1, b5]
    exact (a5 x hx).1
  -- the check of the pending list
  have hL1 : ∀ x ∈ ((transfers_end sto bs s2).ai E).ai_ail1_list, x ∈ bs := by
    intro x hx
    rw [t3] at hx
    exact ((hm1 x).mp hx).1
  have hC := ail1_empty_one_all_idle E (transfers_end sto bs s2) {}
    (by
      intro x hx
      unfold ail_of
      rw [hTbd x (hL1 x hx)]
      rfl)
    (by
      intro x hx
      obtain ⟨c1, _, c3, c4, _⟩ := hT x (hL1 x hx)
      simp [buffer_busy, c1, c3, c4])
  rw [t3] at hC
  obtain ⟨pq, pl⟩ := promote_quiet E (s2.ai E).ai_ail1_list.reverse (transfers_end sto bs s2)
    (by
      intro x hx
      exact (hT x ((hm1 x).mp (List.mem_reverse.mp hx)).1).2.1)
  have hnd1r : (s2.ai E).ai_ail1_list.reverse.Nodup := List.nodup_reverse.mpr b1
  have h3ail2 : ((promote E (s2.ai E).ai_ail1_list.reverse
      (transfers_end sto bs s2)).ai E).ai_ail2_list =
      (s2.ai E).ai_ail1_list ++
        (s2.ai E).ai_ail2_list.filter (fun y => y ∉ (s2.ai E).ai_ail1_list.reverse) := by
    rw [promote_ail2 _ _ _ hnd1r, t3, List.reverse_reverse]
  have h3ail1 : ((promote E (s2.ai E).ai_ail1_list.reverse
      (transfers_end sto bs s2)).ai E).ai_ail1_list = [] := by
    rw [promote_ail1, t3, filter_not_mem_self]
  have h3mem : ∀ x, x ∈ ((promote E (s2.ai E).ai_ail1_list.reverse
      (transfers_end sto bs s2)).ai E).ai_ail2_list ↔ x ∈ bs := by
    intro x
    rw [h3ail2, List.mem_append, List.mem_filter]
    constructor
    · rintro (h | ⟨h, _⟩)
      · exact ((hm1 x).mp h).1
      · exact ((hm2 x).mp h).1
    · intro hx
      cases hl : (s2.bh x).BH_Lock
      · right
        refine ⟨(hm2 x).mpr ⟨hx, hl⟩, ?_⟩
        have : x ∉ (s2.ai E).ai_ail1_list := by
          intro k
          have := ((hm1 x).mp k).2
          rw [hl] at this
          exact Bool.noConfusion this
        simpa using this
      · left
        exact (hm1 x).mpr ⟨hx, hl⟩
  have h3nd : ((promote E (s2.ai E).ai_ail1_list.reverse
      (transfers_end sto bs s2)).ai E).ai_ail2_list.Nodup := by
    rw [h3ail2]
    refine List.nodup_append.mpr ⟨b1, b2.filter _, ?_⟩
    intro x h1 h2
    have := (List.mem_filter.mp h2).2
    simp at this
    exact this h1
  have h3len : ((promote E (s2.ai E).ai_ail1_list.reverse
      (transfers_end sto bs s2)).ai E).ai_ail2_list.length = bs.length :=
    ((List.perm_ext_iff_of_nodup h3nd hnd).mpr h3mem).length_eq
  have h3bd : ∀ x ∈ bs, (promote E (s2.ai E).ai_ail1_list.reverse
      (transfers_end sto bs s2)).bd x = some { bd_gl := D, bd_ail := some E } := by
    intro x hx
    rw [promote_bd]
    exact hTbd x hx
  -- the release
  have hD := ail2_empty_one_eq_release E _ (promote E (s2.ai E).ai_ail1_list.reverse
      (transfers_end sto bs s2)) fuel rfl h3nd
    (by
      intro x hx
      unfold ail_of
      rw [h3bd x ((h3mem x).mp hx)]
      rfl)
    (by rw [h3len]; omega)
  have hsome : ∀ x ∈ ((promote E (s2.ai E).ai_ail1_list.reverse
      (transfers_end sto bs s2)).ai E).ai_ail2_list.reverse,
      ((promote E (s2.ai E).ai_ail1_list.reverse (transfers_end sto bs s2)).bd x).isSome := by
    intro x hx
    rw [h3bd x ((h3mem x).mp (List.mem_reverse.mp hx))]
    rfl
  obtain ⟨rq, rl⟩ := release_quiet ((promote E (s2.ai E).ai_ail1_list.reverse
      (transfers_end sto bs s2)).ai E).ai_ail2_list.reverse
    (promote E (s2.ai E).ai_ail1_list.reverse (transfers_end sto bs s2))
  have hq : quiet sdp (release ((promote E (s2.ai E).ai_ail1_list.reverse
      (transfers_end sto bs s2)).ai E).ai_ail2_list.reverse
      (promote E (s2.ai E).ai_ail1_list.reverse (transfers_end sto bs s2))) :=
    quiet_trans (quiet_trans (quiet_trans (quiet_trans aq bq) tq) pq) rq
  refine ⟨s1, s2, _, _, hA, a4, a1, fun b hb => ⟨(a5 b hb).2.1, (a5 b hb).2.2.1⟩,
    aq.1, aq.2.1, hB, hlog, hm1, transfers_end_idle sto bs s2, hC, hD,
    ?_, ?_, ?_, ?_, ?_, hq.1, hq.2.1, hq.2.2.1, ?_⟩
  · rw [release_gl_count _ _ _ hsome, promote_gl, t2, b6, a4]
    have : (((promote E (s2.ai E).ai_ail1_list.reverse
        (transfers_end sto bs s2)).ai E).ai_ail2_list.reverse).countP
        (fun x => gl_of (promote E (s2.ai E).ai_ail1_list.reverse
          (transfers_end sto bs s2)) x = some D) = bs.length := by
      rw [← h3len, ← List.length_reverse]
      apply List.countP_eq_length.mpr
      intro x hx
      unfold gl_of
      rw [h3bd x ((h3mem x).mp (List.mem_reverse.mp hx))]
      simp
    rw [this]; omega
  · rw [release_gl_list _ _ _ hsome, promote_gl, t2, b6, a3]
    apply List.filter_eq_nil_iff.mpr
    intro x hx
    have : x ∈ ((promote E (s2.ai E).ai_ail1_list.reverse
        (transfers_end sto bs s2)).ai E).ai_ail2_list.reverse :=
      List.mem_reverse.mpr ((h3mem x).mpr (List.mem_reverse.mp hx))
    simpa using this
  · rw [release_ai _ _ _ hsome, h3ail1]
    rfl
  · rw [release_ai _ _ _ hsome]
    exact filter_not_mem_self _
  · intro b hb
    obtain ⟨c1, c2, c3, c4, c5⟩ := hT b hb
    have hmem : b ∈ ((promote E (s2.ai E).ai_ail1_list.reverse
        (transfers_end sto bs s2)).ai E).ai_ail2_list.reverse :=
      List.mem_reverse.mpr ((h3mem b).mpr hb)
    rw [release_bh _ _ _ hsome (List.nodup_reverse.mpr h3nd), promote_bh]
    refine ⟨c2, c3, c1, c4, ?_, ?_⟩
    · show ((transfers_end sto bs s2).bh b).b_count - _ = _
      rw [if_pos ⟨hmem, by rw [c5]; have := (hnew b hb).2.2; omega⟩, c5]
      omega
    · rw [release_ail_of, if_pos hmem]
  · rw [rl, pl, tl]

/-- C9 at the instance of the spec, blocks 10, 11, 12 of glock 0 into AIL entry 1,
on a storage that leaves every write in flight until it is waited for. -/
theorem new_blocks_drain_end_to_end_witness :
    ∃ s1 s2 s3 s4,
      pin_unpin_all storage_async_ok 1 [10, 11, 12] sample_new_blocks = .ok s1 ∧
      (s1.gl 0).gl_ail_count = (([10, 11, 12] : List Nat).length : Nat) ∧
      (s1.ai 1).ai_ail1_list = ([10, 11, 12] : List Nat).reverse ∧
      (∀ b ∈ [10, 11, 12], (s1.bh b).BH_Uptodate = true ∧ (s1.bh b).BH_Dirty = true) ∧
      s1.withdraws = sample_new_blocks.withdraws ∧
      s1.io_errors = sample_new_blocks.io_errors ∧
      gfs2_ail1_start_one storage_async_ok 4 s1 1 = .ok s2 ∧
      s2.io_log = sample_new_blocks.io_log ++ [10, 11, 12].map io_request.write ∧
      (∀ x, x ∈ (s2.ai 1).ai_ail1_list ↔ (x ∈ [10, 11, 12] ∧ (s2.bh x).BH_Lock = true)) ∧
      ((∀ b ∈ [10, 11, 12], (s2.bh b).BH_Lock = false) →
        transfers_end storage_async_ok [10, 11, 12] s2 = s2) ∧
      gfs2_ail1_empty_one (transfers_end storage_async_ok [10, 11, 12] s2) 1 {} =
        .ok (true, s3) ∧
      gfs2_ail2_empty_one 4 s3 1 = .ok s4 ∧
      (s4.gl 0).gl_ail_count = 0 ∧ (s4.gl 0).gl_ail_list = [] ∧
      (s4.ai 1).ai_ail1_list = [] ∧ (s4.ai 1).ai_ail2_list = [] ∧
      (∀ b ∈ [10, 11, 12], (s4.bh b).BH_Uptodate = true ∧ (s4.bh b).BH_Dirty = false ∧
        (s4.bh b).BH_Lock = false ∧ (s4.bh b).BH_Pinned = false ∧
        (s4.bh b).b_count = (sample_new_blocks.bh b).b_count ∧ ail_of s4 b = none) ∧
      s4.withdraws = sample_new_blocks.withdraws ∧
      s4.io_errors = sample_new_blocks.io_errors ∧
      s4.SDF_SHUTDOWN = sample_new_blocks.SDF_SHUTDOWN ∧ s4.io_log = s2.io_log :=
  new_blocks_drain_end_to_end storage_async_ok sample_new_blocks 0 1 [10, 11, 12] 4
    (fun _ _ h => io_result.noConfusion h) (fun _ _ => rfl) rfl (by decide) (by decide)
    (by decide) (by decide) (by decide) (by decide) (by decide) (by decide)

/-- The run of C9 at the instance of the spec, evaluated on a storage on which
every write has finished well when `ll_rw_block` returns: three writes are issued,
in commit order, `gfs2_ail1_start_one` itself moves the buffers to the
awaiting-release list, and every buffer ends uptodate, clean and with the reference
count it started with; nothing is withdrawn or faulted. -/
theorem new_blocks_drain_example :
    ∃ s1 s2 s3 s4,
      pin_unpin_all storage_sync_ok 1 [10, 11, 12] sample_new_blocks = .ok s1 ∧
      gfs2_ail1_start_one storage_sync_ok 4 s1 1 = .ok s2 ∧
      gfs2_ail1_empty_one s2 1 {} = .ok (true, s3) ∧
      gfs2_ail2_empty_one 3 s3 1 = .ok s4 ∧
      (s1.gl 0).gl_ail_count = 3 ∧ (s1.ai 1).ai_ail1_list = [12, 11, 10] ∧
      [10, 11, 12].map (fun b => (s1.bh b).b_count) = [2, 2, 2] ∧
      s2.io_log = [io_request.write 10, io_request.write 11, io_request.write 12] ∧
      (s2.ai 1).ai_ail1_list = [] ∧ (s2.ai 1).ai_ail2_list = [12, 11, 10] ∧
      (s4.gl 0).gl_ail_count = 0 ∧ (s4.gl 0).gl_ail_list = [] ∧
      [10, 11, 12].map (fun b => s4.bh b) =
        [10, 11, 12].map (fun b => mk_bh_stamped b true false false false 1) ∧
      s4.withdraws = 0 ∧ s4.io_errors = [] ∧ s4.SDF_SHUTDOWN = false :=
  ⟨_, _, _, _, rfl, rfl, rfl, rfl, by decide, by decide, by decide, by decide, by decide,
    by decide, by decide, by decide, by decide, by decide, by decide, by decide⟩

/-- The run of C9 at the instance of the spec, evaluated on a storage that leaves
every write in flight: after `gfs2_ail1_start_one` the three buffers are locked on
the pending list, each with the reference of its user, of the AIL and of the block
layer, and a check made at once reports the list as not empty; once the transfers
have ended `gfs2_ail1_empty_one` moves the three buffers to the awaiting-release
list and reports the pending list empty, and the release brings every buffer back
to the reference count it started with. -/
theorem new_blocks_in_flight_example :
    ∃ s1 s2 s2' s3 s4,
      pin_unpin_all storage_async_ok 1 [10, 11, 12] sample_new_blocks = .ok s1 ∧
      gfs2_ail1_start_one storage_async_ok 4 s1 1 = .ok s2 ∧
      gfs2_ail1_empty_one s2 1 {} = .ok (false, s2') ∧
      gfs2_ail1_empty_one (transfers_end storage_async_ok [10, 11, 12] s2) 1 {} =
        .ok (true, s3) ∧
      gfs2_ail2_empty_one 3 s3 1 = .ok s4 ∧
      s2.io_log = [io_request.write 10, io_request.write 11, io_request.write 12] ∧
      (s2.ai 1).ai_ail1_list = [12, 11, 10] ∧ (s2.ai 1).ai_ail2_list = [] ∧
      [10, 11, 12].map (fun b => (s2.bh b).BH_Lock) = [true, true, true] ∧
      [10, 11, 12].map (fun b => (s2.bh b).b_count) = [3, 3, 3] ∧
      (s2'.ai 1).ai_ail1_list = [12, 11, 10] ∧
      (s3.ai 1).ai_ail1_list = [] ∧ (s3.ai 1).ai_ail2_list = [12, 11, 10] ∧
      [10, 11, 12].map (fun b => (s3.bh b).b_count) = [2, 2, 2] ∧
      (s4.gl 0).gl_ail_count = 0 ∧ (s4.gl 0).gl_ail_list = [] ∧
      [10, 11, 12].map (fun b => s4.bh b) =
        [10, 11, 12].map (fun b => mk_bh_stamped b true false false false 1) ∧
      s4.withdraws = 0 ∧ s4.io_errors = [] ∧ s4.SDF_SHUTDOWN = false :=
  ⟨_, _, _, _, _, rfl, rfl, rfl, rfl, rfl, by decide, by decide, by decide, by decide,
    by decide, by decide, by decide, by decide, by decide, by decide, by decide, by decide,
    by decide, by decide, by decide⟩

/-- What preparing as new is for: the buffer of a new block is not uptodate when it
comes from the cache, and pinned as it is `gfs2_dpin` signals an I/O fault on it and
`gfs2_dunpin` raises a withdraw; prepared as new it goes through both untouched by
either. -/
theorem new_blocks_unprepared_example :
    (sample_new_blocks.bh 10).BH_Uptodate = false ∧
    (∃ s1 s2, gfs2_dpin storage_sync_ok sample_new_blocks 10 = .ok s1 ∧
      gfs2_dunpin s1 10 (some 1) = .ok s2 ∧
      s1.io_errors = [10] ∧ s1.SDF_SHUTDOWN = true ∧ s2.withdraws = 1) ∧
    (∃ s2, pin_unpin_one storage_sync_ok 1 sample_new_blocks 10 = .ok s2 ∧
      s2.io_errors = [] ∧ s2.SDF_SHUTDOWN = false ∧ s2.withdraws = 0 ∧
      (s2.bh 10).BH_Uptodate = true) :=
  ⟨by decide, ⟨_, _, rfl, rfl, by decide, by decide, by decide⟩,
    ⟨_, rfl, by decide, by decide, by decide, by decide⟩⟩
end Gfs2
